import Mathlib

/-!
Verification of douyin-openapi: request signing and callback verification.

A shallow embedding of `douyin_openapi.go` (package `douyin_openapi`).

Conventions of the embedding.

* A Go `string` is a Lean `String`.  Every string the signing code inspects was
  produced by `encoding/json`, hence is valid UTF-8, and for valid UTF-8 the
  byte-wise lexicographic order of Go's `<` on strings coincides with the
  lexicographic order on code points, which is the order used here.
* `[]byte(s)` is the identity, so the digests `md5.Sum` and `sha1` take a
  `String` and return the digest bytes.  The two digest functions belong to
  the Go standard library and are parameters of the embedding.
* A Go `map[string]interface{}` is the list of its entries in the order in
  which `range` visits them; Go leaves that order unspecified.
* A Go `error` is `Option String`: `none` is `nil`, `some m` carries the message.
-/

namespace DouyinOpenapi

/-! ## Standard-library functions used by the source -/

/-- One byte of a digest. -/
abbrev Byte := Fin 256

/-- Lexicographic comparison of two code-point sequences (Go's `<` on strings). -/
def bytesLess : List Char → List Char → Bool
  | _, [] => false
  | [], _ :: _ => true
  | a :: as, b :: bs =>
    if a.toNat < b.toNat then true
    else if b.toNat < a.toNat then false
    else bytesLess as bs

/-- Go's `a < b` on strings. -/
def stringLess (a b : String) : Bool := bytesLess a.data b.data

/-- Insert `x` into a list ordered by `less`, in front of the first element
that is not smaller than `x`. -/
def insertOrdered {α : Type} (less : α → α → Bool) (x : α) : List α → List α
  | [] => [x]
  | y :: ys => if less y x then y :: insertOrdered less x ys else x :: y :: ys

/-- Sorting by a `Less` function, as package `sort` does.  The result of
`sort.Sort` is determined by `Less` up to the order of equal elements, so an
insertion sort stands for it. -/
def sortBy {α : Type} (less : α → α → Bool) : List α → List α
  | [] => []
  | x :: xs => insertOrdered less x (sortBy less xs)

/-- The slice left by `sort.Strings`: the strings in increasing order. -/
def sortStrings (xs : List String) : List String := sortBy stringLess xs

/-- The table `unicode.White_Space`, which `unicode.IsSpace` consults. -/
def isSpace (c : Char) : Bool :=
  let n := c.toNat
  (0x09 ≤ n && n ≤ 0x0d) || n == 0x20 || n == 0x85 || n == 0xa0 || n == 0x1680 ||
  (0x2000 ≤ n && n ≤ 0x200a) || n == 0x2028 || n == 0x2029 || n == 0x202f ||
  n == 0x205f || n == 0x3000

/-- Go's `strings.TrimSpace`: drop leading and trailing white space. -/
def TrimSpace (s : String) : String :=
  ⟨((s.data.dropWhile isSpace).reverse.dropWhile isSpace).reverse⟩

/-- Go's `strings.HasPrefix`. -/
def HasPrefix (s pre : String) : Bool := pre.data.isPrefixOf s.data

/-- Go's `strings.HasSuffix`. -/
def HasSuffix (s suf : String) : Bool := suf.data.isSuffixOf s.data

/-- Go's `len(s)`: the number of bytes of the UTF-8 encoding. -/
def len (s : String) : Nat := s.utf8ByteSize

/-- The slice expression `value[1 : len(value)-1]`, used by the source only
when the first and the last byte are the one-byte character `"`: it removes
the first and the last character. -/
def sliceInner (value : String) : String := ⟨(value.data.drop 1).dropLast⟩

/-- Go's `strings.Join`. -/
def Join (elems : List String) (sep : String) : String := sep.intercalate elems

/-- One lowercase hexadecimal digit. -/
def hexDigit (n : Nat) : Char :=
  if n < 10 then Char.ofNat (48 + n) else Char.ofNat (87 + n)

/-- The verb `%x` applied to a byte slice: two lowercase hexadecimal digits
per byte. -/
def sprintfHex (bs : List Byte) : String :=
  ⟨bs.flatMap (fun b => [hexDigit (b.val / 16), hexDigit (b.val % 16)])⟩

/-! ## Decoded JSON values and the verb `%v` -/

/-- A `float64` as `strconv` sees it when formatting: the shortest decimal
digits `d₁ d₂ … dₙ` that identify the number, which then equals
`0.d₁d₂…dₙ × 10 ^ dp` (`decimalSlice` in `strconv`), and its sign.  Zero has
no digits and `dp = 0`. -/
structure Float64 where
  neg : Bool
  digits : List Nat
  dp : Int
deriving DecidableEq, Repr

/-- A JSON document.  `encoding/json` decodes it into `interface{}` as `nil`,
`bool`, `float64`, `string`, `[]interface{}` or `map[string]interface{}`. -/
inductive JValue where
  | null
  | bool (b : Bool)
  | num (x : Float64)
  | str (s : String)
  | arr (xs : List JValue)
  | obj (members : List (String × JValue))

/-- The Go map a list of object members decodes to: a later member replaces
an earlier one with the same name. -/
def mapOf {α : Type} : List (String × α) → List (String × α)
  | [] => []
  | kv :: rest =>
    if rest.any (fun kv' => kv'.1 == kv.1) then mapOf rest else kv :: mapOf rest

/-- The character of a decimal digit. -/
def digitChar (d : Nat) : Char := Char.ofNat (48 + d)

/-- The function `fmtF` of `strconv` at precision `max (nd - dp) 0`. -/
def fmtF (x : Float64) : String :=
  let nd : Int := x.digits.length
  let sign := if x.neg then "-" else ""
  let intPart : List Char :=
    if 0 < x.dp then
      (x.digits.take x.dp.toNat).map digitChar ++
        List.replicate (x.dp.toNat - x.digits.length) '0'
    else ['0']
  let prec := (nd - x.dp).toNat
  let frac : List Char :=
    if 0 < prec then
      '.' :: (List.range prec).map (fun i =>
        let j : Int := x.dp + i
        if 0 ≤ j ∧ j < nd then digitChar (x.digits.getD j.toNat 0) else '0')
    else []
  sign ++ ⟨intPart ++ frac⟩

/-- The function `fmtE` of `strconv` at precision `nd - 1`. -/
def fmtE (x : Float64) : String :=
  let sign := if x.neg then "-" else ""
  let first : Char := match x.digits with
    | [] => '0'
    | d :: _ => digitChar d
  let more : List Char :=
    if 1 < x.digits.length then '.' :: (x.digits.drop 1).map digitChar else []
  let exp : Int := if x.digits.length = 0 then 0 else x.dp - 1
  let esign : Char := if exp < 0 then '-' else '+'
  let e : Nat := exp.natAbs
  let edigits : List Char :=
    if e < 10 then ['0', digitChar e]
    else if e < 100 then [digitChar (e / 10), digitChar (e % 10)]
    else [digitChar (e / 100), digitChar (e / 10 % 10), digitChar (e % 10)]
  sign ++ ⟨first :: more ++ ('e' :: esign :: edigits)⟩

/-- The verb `%v` on a `float64`: `strconv.AppendFloat(_, v, 'g', -1, 64)`.
With the shortest digits the exponent form is chosen when the decimal
exponent is below `-4` or at least `6`. -/
def formatG (x : Float64) : String :=
  let exp := x.dp - 1
  if exp < -4 ∨ 6 ≤ exp then fmtE x else fmtF x

mutual
/-- The result of `fmt.Sprintf("%v", v)` for a value decoded into
`interface{}`. -/
def sprintV : JValue → String
  | .null => "<nil>"
  | .bool b => if b then "true" else "false"
  | .num x => formatG x
  | .str s => s
  | .arr xs => "[" ++ Join (sprintEach xs) " " ++ "]"
  | .obj members =>
    "map[" ++ Join ((sortBy (fun a b => stringLess a.1 b.1)
      (mapOf (sprintMembers members))).map (fun kv => kv.1 ++ ":" ++ kv.2)) " " ++ "]"
/-- The verb `%v` on every element of a slice. -/
def sprintEach : List JValue → List String
  | [] => []
  | x :: xs => sprintV x :: sprintEach xs
/-- The verb `%v` on every value of a nested map. -/
def sprintMembers : List (String × JValue) → List (String × String)
  | [] => []
  | (k, v) :: rest => (k, sprintV v) :: sprintMembers rest
end

/-- The call `json.Unmarshal(j, &paramsMap)` with
`paramsMap : map[string]interface{}`, where `j` is the output of
`json.Marshal` (`none` when marshalling failed and `j` is empty).  An object
decodes to its map, `null` leaves the map `nil`, everything else is an error. -/
def unmarshalMap : Option JValue → Option (List (String × JValue))
  | some (.obj members) => some (mapOf members)
  | some .null => some []
  | _ => none

/-! ## The client -/

/-- The part of `DouYinOpenApiConfig` that is plain data. -/
structure DouYinOpenApiConfig where
  AppId : String
  AppSecret : String
  IsSandbox : Bool
  Token : String
  Salt : String
deriving DecidableEq, Repr

/-- The client `DouYinOpenApi`. -/
structure DouYinOpenApi where
  Config : DouYinOpenApiConfig
  BaseApi : String
deriving DecidableEq, Repr

/-- The test `k == "other_settle_params" || … || k == "token"` of
`GenerateSign`. -/
def isSkippedKey (k : String) : Bool :=
  k == "other_settle_params" || k == "app_id" || k == "thirdparty_id" ||
  k == "sign" || k == "salt" || k == "token"

/-- The value of the variable `value` of `GenerateSign` at the test
`value == "" || value == "null"`. -/
def signValue (v : JValue) : String :=
  let value := TrimSpace (sprintV v)
  let value :=
    if HasPrefix value "\"" && HasSuffix value "\"" && decide (len value > 1) then
      sliceInner value
    else value
  TrimSpace value

/-- One iteration of the `for k, v := range paramsMap` loop of `GenerateSign`. -/
def signStep (paramsArr : List String) (kv : String × JValue) : List String :=
  if isSkippedKey kv.1 then paramsArr
  else
    let value := signValue kv.2
    if value == "" || value == "null" then paramsArr
    else paramsArr ++ [value]

/-- The slice `paramsArr` of `GenerateSign` after the loop and after the salt
was appended. -/
def signParts (d : DouYinOpenApi) (paramsMap : List (String × JValue)) : List String :=
  paramsMap.foldl signStep [] ++ [d.Config.Salt]

/-- The string `GenerateSign` hashes: `strings.Join(paramsArr, "&")` after
`sort.Strings(paramsArr)`. -/
def signString (d : DouYinOpenApi) (paramsMap : List (String × JValue)) : String :=
  Join (sortStrings (signParts d paramsMap)) "&"

/-- The method `GenerateSign`.  `params` is the JSON document
`json.Marshal(&params)` produced (`none` if it failed). -/
def GenerateSign (md5Sum : String → List Byte) (d : DouYinOpenApi)
    (params : Option JValue) : String :=
  match unmarshalMap params with
  | none => ""
  | some paramsMap => sprintfHex (md5Sum (signString d paramsMap))

/-- What one iteration of the loop of `GenerateSign` appends to `paramsArr`
for the entry `kv`, if anything. -/
def candidateOf (kv : String × JValue) : Option String :=
  if isSkippedKey kv.1 then none
  else if signValue kv.2 == "" || signValue kv.2 == "null" then none
  else some (signValue kv.2)

/-- A stand-in for a digest function, used to evaluate examples: the four
bytes of every code point of the input.  It has no collisions. -/
def exampleDigest (s : String) : List Byte :=
  s.data.flatMap (fun c => [Fin.ofNat (c.toNat / 16777216), Fin.ofNat (c.toNat / 65536),
    Fin.ofNat (c.toNat / 256), Fin.ofNat c.toNat])

/-! ## Callback signature verification -/

/-- The local variable `newSign` of `CheckResponseSign`: the `%x` rendering of
the SHA-1 digest of `strings.Join(strArr, "")` after `sort.Strings(strArr)`. -/
def newSign (sha1Sum : String → List Byte) (strArr : List String) : String :=
  sprintfHex (sha1Sum (Join (sortStrings strArr) ""))

/-- The method `CheckResponseSign`. -/
def CheckResponseSign (sha1Sum : String → List Byte) (_d : DouYinOpenApi)
    (oldSign : String) (strArr : List String) : Option String :=
  if newSign sha1Sum strArr != oldSign then
    some ("回调验签失败 newSign:" ++ newSign sha1Sum strArr ++ " oldSign:" ++ oldSign)
  else none

/-- The call `json.Unmarshal(data, &v)`.  The library first scans `data`
(`checkValid`) and returns the syntax error, leaving `v` untouched, when
`data` is not a well-formed JSON text; otherwise it decodes into `v`, which
may fail as well and then leaves `v` partly filled.  The scanner and the
decoder of the target type belong to `encoding/json` and are parameters. -/
def Unmarshal {α : Type} (checkValid : String → Option String)
    (decode : String → α → α × Option String) (data : String) (v : α) :
    α × Option String :=
  match checkValid data with
  | some e => (v, some e)
  | none => decode data v

/-- The struct `PayCallbackResponseData`. -/
structure PayCallbackResponseData where
  Appid : String := ""
  CpOrderNo : String := ""
  CpExtra : String := ""
  Way : String := ""
  PaymentOrderNo : String := ""
  TotalAmount : Int := 0
  Status : String := ""
  SellerUid : String := ""
  Extra : String := ""
  ItemId : String := ""
  OrderId : String := ""
deriving DecidableEq, Repr

/-- The struct `PayCallbackResponse`. -/
structure PayCallbackResponse where
  Timestamp : String := ""
  Nonce : String := ""
  Msg : String := ""
  MsgStruct : PayCallbackResponseData := {}
  MsgSignature : String := ""
  Type' : String := ""
deriving DecidableEq, Repr

/-- The struct `RefundCallbackResponseMsg`. -/
structure RefundCallbackResponseMsg where
  Appid : String := ""
  CpRefundNo : String := ""
  CpExtra : String := ""
  Status : String := ""
  RefundAmount : Int := 0
  IsAllSettled : Bool := false
  RefundedAt : Int := 0
  Message : String := ""
  OrderId : String := ""
  RefundNo : String := ""
deriving DecidableEq, Repr

/-- The struct `RefundCallbackResponse`. -/
structure RefundCallbackResponse where
  Timestamp : String := ""
  Nonce : String := ""
  Msg : String := ""
  MsgStruct : RefundCallbackResponseMsg := {}
  MsgSignature : String := ""
  Type' : String := ""
deriving DecidableEq, Repr

/-- The struct `SettleCallbackResponseMsg`. -/
structure SettleCallbackResponseMsg where
  AppId : String := ""
  CpSettleNo : String := ""
  CpExtra : String := ""
  Status : String := ""
  Rake : Int := 0
  Commission : Int := 0
  SettleDetail : String := ""
  SettledAt : Int := 0
  Message : String := ""
  OrderId : String := ""
  ChannelSettleId : String := ""
  SettleAmount : Int := 0
  SettleNo : String := ""
  OutOrderNo : String := ""
  IsAutoSettle : Bool := false
deriving DecidableEq, Repr

/-- The struct `SettleCallbackResponse`. -/
structure SettleCallbackResponse where
  Timestamp : String := ""
  Nonce : String := ""
  Type' : String := ""
  Msg : String := ""
  MsgStruct : SettleCallbackResponseMsg := {}
  MsgSignature : String := ""
deriving DecidableEq, Repr

/-- The struct `MerchantWithdrawCallbackResponseMsg`. -/
structure MerchantWithdrawCallbackResponseMsg where
  Status : String := ""
  Extra : String := ""
  Message : String := ""
  WithdrawAt : Int := 0
  OrderId : String := ""
  OutOrderId : String := ""
  ChOrderId : String := ""
deriving DecidableEq, Repr

/-- The struct `MerchantWithdrawCallbackResponse`. -/
structure MerchantWithdrawCallbackResponse where
  MsgSignature : String := ""
  Nonce : String := ""
  Timestamp : String := ""
  Type' : String := ""
  Msg : String := ""
  MsgStruct : MerchantWithdrawCallbackResponseMsg := {}
deriving DecidableEq, Repr

/-- The method `PayCallback`.  It returns the named results
`(payCallbackResponse, err)`. -/
def PayCallback (sha1Sum : String → List Byte) (checkValid : String → Option String)
    (decodeBody : String → PayCallbackResponse → PayCallbackResponse × Option String)
    (decodeMsg : String → PayCallbackResponseData → PayCallbackResponseData × Option String)
    (d : DouYinOpenApi) (body : String) (checkSign : Bool) :
    PayCallbackResponse × Option String :=
  match Unmarshal checkValid decodeBody body {} with
  | (payCallbackResponse, some err) => (payCallbackResponse, some err)
  | (payCallbackResponse, none) =>
    let sortedString := [d.Config.Token, payCallbackResponse.Timestamp,
      payCallbackResponse.Nonce, payCallbackResponse.Msg]
    match (if checkSign then
        CheckResponseSign sha1Sum d payCallbackResponse.MsgSignature sortedString
      else none) with
    | some err => (payCallbackResponse, some err)
    | none =>
      match Unmarshal checkValid decodeMsg payCallbackResponse.Msg {} with
      | (_, some err) => (payCallbackResponse, some err)
      | (msgStruct, none) => ({ payCallbackResponse with MsgStruct := msgStruct }, none)

/-- The method `RefundCallback`. -/
def RefundCallback (sha1Sum : String → List Byte) (checkValid : String → Option String)
    (decodeBody : String → RefundCallbackResponse → RefundCallbackResponse × Option String)
    (decodeMsg : String → RefundCallbackResponseMsg →
      RefundCallbackResponseMsg × Option String)
    (d : DouYinOpenApi) (body : String) (checkSign : Bool) :
    RefundCallbackResponse × Option String :=
  match Unmarshal checkValid decodeBody body {} with
  | (refundCallbackResponse, some err) => (refundCallbackResponse, some err)
  | (refundCallbackResponse, none) =>
    let sortedString := [d.Config.Token, refundCallbackResponse.Timestamp,
      refundCallbackResponse.Nonce, refundCallbackResponse.Msg]
    match (if checkSign then
        CheckResponseSign sha1Sum d refundCallbackResponse.MsgSignature sortedString
      else none) with
    | some err => (refundCallbackResponse, some err)
    | none =>
      match Unmarshal checkValid decodeMsg refundCallbackResponse.Msg {} with
      | (_, some err) => (refundCallbackResponse, some err)
      | (msgStruct, none) => ({ refundCallbackResponse with MsgStruct := msgStruct }, none)

/-- The method `SettleCallback`. -/
def SettleCallback (sha1Sum : String → List Byte) (checkValid : String → Option String)
    (decodeBody : String → SettleCallbackResponse → SettleCallbackResponse × Option String)
    (decodeMsg : String → SettleCallbackResponseMsg →
      SettleCallbackResponseMsg × Option String)
    (d : DouYinOpenApi) (body : String) (checkSign : Bool) :
    SettleCallbackResponse × Option String :=
  match Unmarshal checkValid decodeBody body {} with
  | (settleCallbackResponse, some err) => (settleCallbackResponse, some err)
  | (settleCallbackResponse, none) =>
    let sortedString := [d.Config.Token, settleCallbackResponse.Timestamp,
      settleCallbackResponse.Nonce, settleCallbackResponse.Msg]
    match (if checkSign then
        CheckResponseSign sha1Sum d settleCallbackResponse.MsgSignature sortedString
      else none) with
    | some err => (settleCallbackResponse, some err)
    | none =>
      match Unmarshal checkValid decodeMsg settleCallbackResponse.Msg {} with
      | (_, some err) => (settleCallbackResponse, some err)
      | (msgStruct, none) => ({ settleCallbackResponse with MsgStruct := msgStruct }, none)

/-- The method `MerchantWithdrawCallback`. -/
def MerchantWithdrawCallback (sha1Sum : String → List Byte)
    (checkValid : String → Option String)
    (decodeBody : String → MerchantWithdrawCallbackResponse →
      MerchantWithdrawCallbackResponse × Option String)
    (decodeMsg : String → MerchantWithdrawCallbackResponseMsg →
      MerchantWithdrawCallbackResponseMsg × Option String)
    (d : DouYinOpenApi) (body : String) (checkSign : Bool) :
    MerchantWithdrawCallbackResponse × Option String :=
  match Unmarshal checkValid decodeBody body {} with
  | (merchantWithdrawCallbackResponse, some err) =>
    (merchantWithdrawCallbackResponse, some err)
  | (merchantWithdrawCallbackResponse, none) =>
    let sortedString := [d.Config.Token, merchantWithdrawCallbackResponse.Timestamp,
      merchantWithdrawCallbackResponse.Nonce, merchantWithdrawCallbackResponse.Msg]
    match (if checkSign then
        CheckResponseSign sha1Sum d merchantWithdrawCallbackResponse.MsgSignature
          sortedString
      else none) with
    | some err => (merchantWithdrawCallbackResponse, some err)
    | none =>
      match Unmarshal checkValid decodeMsg merchantWithdrawCallbackResponse.Msg {} with
      | (_, some err) => (merchantWithdrawCallbackResponse, some err)
      | (msgStruct, none) =>
        ({ merchantWithdrawCallbackResponse with MsgStruct := msgStruct }, none)

/-! ## Webhooks -/

/-- The struct `VerifyWebhook`. -/
structure VerifyWebhook where
  Challenge : Int := 0
deriving DecidableEq, Repr

/-- The struct `EventImAuthorize`. -/
structure EventImAuthorize where
  CreateTime : Int := 0
  ExpireTime : Int := 0
  UpdateTime : Int := 0
  OperationType : Int := 0
  AuthStatus : Int := 0
  Source : String := ""
  Extra : String := ""
  LogId : String := ""
deriving DecidableEq, Repr

/-- The struct `UserInfos`. -/
structure UserInfos where
  OpenId : String := ""
  NickName : String := ""
  Avatar : String := ""
deriving DecidableEq, Repr

/-- The struct `EventImAuthorizeMessageCallback`. -/
structure EventImAuthorizeMessageCallback where
  ConversationShortId : String := ""
  ServerMessageId : String := ""
  ConversationType : Int := 0
  CreateTime : Int := 0
  MessageType : String := ""
  Text : String := ""
  Image : String := ""
  ItemId : String := ""
  Content : String := ""
  Title : String := ""
  Actions : String := ""
  UserInfos : UserInfos := {}
deriving DecidableEq, Repr

/-- The struct `WebHookBody`. -/
structure WebHookBody where
  Event : String := ""
  ClientKey : String := ""
  FromUserId : String := ""
  ToUserId : String := ""
  Content : String := ""
  VerifyWebhookContent : VerifyWebhook := {}
  ImAuthorizeContent : EventImAuthorize := {}
  MsgCallbackContent : EventImAuthorizeMessageCallback := {}
deriving DecidableEq, Repr

/-- Go's `hex.EncodeToString`: two lowercase hexadecimal digits per byte, the
same text as the verb `%x` gives. -/
def EncodeToString (src : List Byte) : String := sprintfHex src

/-- The method `generateSignature`: the hexadecimal SHA-1 digest of the
application secret followed by the body (two successive `Write`s). -/
def generateSignature (sha1Sum : String → List Byte) (d : DouYinOpenApi)
    (body : String) : String :=
  EncodeToString (sha1Sum (d.Config.AppSecret ++ body))

/-- The method `HandleWebHook`.  It returns the named results
`(webHookBody, err)`. -/
def HandleWebHook (sha1Sum : String → List Byte) (checkValid : String → Option String)
    (decodeBody : String → WebHookBody → WebHookBody × Option String)
    (decodeVerify : String → VerifyWebhook → VerifyWebhook × Option String)
    (decodeAuthorize : String → EventImAuthorize → EventImAuthorize × Option String)
    (decodeCallback : String → EventImAuthorizeMessageCallback →
      EventImAuthorizeMessageCallback × Option String)
    (d : DouYinOpenApi) (xDouyinSignature body : String) (checkSign : Bool) :
    WebHookBody × Option String :=
  if checkSign == true && generateSignature sha1Sum d body != xDouyinSignature then
    ({}, some ("signature error new: " ++ generateSignature sha1Sum d body ++
      " old: " ++ xDouyinSignature))
  else
    match Unmarshal checkValid decodeBody body {} with
    | (webHookBody, some err) => (webHookBody, some err)
    | (webHookBody, none) =>
      if webHookBody.Event = "verify_webhook" then
        match Unmarshal checkValid decodeVerify webHookBody.Content {} with
        | (_, some err) => (webHookBody, some err)
        | (verifyWebhook, none) =>
          ({ webHookBody with VerifyWebhookContent := verifyWebhook }, none)
      else if webHookBody.Event = "im_authorize" then
        match Unmarshal checkValid decodeAuthorize webHookBody.Content {} with
        | (_, some err) => (webHookBody, some err)
        | (eventImAuthorize, none) =>
          ({ webHookBody with ImAuthorizeContent := eventImAuthorize }, none)
      else if webHookBody.Event = "im_authorize_message_callback" then
        match Unmarshal checkValid decodeCallback webHookBody.Content {} with
        | (_, some err) => (webHookBody, some err)
        | (eventImAuthorizeMessageCallback, none) =>
          ({ webHookBody with MsgCallbackContent := eventImAuthorizeMessageCallback }, none)
      else (webHookBody, some ("event " ++ webHookBody.Event ++ " not support"))

/-! ## Access token (package `access_token`) -/

/-- The constant `accessTokenURL`. -/
def accessTokenURL : String := "https://developer.toutiao.com/api/apps/v2/token"

/-- The constant `sandBoxTokenURL`. -/
def sandBoxTokenURL : String := "https://open-sandbox.douyin.com/api/apps/v2/token"

/-- Wrap-around of 64-bit signed arithmetic (Go's `int` and `time.Duration`). -/
def wrapInt64 (x : Int) : Int :=
  (x + 9223372036854775808) % 18446744073709551616 - 9223372036854775808

/-- A value stored in the cache (`interface{}`): a string, or a value of
another dynamic type, of which only the type name matters. -/
inductive CacheValue where
  | str (s : String)
  | other (typeName : String)
deriving DecidableEq, Repr

/-- The interface `cache.Cache` as the sources use it, over cache states `σ`:
`Get` returns the stored value or `nil` (`none`), `Set` stores a value with a
time-to-live (a `time.Duration`, in nanoseconds) and may fail.  The package
`cache` is not among the sources, so a cache is a parameter. -/
structure Cache (σ : Type) where
  Get : σ → String → Option CacheValue
  Set : σ → String → CacheValue → Int → σ × Option String

/-- Modelled from the spec: the in-memory cache of package `cache`, which is not
among the sources.  An entry is stored with a time-to-live and is returned by
a lookup while it is present and unexpired; at the expiry of the time-to-live
it is gone.  `now` is the clock, in nanoseconds. -/
structure Memory where
  now : Int
  data : List (String × CacheValue × Int)
deriving DecidableEq, Repr

/-- Modelled from the spec: lookup in the in-memory cache, `none` when the key
is absent or its entry has expired. -/
def Memory.Get (m : Memory) (key : String) : Option CacheValue :=
  match m.data.find? (fun e => e.1 == key) with
  | some e => if m.now < e.2.2 then some e.2.1 else none
  | none => none

/-- Modelled from the spec: store in the in-memory cache with a time-to-live;
it replaces the entry of the key and never fails. -/
def Memory.Set (m : Memory) (key : String) (val : CacheValue) (timeout : Int) :
    Memory × Option String :=
  ({ m with data := (key, val, m.now + timeout) :: m.data.filter (fun e => e.1 != key) }, none)

/-- Modelled from the spec: the passing of `dt` nanoseconds. -/
def Memory.advance (m : Memory) (dt : Int) : Memory := { m with now := m.now + dt }

/-- Modelled from the spec: the in-memory cache as a `Cache`. -/
def memoryCache : Cache Memory := ⟨Memory.Get, Memory.Set⟩

/-- The struct `DefaultAccessToken`, without its cache and its lock, which
are part of the `World`. -/
structure DefaultAccessToken where
  AppId : String
  AppSecret : String
  GrantType : String
  accessTokenCacheKey : String
  SandBox : Bool
deriving DecidableEq, Repr

/-- How a call ends: it returns, it panics, or it waits for a lock that is
held (and nothing else runs that could release it). -/
inductive Outcome (α : Type) where
  | returned (a : α)
  | panicked (v : String)
  | blocked
deriving DecidableEq, Repr

/-- What a call does to its surroundings. -/
inductive Event where
  | cacheGet (key : String)
  | cacheSet (key : String) (val : CacheValue) (timeout : Int)
  | lock
  | unlock
  | post (api : String) (params : List (String × String))
deriving DecidableEq, Repr

/-- The surroundings of `GetAccessToken`: the cache, whether the process-wide
mutex `accessTokenLock` is held, and the events so far, oldest first. -/
structure World (σ : Type) where
  cache : σ
  locked : Bool
  events : List Event
deriving DecidableEq, Repr

/-- Record an event. -/
def World.emit {σ : Type} (w : World σ) (e : Event) : World σ :=
  { w with events := w.events ++ [e] }

/-- The call `accessTokenLock.Lock()` on a free mutex. -/
def World.lock {σ : Type} (w : World σ) : World σ :=
  { w with locked := true, events := w.events ++ [Event.lock] }

/-- The deferred call `accessTokenLock.Unlock()`. -/
def World.unlock {σ : Type} (w : World σ) : World σ :=
  { w with locked := false, events := w.events ++ [Event.unlock] }

/-- The function `NewDefaultAccessToken`; `cacheIsNil` tells whether the
`cache` argument is `nil`. -/
def NewDefaultAccessToken (appId appSecret : String) (cacheIsNil : Bool) (IsSandbox : Bool) :
    Outcome DefaultAccessToken :=
  if cacheIsNil then Outcome.panicked "cache is need"
  else Outcome.returned
    { AppId := appId, AppSecret := appSecret, GrantType := "client_credential",
      accessTokenCacheKey := "douyin_openapi_access_token_" ++ appId, SandBox := IsSandbox }

/-- The method `GetCacheKey`. -/
def DefaultAccessToken.GetCacheKey (dd : DefaultAccessToken) : String :=
  dd.accessTokenCacheKey

/-- The method `SetCacheKey`. -/
def DefaultAccessToken.SetCacheKey (dd : DefaultAccessToken) (key : String) :
    DefaultAccessToken :=
  { dd with accessTokenCacheKey := key }

/-- The struct `ResAccessTokenData`. -/
structure ResAccessTokenData where
  AccessToken : String := ""
  ExpiresIn : Int := 0
deriving DecidableEq, Repr

/-- The struct `ResAccessToken`. -/
structure ResAccessToken where
  ErrNo : Int := 0
  ErrTips : String := ""
  Data : ResAccessTokenData := {}
deriving DecidableEq, Repr

/-- The verbs `%d` and `%v` on an integer. -/
def sprintInt (n : Int) : String :=
  if n < 0 then "-" ++ Nat.repr n.natAbs else Nat.repr n.natAbs

/-- The function `GetTokenFromServer`.  `PostJSON` is `util.PostJSON`, the
transport, which is not among the sources: it returns the response body and
an error. -/
def GetTokenFromServer (PostJSON : String → List (String × String) → String × Option String)
    (checkValid : String → Option String)
    (decodeRes : String → ResAccessToken → ResAccessToken × Option String)
    (apiUrl appId appSecret : String) : ResAccessToken × Option String :=
  let params := [("appid", appId), ("secret", appSecret), ("grant_type", "client_credential")]
  match PostJSON apiUrl params with
  | (_, some err) => ({}, some err)
  | (body, none) =>
    match Unmarshal checkValid decodeRes body {} with
    | (resAccessToken, some err) => (resAccessToken, some err)
    | (resAccessToken, none) =>
      if resAccessToken.ErrNo ≠ 0 then
        (resAccessToken, some ("get access_token error : errcode=" ++ resAccessToken.ErrTips ++
          " , errormsg=" ++ sprintInt resAccessToken.ErrNo))
      else (resAccessToken, none)

/-- The method `GetAccessToken`, run to its end in the world `w` with nothing
else running.  It yields how the call ends and the world it leaves. -/
def GetAccessToken {σ : Type} (C : Cache σ)
    (PostJSON : String → List (String × String) → String × Option String)
    (checkValid : String → Option String)
    (decodeRes : String → ResAccessToken → ResAccessToken × Option String)
    (dd : DefaultAccessToken) (w : World σ) : Outcome (String × Option String) × World σ :=
  let w := w.emit (Event.cacheGet dd.GetCacheKey)
  match C.Get w.cache dd.GetCacheKey with
  | some (CacheValue.str val) => (Outcome.returned (val, none), w)
  | some (CacheValue.other t) =>
    (Outcome.panicked ("interface conversion: interface \x7b\x7d is " ++ t ++ ", not string"), w)
  | none =>
    if w.locked then (Outcome.blocked, w)
    else
      let w := w.lock
      let w := w.emit (Event.cacheGet dd.GetCacheKey)
      match C.Get w.cache dd.GetCacheKey with
      | some (CacheValue.str val) => (Outcome.returned (val, none), w.unlock)
      | some (CacheValue.other t) =>
        (Outcome.panicked ("interface conversion: interface \x7b\x7d is " ++ t ++ ", not string"),
          w.unlock)
      | none =>
        let api := if dd.SandBox then sandBoxTokenURL else accessTokenURL
        let w := w.emit (Event.post api
          [("appid", dd.AppId), ("secret", dd.AppSecret), ("grant_type", "client_credential")])
        match GetTokenFromServer PostJSON checkValid decodeRes api dd.AppId dd.AppSecret with
        | (_, some err) => (Outcome.returned ("", some err), w.unlock)
        | (reqAccessToken, none) =>
          let expires := wrapInt64 (reqAccessToken.Data.ExpiresIn - 1500)
          let timeout := wrapInt64 (expires * 1000000000)
          let w := w.emit (Event.cacheSet dd.GetCacheKey
            (CacheValue.str reqAccessToken.Data.AccessToken) timeout)
          match C.Set w.cache dd.GetCacheKey
              (CacheValue.str reqAccessToken.Data.AccessToken) timeout with
          | (cache, some err) =>
            (Outcome.returned ("", some err), { w with cache := cache }.unlock)
          | (cache, none) =>
            (Outcome.returned (reqAccessToken.Data.AccessToken, none),
              { w with cache := cache }.unlock)

/-! ## The facade operations -/

/-- The decimal digits of a natural number, most significant first. -/
def decimalDigits (m : Nat) : List Nat := (Nat.toDigits 10 m).map (fun c => c.toNat - 48)

/-- The number of binary digits a natural number has beyond the fifty-three a
`float64` mantissa holds (`fuel` bounds the halving). -/
def excessBits : Nat → Nat → Nat
  | 0, _ => 0
  | fuel + 1, m => if m < 9007199254740992 then 0 else excessBits fuel (m / 2) + 1

/-- The `float64` nearest to the natural number `m`, ties to the even mantissa,
which is what `strconv.ParseFloat` gives for the numeral of `m`; it is again a
natural number.  Below `2 ^ 53` every natural number is a `float64`. -/
def roundFloat64 (m : Nat) : Nat :=
  let e := excessBits m m
  if e = 0 then m
  else
    let q := m / 2 ^ e
    let r := m % 2 ^ e
    let q := if 2 ^ (e - 1) < r ∨ (r = 2 ^ (e - 1) ∧ q % 2 = 1) then q + 1 else q
    q * 2 ^ e

/-- The search of `strconv` for the shortest decimal that reads back as the
`float64` `x`: the multiples of `10 ^ k` next to `x` are tried for decreasing
`k`; one is admissible when it lies between the bounds `L2 / 2` and `U2 / 2`
(the midpoints to the neighbouring `float64`s, which count when the mantissa of
`x` is even, `incl`), and of two admissible ones the nearer is taken, the even
one on a tie. -/
def shortestFrom (x L2 U2 : Nat) (incl : Bool) : Nat → Nat
  | 0 => x
  | k + 1 =>
    let p := 10 ^ (k + 1)
    let lo := x / p * p
    let hi := lo + p
    let ok := fun c : Nat =>
      if incl then decide (L2 ≤ 2 * c) && decide (2 * c ≤ U2)
      else decide (L2 < 2 * c) && decide (2 * c < U2)
    if lo = x then x
    else if ok lo && ok hi then
      if x - lo < hi - x then lo
      else if hi - x < x - lo then hi
      else if lo / p % 2 = 0 then lo else hi
    else if ok lo then lo
    else if ok hi then hi
    else shortestFrom x L2 U2 incl k

/-- The shortest decimal that reads back as the `float64` `x`, a natural
number: the number that the digits of `strconv.FormatFloat(x, _, -1, 64)`
spell.  Below `2 ^ 53` it is `x` itself. -/
def shortestDecimal (x : Nat) : Nat :=
  let e := excessBits x x
  if e = 0 then x
  else
    let mant := x / 2 ^ e
    let gapLow := if mant = 4503599627370496 then 2 ^ (e - 1) else 2 ^ e
    shortestFrom x (2 * x - gapLow) (2 * x + 2 ^ e) (mant % 2 == 0) (decimalDigits x).length

/-- The `float64` a JSON integer `n` decodes to, as `strconv` sees it when it
formats the number again: `n` is rounded to the nearest `float64`, and the
digits are those of the shortest decimal that reads back as that `float64`,
without its trailing zeros, with the number of its digits as the position of
the decimal point.  For `|n| < 2 ^ 53` these are the digits of `n` itself. -/
def float64OfInt (n : Int) : Float64 :=
  if n = 0 then ⟨false, [], 0⟩
  else
    ⟨decide (n < 0),
      ((decimalDigits (shortestDecimal (roundFloat64 n.natAbs))).reverse.dropWhile
        (fun d => d == 0)).reverse,
      (decimalDigits (shortestDecimal (roundFloat64 n.natAbs))).length⟩

/-- A string field with the tag option `omitempty`. -/
def omitString (key value : String) : List (String × JValue) :=
  if value = "" then [] else [(key, JValue.str value)]

/-- A string field without `omitempty`. -/
def keepString (key value : String) : List (String × JValue) := [(key, JValue.str value)]

/-- An integer field with the tag option `omitempty`. -/
def omitInt (key : String) (value : Int) : List (String × JValue) :=
  if value = 0 then [] else [(key, JValue.num (float64OfInt value))]

/-- An integer field without `omitempty`. -/
def keepInt (key : String) (value : Int) : List (String × JValue) :=
  [(key, JValue.num (float64OfInt value))]

/-- A field of type `interface{}` with `omitempty`: `none` is the `nil`
interface, `some v` a value that marshals to `v`. -/
def omitAny (key : String) (value : Option JValue) : List (String × JValue) :=
  match value with
  | none => []
  | some v => [(key, v)]

/-- A request handed to the transport: the URL, the JSON of the parameters and
the extra headers. -/
structure Request where
  api : String
  params : JValue
  header : List (String × String)

/-- The functions `util.PostJSON` and `util.PostJsonWithHeader` and the
scanner of `encoding/json`, which are not among the sources.  A transport
function returns the response body and an error. -/
structure Transport where
  PostJSON : String → JValue → String × Option String
  PostJsonWithHeader : String → JValue → List (String × String) → String × Option String
  checkValid : String → Option String

/-- The function `NewDouYinOpenApi`, for the plain-data part of the
configuration. -/
def NewDouYinOpenApi (config : DouYinOpenApiConfig) : DouYinOpenApi :=
  { Config := config,
    BaseApi := if config.IsSandbox then "https://open-sandbox.douyin.com"
      else "https://developer.toutiao.com" }

/-- The field `Config.AccessToken` of the client `NewDouYinOpenApi` returns.
`accessToken` is the field of the configuration passed in, `none` for `nil`:
a value the caller supplied is kept as it is (it may be of any type that
implements the interface, `τ` here), and for `nil` the function installs
`NewDefaultAccessToken(config.AppId, config.AppSecret, config.Cache,
config.IsSandbox)`, where the cache is never `nil` at that point. -/
def NewDouYinOpenApi.AccessToken {τ : Type} (config : DouYinOpenApiConfig)
    (accessToken : Option τ) : Outcome (τ ⊕ DefaultAccessToken) :=
  match accessToken with
  | some supplied => Outcome.returned (Sum.inl supplied)
  | none =>
    match NewDefaultAccessToken config.AppId config.AppSecret false config.IsSandbox with
    | Outcome.returned dd => Outcome.returned (Sum.inr dd)
    | Outcome.panicked v => Outcome.panicked v
    | Outcome.blocked => Outcome.blocked

/-- The method `GetApiUrl`. -/
def DouYinOpenApi.GetApiUrl (d : DouYinOpenApi) (url : String) : String := d.BaseApi ++ url

/-- The method `PostJson`: the response after the call with the error, and
the request that was sent. -/
def PostJson {ρ : Type} (T : Transport) (decode : String → ρ → ρ × Option String)
    (api : String) (params : JValue) (response : ρ) : (ρ × Option String) × List Request :=
  (match T.PostJSON api params with
    | (_, some err) => (response, some err)
    | (body, none) => Unmarshal T.checkValid decode body response,
   [⟨api, params, []⟩])

/-- The method `PostJsonWithHeader`. -/
def PostJsonWithHeader {ρ : Type} (T : Transport) (decode : String → ρ → ρ × Option String)
    (api : String) (params : JValue) (response : ρ) (header : List (String × String)) :
    (ρ × Option String) × List Request :=
  (match T.PostJsonWithHeader api params header with
    | (_, some err) => (response, some err)
    | (body, none) => Unmarshal T.checkValid decode body response,
   [⟨api, params, header⟩])

/-- The constant `code2Session`. -/
def code2Session : String := "/api/apps/v2/jscode2session"

/-- The constant `createOrder`. -/
def createOrder : String := "https://developer.toutiao.com/api/apps/ecpay/v1/create_order"

/-- The constant `queryOrder`. -/
def queryOrder : String := "https://developer.toutiao.com/api/apps/ecpay/v1/query_order"

/-- The constant `createRefund`. -/
def createRefund : String := "https://developer.toutiao.com/api/apps/ecpay/v1/create_refund"

/-- The constant `queryRefund`. -/
def queryRefund : String := "https://developer.toutiao.com/api/apps/ecpay/v1/query_refund"

/-- The constant `settle`. -/
def settle : String := "https://developer.toutiao.com/api/apps/ecpay/v1/settle"

/-- The constant `querySettle`. -/
def querySettle : String := "https://developer.toutiao.com/api/apps/ecpay/v1/query_settle"

/-- The constant `unsettleAmount`. -/
def unsettleAmount : String := "https://developer.toutiao.com/api/apps/ecpay/v1/unsettle_amount"

/-- The constant `createReturn`. -/
def createReturn : String := "https://developer.toutiao.com/api/apps/ecpay/v1/create_return"

/-- The constant `queryReturn`. -/
def queryReturn : String := "https://developer.toutiao.com/api/apps/ecpay/v1/query_return"

/-- The constant `queryMerchantBalance`. -/
def queryMerchantBalance : String := "https://developer.toutiao.com/api/apps/ecpay/saas/query_merchant_balance"

/-- The constant `merchantWithdraw`. -/
def merchantWithdraw : String := "https://developer.toutiao.com/api/apps/ecpay/saas/merchant_withdraw"

/-- The constant `queryWithdrawOrder`. -/
def queryWithdrawOrder : String := "https://developer.toutiao.com/api/apps/ecpay/saas/query_withdraw_order"

/-- The constant `orderV2Push`. -/
def orderV2Push : String := "https://developer.toutiao.com/api/apps/order/v2/push"

/-- The constant `imAuthorizeSendMsg`. -/
def imAuthorizeSendMsg : String := "https://open.douyin.com/im/authorize/send/msg/"

/-- The constant `imAuthorizeRecallMsg`. -/
def imAuthorizeRecallMsg : String := "https://open.douyin.com/im/authorize/recall/msg/"

/-- The constant `urlLinkGenerate`. -/
def urlLinkGenerate : String := "https://developer.toutiao.com/api/apps/url_link/generate"

/-- The constant `imGroupFansList`. -/
def imGroupFansList : String := "https://open.douyin.com/im/group/fans/list/"

/-- The struct `Code2SessionParams`. -/
structure Code2SessionParams where
  Appid : String := ""
  Secret : String := ""
  AnonymousCode : String := ""
  Code : String := ""
deriving DecidableEq, Repr

/-- The JSON object `json.Marshal` produces for a `Code2SessionParams`. -/
def Code2SessionParams.marshal (p : Code2SessionParams) : JValue :=
  JValue.obj (
    (omitString "appid" p.Appid) ++
    (omitString "secret" p.Secret) ++
    (omitString "anonymous_code" p.AnonymousCode) ++
    (omitString "code" p.Code))

/-- The struct `ExpandOrderInfo`. -/
structure ExpandOrderInfo where
  OriginalDeliveryFee : Int := 0
  ActualDeliveryFee : Int := 0
deriving DecidableEq, Repr

/-- The JSON object `json.Marshal` produces for a `ExpandOrderInfo`. -/
def ExpandOrderInfo.marshal (p : ExpandOrderInfo) : JValue :=
  JValue.obj (
    (keepInt "OriginalDeliveryFee" p.OriginalDeliveryFee) ++
    (keepInt "ActualDeliveryFee" p.ActualDeliveryFee))

/-- The struct `CreateOrderParams`. -/
structure CreateOrderParams where
  AppId : String := ""
  OutOrderNo : String := ""
  TotalAmount : Int := 0
  Subject : String := ""
  Body : String := ""
  ValidTime : Int := 0
  Sign : String := ""
  CpExtra : String := ""
  NotifyUrl : String := ""
  ThirdpartyId : String := ""
  StoreUid : String := ""
  DisableMsg : Int := 0
  MsgPage : String := ""
  ExpandOrderInfo : ExpandOrderInfo := {}
  LimitPayWay : String := ""
deriving DecidableEq, Repr

/-- The JSON object `json.Marshal` produces for a `CreateOrderParams`. -/
def CreateOrderParams.marshal (p : CreateOrderParams) : JValue :=
  JValue.obj (
    (omitString "app_id" p.AppId) ++
    (omitString "out_order_no" p.OutOrderNo) ++
    (omitInt "total_amount" p.TotalAmount) ++
    (omitString "subject" p.Subject) ++
    (omitString "body" p.Body) ++
    (omitInt "valid_time" p.ValidTime) ++
    (omitString "sign" p.Sign) ++
    (omitString "cp_extra" p.CpExtra) ++
    (omitString "notify_url" p.NotifyUrl) ++
    (omitString "thirdparty_id" p.ThirdpartyId) ++
    (omitString "store_uid" p.StoreUid) ++
    (omitInt "disable_msg" p.DisableMsg) ++
    (omitString "msg_page" p.MsgPage) ++
    [("expand_order_info", p.ExpandOrderInfo.marshal)] ++
    (omitString "limit_pay_way" p.LimitPayWay))

/-- The struct `QueryOrderParams`. -/
structure QueryOrderParams where
  AppId : String := ""
  OutOrderNo : String := ""
  Sign : String := ""
  ThirdpartyId : String := ""
deriving DecidableEq, Repr

/-- The JSON object `json.Marshal` produces for a `QueryOrderParams`. -/
def QueryOrderParams.marshal (p : QueryOrderParams) : JValue :=
  JValue.obj (
    (omitString "app_id" p.AppId) ++
    (omitString "out_order_no" p.OutOrderNo) ++
    (omitString "sign" p.Sign) ++
    (omitString "thirdparty_id" p.ThirdpartyId))

/-- The struct `CreateRefundParams`. -/
structure CreateRefundParams where
  AppId : String := ""
  OutOrderNo : String := ""
  OutRefundNo : String := ""
  Reason : String := ""
  RefundAmount : Int := 0
  Sign : String := ""
  CpExtra : String := ""
  NotifyUrl : String := ""
  ThirdpartyId : String := ""
  DisableMsg : Int := 0
  MsgPage : String := ""
deriving DecidableEq, Repr

/-- The JSON object `json.Marshal` produces for a `CreateRefundParams`. -/
def CreateRefundParams.marshal (p : CreateRefundParams) : JValue :=
  JValue.obj (
    (omitString "app_id" p.AppId) ++
    (omitString "out_order_no" p.OutOrderNo) ++
    (omitString "out_refund_no" p.OutRefundNo) ++
    (omitString "reason" p.Reason) ++
    (omitInt "refund_amount" p.RefundAmount) ++
    (omitString "sign" p.Sign) ++
    (omitString "cp_extra" p.CpExtra) ++
    (omitString "notify_url" p.NotifyUrl) ++
    (omitString "thirdparty_id" p.ThirdpartyId) ++
    (omitInt "disable_msg" p.DisableMsg) ++
    (omitString "msg_page" p.MsgPage))

/-- The struct `QueryRefundParams`. -/
structure QueryRefundParams where
  OutRefundNo : String := ""
  AppId : String := ""
  Sign : String := ""
  ThirdpartyId : String := ""
deriving DecidableEq, Repr

/-- The JSON object `json.Marshal` produces for a `QueryRefundParams`. -/
def QueryRefundParams.marshal (p : QueryRefundParams) : JValue :=
  JValue.obj (
    (omitString "out_refund_no" p.OutRefundNo) ++
    (omitString "app_id" p.AppId) ++
    (omitString "sign" p.Sign) ++
    (omitString "thirdparty_id" p.ThirdpartyId))

/-- The struct `SettleParams`. -/
structure SettleParams where
  OutSettleNo : String := ""
  OutOrderNo : String := ""
  SettleDesc : String := ""
  NotifyUrl : String := ""
  CpExtra : String := ""
  AppId : String := ""
  Sign : String := ""
  SettleParams : String := ""
  ThirdpartyId : String := ""
  Finish : String := ""
deriving DecidableEq, Repr

/-- The JSON object `json.Marshal` produces for a `SettleParams`. -/
def SettleParams.marshal (p : DouyinOpenapi.SettleParams) : JValue :=
  JValue.obj (
    (omitString "out_settle_no" p.OutSettleNo) ++
    (omitString "out_order_no" p.OutOrderNo) ++
    (omitString "settle_desc" p.SettleDesc) ++
    (omitString "notify_url" p.NotifyUrl) ++
    (omitString "cp_extra" p.CpExtra) ++
    (omitString "app_id" p.AppId) ++
    (omitString "sign" p.Sign) ++
    (omitString "settle_params" p.SettleParams) ++
    (omitString "thirdparty_id" p.ThirdpartyId) ++
    (omitString "finish" p.Finish))

/-- The struct `SettleParamsItem`. -/
structure SettleParamsItem where
  MerchantUid : String := ""
  Amount : Int := 0
deriving DecidableEq, Repr

/-- The struct `QuerySettleParams`. -/
structure QuerySettleParams where
  Sign : String := ""
  AppId : String := ""
  OutSettleNo : String := ""
  ThirdpartyId : String := ""
deriving DecidableEq, Repr

/-- The JSON object `json.Marshal` produces for a `QuerySettleParams`. -/
def QuerySettleParams.marshal (p : QuerySettleParams) : JValue :=
  JValue.obj (
    (omitString "sign" p.Sign) ++
    (omitString "app_id" p.AppId) ++
    (omitString "out_settle_no" p.OutSettleNo) ++
    (omitString "thirdparty_id" p.ThirdpartyId))

/-- The struct `UnsettleAmountParams`. -/
structure UnsettleAmountParams where
  OutOrderNo : String := ""
  AppId : String := ""
  Sign : String := ""
  ThirdpartyId : String := ""
  OutItemOrderNo : String := ""
deriving DecidableEq, Repr

/-- The JSON object `json.Marshal` produces for a `UnsettleAmountParams`. -/
def UnsettleAmountParams.marshal (p : UnsettleAmountParams) : JValue :=
  JValue.obj (
    (omitString "out_order_no" p.OutOrderNo) ++
    (omitString "app_id" p.AppId) ++
    (omitString "sign" p.Sign) ++
    (omitString "thirdparty_id" p.ThirdpartyId) ++
    (omitString "out_item_order_no" p.OutItemOrderNo))

/-- The struct `CreateReturnParams`. -/
structure CreateReturnParams where
  AppId : String := ""
  ThirdpartyId : String := ""
  OutSettleNo : String := ""
  SettleNo : String := ""
  OutReturnNo : String := ""
  MerchantUid : String := ""
  ReturnAmount : Int := 0
  ReturnDesc : String := ""
  CpExtra : String := ""
  Sign : String := ""
deriving DecidableEq, Repr

/-- The JSON object `json.Marshal` produces for a `CreateReturnParams`. -/
def CreateReturnParams.marshal (p : CreateReturnParams) : JValue :=
  JValue.obj (
    (omitString "app_id" p.AppId) ++
    (omitString "thirdparty_id" p.ThirdpartyId) ++
    (omitString "out_settle_no" p.OutSettleNo) ++
    (omitString "settle_no" p.SettleNo) ++
    (omitString "out_return_no" p.OutReturnNo) ++
    (omitString "merchant_uid" p.MerchantUid) ++
    (omitInt "return_amount" p.ReturnAmount) ++
    (omitString "return_desc" p.ReturnDesc) ++
    (omitString "cp_extra" p.CpExtra) ++
    (omitString "sign" p.Sign))

/-- The struct `QueryReturnParams`. -/
structure QueryReturnParams where
  AppId : String := ""
  ReturnNo : String := ""
  OutReturnNo : String := ""
  Sign : String := ""
  ThirdpartyId : String := ""
deriving DecidableEq, Repr

/-- The JSON object `json.Marshal` produces for a `QueryReturnParams`. -/
def QueryReturnParams.marshal (p : QueryReturnParams) : JValue :=
  JValue.obj (
    (omitString "app_id" p.AppId) ++
    (omitString "return_no" p.ReturnNo) ++
    (omitString "out_return_no" p.OutReturnNo) ++
    (omitString "sign" p.Sign) ++
    (omitString "thirdparty_id" p.ThirdpartyId))

/-- The struct `QueryMerchantBalanceParams`. -/
structure QueryMerchantBalanceParams where
  ThirdpartyId : String := ""
  AppId : String := ""
  MerchantUid : String := ""
  ChannelType : String := ""
  Sign : String := ""
  MerchantEntity : String := ""
deriving DecidableEq, Repr

/-- The JSON object `json.Marshal` produces for a `QueryMerchantBalanceParams`. -/
def QueryMerchantBalanceParams.marshal (p : QueryMerchantBalanceParams) : JValue :=
  JValue.obj (
    (omitString "thirdparty_id" p.ThirdpartyId) ++
    (omitString "app_id" p.AppId) ++
    (omitString "merchant_uid" p.MerchantUid) ++
    (omitString "channel_type" p.ChannelType) ++
    (omitString "sign" p.Sign) ++
    (keepString "merchant_entity" p.MerchantEntity))

/-- The struct `MerchantWithdrawParams`. -/
structure MerchantWithdrawParams where
  ThirdpartyId : String := ""
  AppId : String := ""
  MerchantUid : String := ""
  ChannelType : String := ""
  WithdrawAmount : Int := 0
  OutOrderId : String := ""
  Sign : String := ""
  Callback : String := ""
  CpExtra : String := ""
  MerchantEntity : Int := 0
deriving DecidableEq, Repr

/-- The JSON object `json.Marshal` produces for a `MerchantWithdrawParams`. -/
def MerchantWithdrawParams.marshal (p : MerchantWithdrawParams) : JValue :=
  JValue.obj (
    (omitString "thirdparty_id" p.ThirdpartyId) ++
    (omitString "app_id" p.AppId) ++
    (omitString "merchant_uid" p.MerchantUid) ++
    (omitString "channel_type" p.ChannelType) ++
    (omitInt "withdraw_amount" p.WithdrawAmount) ++
    (omitString "out_order_id" p.OutOrderId) ++
    (omitString "sign" p.Sign) ++
    (omitString "callback" p.Callback) ++
    (omitString "cp_extra" p.CpExtra) ++
    (omitInt "merchant_entity" p.MerchantEntity))

/-- The struct `QueryWithdrawOrderParams`. -/
structure QueryWithdrawOrderParams where
  ThirdpartyId : String := ""
  AppId : String := ""
  MerchantUid : String := ""
  ChannelType : String := ""
  OutOrderId : String := ""
  Sign : String := ""
deriving DecidableEq, Repr

/-- The JSON object `json.Marshal` produces for a `QueryWithdrawOrderParams`. -/
def QueryWithdrawOrderParams.marshal (p : QueryWithdrawOrderParams) : JValue :=
  JValue.obj (
    (omitString "thirdparty_id" p.ThirdpartyId) ++
    (omitString "app_id" p.AppId) ++
    (omitString "merchant_uid" p.MerchantUid) ++
    (omitString "channel_type" p.ChannelType) ++
    (omitString "out_order_id" p.OutOrderId) ++
    (omitString "sign" p.Sign))

/-- The struct `OrderV2PushParams`. -/
structure OrderV2PushParams where
  ClientKey : String := ""
  AccessToken : String := ""
  ExtShopId : String := ""
  AppName : String := ""
  OpenId : String := ""
  OrderStatus : Int := 0
  OrderType : Int := 0
  UpdateTime : Int := 0
  Extra : String := ""
  OrderDetail : String := ""
deriving DecidableEq, Repr

/-- The JSON object `json.Marshal` produces for a `OrderV2PushParams`. -/
def OrderV2PushParams.marshal (p : OrderV2PushParams) : JValue :=
  JValue.obj (
    (omitString "client_key" p.ClientKey) ++
    (omitString "access_token" p.AccessToken) ++
    (omitString "ext_shop_id" p.ExtShopId) ++
    (omitString "app_name" p.AppName) ++
    (omitString "open_id" p.OpenId) ++
    (omitInt "order_status" p.OrderStatus) ++
    (omitInt "order_type" p.OrderType) ++
    (omitInt "update_time" p.UpdateTime) ++
    (omitString "extra" p.Extra) ++
    (omitString "order_detail" p.OrderDetail))

/-- The struct `UrlLinkGenerateParams`. -/
structure UrlLinkGenerateParams where
  AccessToken : String := ""
  MaAppID : String := ""
  AppName : String := ""
  Path : String := ""
  Query : String := ""
  ExpireTime : Int := 0
deriving DecidableEq, Repr

/-- The JSON object `json.Marshal` produces for a `UrlLinkGenerateParams`. -/
def UrlLinkGenerateParams.marshal (p : UrlLinkGenerateParams) : JValue :=
  JValue.obj (
    (keepString "access_token" p.AccessToken) ++
    (keepString "ma_app_id" p.MaAppID) ++
    (keepString "app_name" p.AppName) ++
    (omitString "path" p.Path) ++
    (omitString "query" p.Query) ++
    (keepInt "expire_time" p.ExpireTime))

/-- The struct `ImAuthorizeSendMsgParams`. -/
structure ImAuthorizeSendMsgParams where
  ToUserId : String := ""
  Content : Option JValue := none

/-- The JSON object `json.Marshal` produces for a `ImAuthorizeSendMsgParams`. -/
def ImAuthorizeSendMsgParams.marshal (p : ImAuthorizeSendMsgParams) : JValue :=
  JValue.obj (
    (omitString "to_user_id" p.ToUserId) ++
    (omitAny "content" p.Content))

/-- The struct `ImAuthorizeRecallMsgParams`. -/
structure ImAuthorizeRecallMsgParams where
  MsgId : String := ""
  ConversationId : String := ""
deriving DecidableEq, Repr

/-- The JSON object `json.Marshal` produces for a `ImAuthorizeRecallMsgParams`. -/
def ImAuthorizeRecallMsgParams.marshal (p : ImAuthorizeRecallMsgParams) : JValue :=
  JValue.obj (
    (keepString "msg_id" p.MsgId) ++
    (keepString "conversation_id" p.ConversationId))

/-- The struct `Code2SessionResponseData`. -/
structure Code2SessionResponseData where
  SessionKey : String := ""
  Openid : String := ""
  AnonymousOpenid : String := ""
  UnionId : String := ""
deriving DecidableEq, Repr

/-- The struct `Code2SessionResponse`. -/
structure Code2SessionResponse where
  ErrNo : Int := 0
  ErrTips : String := ""
  Data : Code2SessionResponseData := {}
deriving DecidableEq, Repr

/-- The struct `CreateOrderResponseData`. -/
structure CreateOrderResponseData where
  OrderId : String := ""
  OrderToken : String := ""
deriving DecidableEq, Repr

/-- The struct `CreateOrderResponse`. -/
structure CreateOrderResponse where
  ErrNo : Int := 0
  ErrTips : String := ""
  Data : CreateOrderResponseData := {}
deriving DecidableEq, Repr

/-- The struct `PaymentInfo`. -/
structure PaymentInfo where
  TotalFee : Int := 0
  OrderStatus : String := ""
  PayTime : String := ""
  Way : Int := 0
  ChannelNo : String := ""
  SellerUid : String := ""
  ItemId : String := ""
  CpsInfo : String := ""
deriving DecidableEq, Repr

/-- The struct `QueryOrderResponse`. -/
structure QueryOrderResponse where
  ErrNo : Int := 0
  ErrTips : String := ""
  OutOrderNo : String := ""
  OrderId : String := ""
  PaymentInfo : PaymentInfo := {}
deriving DecidableEq, Repr

/-- The struct `CreateRefundResponse`. -/
structure CreateRefundResponse where
  ErrNo : Int := 0
  ErrTips : String := ""
  RefundNo : String := ""
deriving DecidableEq, Repr

/-- The anonymous struct of a field of `QueryRefundParamsResponse`. -/
structure QueryRefundParamsResponseRefundInfo where
  RefundNo : String := ""
  RefundAmount : Int := 0
  RefundStatus : String := ""
  RefundedAt : Int := 0
  IsAllSettled : Bool := false
  CpExtra : String := ""
  Msg : String := ""
deriving DecidableEq, Repr

/-- The struct `QueryRefundParamsResponse`. -/
structure QueryRefundParamsResponse where
  ErrNo : Int := 0
  ErrTips : String := ""
  RefundInfo : QueryRefundParamsResponseRefundInfo := {}
deriving DecidableEq, Repr

/-- The struct `SettleResponse`. -/
structure SettleResponse where
  ErrNo : Int := 0
  ErrTips : String := ""
  SettleNo : String := ""
deriving DecidableEq, Repr

/-- The anonymous struct of a field of `QuerySettleResponse`. -/
structure QuerySettleResponseSettleInfo where
  SettleNo : String := ""
  SettleAmount : Int := 0
  SettleStatus : String := ""
  SettleDetail : String := ""
  SettledAt : Int := 0
  Rake : Int := 0
  Commission : Int := 0
  CpExtra : String := ""
  Msg : String := ""
deriving DecidableEq, Repr

/-- The struct `QuerySettleResponse`. -/
structure QuerySettleResponse where
  ErrNo : Int := 0
  ErrTips : String := ""
  SettleInfo : QuerySettleResponseSettleInfo := {}
deriving DecidableEq, Repr

/-- The anonymous struct of a field of `UnsettleAmountResponseDataDetail`. -/
structure UnsettleAmountResponseDataDetailPayInfo where
  OutOrderNo : String := ""
  Amount : Int := 0
deriving DecidableEq, Repr

/-- The anonymous struct of a field of `UnsettleAmountResponseDataDetail`. -/
structure UnsettleAmountResponseDataDetailRefundInfo where
  OutRefundNo : String := ""
  Amount : Int := 0
deriving DecidableEq, Repr

/-- The anonymous struct of a field of `UnsettleAmountResponseData`. -/
structure UnsettleAmountResponseDataDetail where
  PayInfo : UnsettleAmountResponseDataDetailPayInfo := {}
  RefundInfo : List UnsettleAmountResponseDataDetailRefundInfo := []
  PaymentRake : Int := 0
  LifeRake : Int := 0
  Commission : Int := 0
deriving DecidableEq, Repr

/-- The anonymous struct of a field of `UnsettleAmountResponse`. -/
structure UnsettleAmountResponseData where
  OutOrderNo : String := ""
  UnsettleAmount : Int := 0
  Detail : UnsettleAmountResponseDataDetail := {}
deriving DecidableEq, Repr

/-- The struct `UnsettleAmountResponse`. -/
structure UnsettleAmountResponse where
  ErrNo : Int := 0
  ErrTips : String := ""
  Data : UnsettleAmountResponseData := {}
deriving DecidableEq, Repr

/-- The anonymous struct of a field of `CreateReturnResponse`. -/
structure CreateReturnResponseReturnInfo where
  AppId : String := ""
  ThirdpartyId : String := ""
  SettleNo : String := ""
  OutSettleNo : String := ""
  OutReturnNo : String := ""
  MerchantUid : String := ""
  ReturnAmount : Int := 0
  ReturnStatus : String := ""
  ReturnNo : String := ""
  FailReason : String := ""
  FinishTime : Int := 0
  CpExtra : String := ""
deriving DecidableEq, Repr

/-- The struct `CreateReturnResponse`. -/
structure CreateReturnResponse where
  ErrNo : Int := 0
  ErrTips : String := ""
  ReturnInfo : CreateReturnResponseReturnInfo := {}
deriving DecidableEq, Repr

/-- The anonymous struct of a field of `QueryReturnResponse`. -/
structure QueryReturnResponseReturnInfo where
  AppId : String := ""
  ThirdpartyId : String := ""
  SettleNo : String := ""
  OutSettleNo : String := ""
  OutReturnNo : String := ""
  MerchantUid : String := ""
  ReturnAmount : Int := 0
  ReturnStatus : String := ""
  ReturnNo : String := ""
  FailReason : String := ""
  FinishTime : Int := 0
  CpExtra : String := ""
deriving DecidableEq, Repr

/-- The struct `QueryReturnResponse`. -/
structure QueryReturnResponse where
  ErrNo : Int := 0
  ErrTips : String := ""
  ReturnInfo : QueryReturnResponseReturnInfo := {}
deriving DecidableEq, Repr

/-- The anonymous struct of a field of `QueryMerchantBalanceResponse`. -/
structure QueryMerchantBalanceResponseAccountInfo where
  OnlineBalance : Int := 0
  WithDrawableBalance : Int := 0
  FreezeBalance : Int := 0
deriving DecidableEq, Repr

/-- The anonymous struct of a field of `QueryMerchantBalanceResponse`. -/
structure QueryMerchantBalanceResponseSettleInfo where
  SettleType : Int := 0
  SettleAccount : String := ""
  BankcardNo : String := ""
  BankName : String := ""
deriving DecidableEq, Repr

/-- The struct `QueryMerchantBalanceResponse`. -/
structure QueryMerchantBalanceResponse where
  ErrNo : Int := 0
  ErrTips : String := ""
  AccountInfo : QueryMerchantBalanceResponseAccountInfo := {}
  SettleInfo : QueryMerchantBalanceResponseSettleInfo := {}
  MerchantEntity : Int := 0
deriving DecidableEq, Repr

/-- The struct `MerchantWithdrawResponse`. -/
structure MerchantWithdrawResponse where
  ErrNo : Int := 0
  ErrTips : String := ""
  OrderId : String := ""
  MerchantEntity : Int := 0
deriving DecidableEq, Repr

/-- The struct `QueryWithdrawOrderResponse`. -/
structure QueryWithdrawOrderResponse where
  ErrNo : Int := 0
  ErrTips : String := ""
  Status : String := ""
  StatusMsg : String := ""
deriving DecidableEq, Repr

/-- The struct `OrderV2PushResponse`. -/
structure OrderV2PushResponse where
  ErrCode : Int := 0
  ErrMsg : String := ""
  Body : String := ""
deriving DecidableEq, Repr

/-- The struct `UrlLinkGenerateResponse`. -/
structure UrlLinkGenerateResponse where
  ErrNo : Int := 0
  ErrTips : String := ""
  UrlLink : String := ""
deriving DecidableEq, Repr

/-- The anonymous struct of a field of `ImAuthorizeSendMsgResponse`. -/
structure ImAuthorizeSendMsgResponseData where
  MsgId : String := ""
deriving DecidableEq, Repr

/-- The struct `ImAuthorizeSendMsgResponse`. -/
structure ImAuthorizeSendMsgResponse where
  ErrNo : Int := 0
  ErrMsg : String := ""
  Data : ImAuthorizeSendMsgResponseData := {}
  LogId : String := ""
deriving DecidableEq, Repr

/-- The struct `ImAuthorizeRecallMsgResponse`. -/
structure ImAuthorizeRecallMsgResponse where
  ErrNo : Int := 0
  ErrMsg : String := ""
  LogId : String := ""
deriving DecidableEq, Repr


/-- The JSON text of one `SettleParamsItem`; `quote` is the string encoder of
`encoding/json`. -/
def SettleParamsItem.encode (quote : String → String) (i : SettleParamsItem) : String :=
  "\x7b" ++ ",".intercalate
    ((if i.MerchantUid = "" then [] else ["\"merchant_uid\":" ++ quote i.MerchantUid]) ++
     (if i.Amount = 0 then [] else ["\"amount\":" ++ sprintInt i.Amount])) ++ "\x7d"

/-- The text `string(settleItem)` of `Settle`: `json.Marshal` of the variadic
items, `null` for the `nil` slice. -/
def marshalSettleItems (quote : String → String) : Option (List SettleParamsItem) → String
  | none => "null"
  | some items => "[" ++ ",".intercalate (items.map (SettleParamsItem.encode quote)) ++ "]"

/-- The method `Code2Session`. -/
def Code2Session (T : Transport)
    (decode : String → Code2SessionResponse → Code2SessionResponse × Option String)
    (d : DouYinOpenApi) (code anonymousCode : String) :
    (Code2SessionResponse × Option String) × List Request :=
  let params : Code2SessionParams := { Appid := d.Config.AppId, Secret := d.Config.AppSecret, AnonymousCode := anonymousCode, Code := code }
  let posted := PostJson T decode (d.GetApiUrl code2Session) params.marshal {}
  (match posted.1 with
    | (code2SessionResponse, some err) => (code2SessionResponse, some err)
    | (code2SessionResponse, none) =>
      if code2SessionResponse.ErrNo ≠ 0 then
        (code2SessionResponse, some ("小程序登录错误: " ++ code2SessionResponse.ErrTips ++ " " ++ sprintInt code2SessionResponse.ErrNo))
      else (code2SessionResponse, none),
    posted.2)

/-- The method `CreateOrder`. -/
def CreateOrder (T : Transport)
    (decode : String → CreateOrderResponse → CreateOrderResponse × Option String)
    (md5Sum : String → List Byte)
    (d : DouYinOpenApi) (params : CreateOrderParams) :
    (CreateOrderResponse × Option String) × List Request :=
  let params : CreateOrderParams := { params with AppId := d.Config.AppId }
  let params : CreateOrderParams := { params with Sign := GenerateSign md5Sum d (some params.marshal) }
  let posted := PostJson T decode createOrder params.marshal {}
  (match posted.1 with
    | (createOrderResponse, some err) => (createOrderResponse, some err)
    | (createOrderResponse, none) =>
      if createOrderResponse.ErrNo ≠ 0 then
        (createOrderResponse, some (createOrderResponse.ErrTips ++ " " ++ sprintInt createOrderResponse.ErrNo))
      else (createOrderResponse, none),
    posted.2)

/-- The method `QueryOrder`. -/
def QueryOrder (T : Transport)
    (decode : String → QueryOrderResponse → QueryOrderResponse × Option String)
    (md5Sum : String → List Byte)
    (d : DouYinOpenApi) (outOrderNo thirdpartyId : String) :
    (QueryOrderResponse × Option String) × List Request :=
  let queryParams : QueryOrderParams := { AppId := d.Config.AppId, OutOrderNo := outOrderNo, ThirdpartyId := thirdpartyId }
  let queryParams : QueryOrderParams := { queryParams with Sign := GenerateSign md5Sum d (some queryParams.marshal) }
  let posted := PostJson T decode queryOrder queryParams.marshal {}
  (match posted.1 with
    | (queryOrderResponse, some err) => (queryOrderResponse, some err)
    | (queryOrderResponse, none) =>
      if queryOrderResponse.ErrNo ≠ 0 then
        (queryOrderResponse, some (queryOrderResponse.ErrTips ++ " " ++ sprintInt queryOrderResponse.ErrNo))
      else (queryOrderResponse, none),
    posted.2)

/-- The method `CreateRefund`. -/
def CreateRefund (T : Transport)
    (decode : String → CreateRefundResponse → CreateRefundResponse × Option String)
    (md5Sum : String → List Byte)
    (d : DouYinOpenApi) (params : CreateRefundParams) :
    (CreateRefundResponse × Option String) × List Request :=
  let params : CreateRefundParams := { params with AppId := d.Config.AppId }
  let params : CreateRefundParams := { params with Sign := GenerateSign md5Sum d (some params.marshal) }
  let posted := PostJson T decode createRefund params.marshal {}
  (match posted.1 with
    | (createRefundResponse, some err) => (createRefundResponse, some err)
    | (createRefundResponse, none) =>
      if createRefundResponse.ErrNo ≠ 0 then
        (createRefundResponse, some ("CreateRefund error " ++ createRefundResponse.ErrTips ++ " " ++ sprintInt createRefundResponse.ErrNo))
      else (createRefundResponse, none),
    posted.2)

/-- The method `QueryRefund`. -/
def QueryRefund (T : Transport)
    (decode : String → QueryRefundParamsResponse → QueryRefundParamsResponse × Option String)
    (md5Sum : String → List Byte)
    (d : DouYinOpenApi) (outRefundNo thirdpartyId : String) :
    (QueryRefundParamsResponse × Option String) × List Request :=
  let params : QueryRefundParams := { OutRefundNo := outRefundNo, AppId := d.Config.AppId, ThirdpartyId := thirdpartyId }
  let params : QueryRefundParams := { params with Sign := GenerateSign md5Sum d (some params.marshal) }
  let posted := PostJson T decode queryRefund params.marshal {}
  (match posted.1 with
    | (queryRefundParamsResponse, some err) => (queryRefundParamsResponse, some err)
    | (queryRefundParamsResponse, none) =>
      if queryRefundParamsResponse.ErrNo ≠ 0 then
        (queryRefundParamsResponse, some ("QueryRefund error " ++ queryRefundParamsResponse.ErrTips ++ " " ++ sprintInt queryRefundParamsResponse.ErrNo))
      else (queryRefundParamsResponse, none),
    posted.2)

/-- The method `Settle`.  `settleParamsItem` is the variadic argument, `none` when
no item is passed (a `nil` slice). -/
def Settle (T : Transport)
    (decode : String → SettleResponse → SettleResponse × Option String)
    (md5Sum : String → List Byte) (quote : String → String)
    (d : DouYinOpenApi) (settleParams : SettleParams) (settleParamsItem : Option (List SettleParamsItem)) :
    (SettleResponse × Option String) × List Request :=
  let settleParams : SettleParams := { settleParams with AppId := d.Config.AppId }
  let settleParams : SettleParams := { settleParams with SettleParams := marshalSettleItems quote settleParamsItem }
  let settleParams : SettleParams := { settleParams with Sign := GenerateSign md5Sum d (some settleParams.marshal) }
  let posted := PostJson T decode settle settleParams.marshal {}
  (match posted.1 with
    | (settleResponse, some err) => (settleResponse, some err)
    | (settleResponse, none) =>
      if settleResponse.ErrNo ≠ 0 then
        (settleResponse, some ("settle error " ++ settleResponse.ErrTips ++ " " ++ sprintInt settleResponse.ErrNo))
      else (settleResponse, none),
    posted.2)

/-- The method `QuerySettle`. -/
def QuerySettle (T : Transport)
    (decode : String → QuerySettleResponse → QuerySettleResponse × Option String)
    (md5Sum : String → List Byte)
    (d : DouYinOpenApi) (outSettleNo thirdpartyId : String) :
    (QuerySettleResponse × Option String) × List Request :=
  let params : QuerySettleParams := { AppId := d.Config.AppId, OutSettleNo := outSettleNo, ThirdpartyId := thirdpartyId }
  let params : QuerySettleParams := { params with Sign := GenerateSign md5Sum d (some params.marshal) }
  let posted := PostJson T decode querySettle params.marshal {}
  (match posted.1 with
    | (querySettleResponse, some err) => (querySettleResponse, some err)
    | (querySettleResponse, none) =>
      if querySettleResponse.ErrNo ≠ 0 then
        (querySettleResponse, some ("QuerySettle error " ++ querySettleResponse.ErrTips ++ " " ++ sprintInt querySettleResponse.ErrNo))
      else (querySettleResponse, none),
    posted.2)

/-- The method `UnsettleAmount`. -/
def UnsettleAmount (T : Transport)
    (decode : String → UnsettleAmountResponse → UnsettleAmountResponse × Option String)
    (md5Sum : String → List Byte)
    (d : DouYinOpenApi) (outOrderNo thirdpartyId outItemOrderNo : String) :
    (UnsettleAmountResponse × Option String) × List Request :=
  let params : UnsettleAmountParams := { OutOrderNo := outOrderNo, AppId := d.Config.AppId, ThirdpartyId := thirdpartyId, OutItemOrderNo := outItemOrderNo }
  let params : UnsettleAmountParams := { params with Sign := GenerateSign md5Sum d (some params.marshal) }
  let posted := PostJson T decode unsettleAmount params.marshal {}
  (match posted.1 with
    | (unsettleAmountResponse, some err) => (unsettleAmountResponse, some err)
    | (unsettleAmountResponse, none) =>
      if unsettleAmountResponse.ErrNo ≠ 0 then
        (unsettleAmountResponse, some ("UnsettleAmount error " ++ unsettleAmountResponse.ErrTips ++ " " ++ sprintInt unsettleAmountResponse.ErrNo))
      else (unsettleAmountResponse, none),
    posted.2)

/-- The method `CreateReturn`. -/
def CreateReturn (T : Transport)
    (decode : String → CreateReturnResponse → CreateReturnResponse × Option String)
    (md5Sum : String → List Byte)
    (d : DouYinOpenApi) (params : CreateReturnParams) :
    (CreateReturnResponse × Option String) × List Request :=
  let params : CreateReturnParams := { params with AppId := d.Config.AppId }
  let params : CreateReturnParams := { params with Sign := GenerateSign md5Sum d (some params.marshal) }
  let posted := PostJson T decode createReturn params.marshal {}
  (match posted.1 with
    | (createReturnResponse, some err) => (createReturnResponse, some err)
    | (createReturnResponse, none) =>
      if createReturnResponse.ErrNo ≠ 0 then
        (createReturnResponse, some ("CreateReturn error " ++ createReturnResponse.ErrTips ++ " " ++ sprintInt createReturnResponse.ErrNo))
      else (createReturnResponse, none),
    posted.2)

/-- The method `QueryReturn`. -/
def QueryReturn (T : Transport)
    (decode : String → QueryReturnResponse → QueryReturnResponse × Option String)
    (md5Sum : String → List Byte)
    (d : DouYinOpenApi) (returnNo outReturnNo thirdpartyId : String) :
    (QueryReturnResponse × Option String) × List Request :=
  let params : QueryReturnParams := { AppId := d.Config.AppId, ReturnNo := returnNo, OutReturnNo := outReturnNo, ThirdpartyId := thirdpartyId }
  let params : QueryReturnParams := { params with Sign := GenerateSign md5Sum d (some params.marshal) }
  let posted := PostJson T decode queryReturn params.marshal {}
  (match posted.1 with
    | (queryReturnResponse, some err) => (queryReturnResponse, some err)
    | (queryReturnResponse, none) =>
      if queryReturnResponse.ErrNo ≠ 0 then
        (queryReturnResponse, some ("queryReturnResponse error " ++ queryReturnResponse.ErrTips ++ " " ++ sprintInt queryReturnResponse.ErrNo))
      else (queryReturnResponse, none),
    posted.2)

/-- The method `QueryMerchantBalance`. -/
def QueryMerchantBalance (T : Transport)
    (decode : String → QueryMerchantBalanceResponse → QueryMerchantBalanceResponse × Option String)
    (md5Sum : String → List Byte)
    (d : DouYinOpenApi) (params : QueryMerchantBalanceParams) :
    (QueryMerchantBalanceResponse × Option String) × List Request :=
  let params : QueryMerchantBalanceParams := { params with AppId := d.Config.AppId }
  let params : QueryMerchantBalanceParams := { params with Sign := GenerateSign md5Sum d (some params.marshal) }
  let posted := PostJson T decode queryMerchantBalance params.marshal {}
  (match posted.1 with
    | (queryMerchantBalanceResponse, some err) => (queryMerchantBalanceResponse, some err)
    | (queryMerchantBalanceResponse, none) =>
      if queryMerchantBalanceResponse.ErrNo ≠ 0 then
        (queryMerchantBalanceResponse, some ("queryMerchantBalanceResponse error " ++ queryMerchantBalanceResponse.ErrTips ++ " " ++ sprintInt queryMerchantBalanceResponse.ErrNo))
      else (queryMerchantBalanceResponse, none),
    posted.2)

/-- The method `MerchantWithdraw`. -/
def MerchantWithdraw (T : Transport)
    (decode : String → MerchantWithdrawResponse → MerchantWithdrawResponse × Option String)
    (md5Sum : String → List Byte)
    (d : DouYinOpenApi) (params : MerchantWithdrawParams) :
    (MerchantWithdrawResponse × Option String) × List Request :=
  let params : MerchantWithdrawParams := { params with AppId := d.Config.AppId }
  let params : MerchantWithdrawParams := { params with Sign := GenerateSign md5Sum d (some params.marshal) }
  let posted := PostJson T decode merchantWithdraw params.marshal {}
  (match posted.1 with
    | (merchantWithdrawResponse, some err) => (merchantWithdrawResponse, some err)
    | (merchantWithdrawResponse, none) =>
      if merchantWithdrawResponse.ErrNo ≠ 0 then
        (merchantWithdrawResponse, some ("merchantWithdrawResponse error " ++ merchantWithdrawResponse.ErrTips ++ " " ++ sprintInt merchantWithdrawResponse.ErrNo))
      else (merchantWithdrawResponse, none),
    posted.2)

/-- The method `QueryWithdrawOrder`. -/
def QueryWithdrawOrder (T : Transport)
    (decode : String → QueryWithdrawOrderResponse → QueryWithdrawOrderResponse × Option String)
    (md5Sum : String → List Byte)
    (d : DouYinOpenApi) (params : QueryWithdrawOrderParams) :
    (QueryWithdrawOrderResponse × Option String) × List Request :=
  let params : QueryWithdrawOrderParams := { params with AppId := d.Config.AppId }
  let params : QueryWithdrawOrderParams := { params with Sign := GenerateSign md5Sum d (some params.marshal) }
  let posted := PostJson T decode queryWithdrawOrder params.marshal {}
  (match posted.1 with
    | (queryWithdrawOrderResponse, some err) => (queryWithdrawOrderResponse, some err)
    | (queryWithdrawOrderResponse, none) =>
      if queryWithdrawOrderResponse.ErrNo ≠ 0 then
        (queryWithdrawOrderResponse, some ("queryWithdrawOrderResponse error " ++ queryWithdrawOrderResponse.ErrTips ++ " " ++ sprintInt queryWithdrawOrderResponse.ErrNo))
      else (queryWithdrawOrderResponse, none),
    posted.2)

/-- The method `OrderV2Push`. -/
def OrderV2Push (T : Transport)
    (decode : String → OrderV2PushResponse → OrderV2PushResponse × Option String)
    (d : DouYinOpenApi) (normal : OrderV2PushParams) :
    (OrderV2PushResponse × Option String) × List Request :=
  let posted := PostJson T decode orderV2Push normal.marshal {}
  (match posted.1 with
    | (orderV2PushResponse, some err) => (orderV2PushResponse, some err)
    | (orderV2PushResponse, none) =>
      if orderV2PushResponse.ErrCode ≠ 0 then
        (orderV2PushResponse, some ("OrderV2Push error " ++ orderV2PushResponse.ErrMsg ++ " " ++ orderV2PushResponse.Body))
      else (orderV2PushResponse, none),
    posted.2)

/-- The method `UrlLinkGenerate`.  `accessToken` is what
`d.Config.AccessToken.GetAccessToken()` returns. -/
def UrlLinkGenerate (T : Transport)
    (decode : String → UrlLinkGenerateResponse → UrlLinkGenerateResponse × Option String)
    (accessToken : String × Option String)
    (d : DouYinOpenApi) (params : UrlLinkGenerateParams) :
    (UrlLinkGenerateResponse × Option String) × List Request :=
  match accessToken with
  | (_, some err) => (({}, some err), [])
  | (token, none) =>
    let params : UrlLinkGenerateParams := { params with AccessToken := token }
    let posted := PostJson T decode urlLinkGenerate params.marshal {}
    (match posted.1 with
      | (urlLinkGenerateResponse, some err) => (urlLinkGenerateResponse, some err)
      | (urlLinkGenerateResponse, none) =>
        if urlLinkGenerateResponse.ErrNo ≠ 0 then
          (urlLinkGenerateResponse, some ("urlLinkGenerateResponse error " ++ urlLinkGenerateResponse.ErrTips ++ " " ++ sprintInt urlLinkGenerateResponse.ErrNo))
        else (urlLinkGenerateResponse, none),
      posted.2)

/-- The method `SendPrivateMessage`.  `accessToken` is what
`d.Config.AccessToken.GetAccessToken()` returns. -/
def SendPrivateMessage (T : Transport)
    (decode : String → ImAuthorizeSendMsgResponse → ImAuthorizeSendMsgResponse × Option String)
    (accessToken : String × Option String)
    (d : DouYinOpenApi) (openId : String) (params : ImAuthorizeSendMsgParams) :
    (ImAuthorizeSendMsgResponse × Option String) × List Request :=
  match accessToken with
  | (_, some err) => (({}, some err), [])
  | (token, none) =>
    let posted := PostJsonWithHeader T decode (imAuthorizeSendMsg ++ "?open_id=" ++ openId) params.marshal {}
      [("Content-Type", "application/json"), ("access-token", token)]
    (match posted.1 with
      | (sendMsgResponse, some err) => (sendMsgResponse, some err)
      | (sendMsgResponse, none) =>
        if sendMsgResponse.ErrNo ≠ 0 then
          (sendMsgResponse, some ("SendMsg error " ++ sendMsgResponse.ErrMsg ++ " " ++ sprintInt sendMsgResponse.ErrNo))
        else (sendMsgResponse, none),
      posted.2)

/-- The method `RecallPrivateMessage`.  `accessToken` is what
`d.Config.AccessToken.GetAccessToken()` returns. -/
def RecallPrivateMessage (T : Transport)
    (decode : String → ImAuthorizeRecallMsgResponse → ImAuthorizeRecallMsgResponse × Option String)
    (accessToken : String × Option String)
    (d : DouYinOpenApi) (openId : String) (params : ImAuthorizeRecallMsgParams) :
    (ImAuthorizeRecallMsgResponse × Option String) × List Request :=
  match accessToken with
  | (_, some err) => (({}, some err), [])
  | (token, none) =>
    let posted := PostJsonWithHeader T decode (imAuthorizeRecallMsg ++ "?open_id=" ++ openId) params.marshal {}
      [("Content-Type", "application/json"), ("access-token", token)]
    (match posted.1 with
      | (recallMsgResponse, some err) => (recallMsgResponse, some err)
      | (recallMsgResponse, none) =>
        if recallMsgResponse.ErrNo ≠ 0 then
          (recallMsgResponse, some ("RecallMsg error " ++ recallMsgResponse.ErrMsg ++ " " ++ sprintInt recallMsgResponse.ErrNo))
        else (recallMsgResponse, none),
      posted.2)

/-- The URL of a network call, for the events that are one. -/
def Event.postApi : Event → Option String
  | Event.post api _ => some api
  | _ => none

/-! ## Concurrent callers of `GetAccessToken` -/

/-- Where a caller of `GetAccessToken` stands between two of its atomic
actions: before the first lookup; after a miss, before `Lock()`; holding the
lock, before the second lookup; after the second miss, with the request of
`GetTokenFromServer` under way; and after its return (the deferred `Unlock()`
has run). -/
inductive Pc where
  | start
  | waitLock
  | holding
  | exchanging
  | done (out : Outcome (String × Option String))
deriving DecidableEq, Repr

/-- One atomic action of a caller of `GetAccessToken` in the world `w`.  A
caller that waits for a held lock, or has returned, does nothing. -/
def stepCaller {σ : Type} (C : Cache σ)
    (PostJSON : String → List (String × String) → String × Option String)
    (checkValid : String → Option String)
    (decodeRes : String → ResAccessToken → ResAccessToken × Option String)
    (dd : DefaultAccessToken) (w : World σ) : Pc → World σ × Pc
  | Pc.start =>
    let w := w.emit (Event.cacheGet dd.GetCacheKey)
    match C.Get w.cache dd.GetCacheKey with
    | some (CacheValue.str val) => (w, Pc.done (Outcome.returned (val, none)))
    | some (CacheValue.other t) =>
      (w, Pc.done (Outcome.panicked
        ("interface conversion: interface \x7b\x7d is " ++ t ++ ", not string")))
    | none => (w, Pc.waitLock)
  | Pc.waitLock => if w.locked then (w, Pc.waitLock) else (w.lock, Pc.holding)
  | Pc.holding =>
    let w := w.emit (Event.cacheGet dd.GetCacheKey)
    match C.Get w.cache dd.GetCacheKey with
    | some (CacheValue.str val) => (w.unlock, Pc.done (Outcome.returned (val, none)))
    | some (CacheValue.other t) =>
      (w.unlock, Pc.done (Outcome.panicked
        ("interface conversion: interface \x7b\x7d is " ++ t ++ ", not string")))
    | none =>
      (w.emit (Event.post (if dd.SandBox then sandBoxTokenURL else accessTokenURL)
        [("appid", dd.AppId), ("secret", dd.AppSecret), ("grant_type", "client_credential")]),
        Pc.exchanging)
  | Pc.exchanging =>
    match GetTokenFromServer PostJSON checkValid decodeRes
        (if dd.SandBox then sandBoxTokenURL else accessTokenURL) dd.AppId dd.AppSecret with
    | (_, some err) => (w.unlock, Pc.done (Outcome.returned ("", some err)))
    | (reqAccessToken, none) =>
      let expires := wrapInt64 (reqAccessToken.Data.ExpiresIn - 1500)
      let timeout := wrapInt64 (expires * 1000000000)
      let w := w.emit (Event.cacheSet dd.GetCacheKey
        (CacheValue.str reqAccessToken.Data.AccessToken) timeout)
      match C.Set w.cache dd.GetCacheKey
          (CacheValue.str reqAccessToken.Data.AccessToken) timeout with
      | (cache, some err) =>
        ({ w with cache := cache }.unlock, Pc.done (Outcome.returned ("", some err)))
      | (cache, none) =>
        ({ w with cache := cache }.unlock,
          Pc.done (Outcome.returned (reqAccessToken.Data.AccessToken, none)))
  | Pc.done out => (w, Pc.done out)

/-- Two callers of `GetAccessToken` in one process: they share the cache and
the process-wide lock. -/
structure Callers (σ : Type) where
  world : World σ
  first : Pc
  second : Pc

/-- One atomic action of the first caller (`true`), who calls the method on
`dd₁`, or of the second (`false`), who calls it on `dd₂`. -/
def Callers.step {σ : Type} (C : Cache σ)
    (PostJSON : String → List (String × String) → String × Option String)
    (checkValid : String → Option String)
    (decodeRes : String → ResAccessToken → ResAccessToken × Option String)
    (dd₁ dd₂ : DefaultAccessToken) (s : Callers σ) (firstMoves : Bool) : Callers σ :=
  if firstMoves then
    { world := (stepCaller C PostJSON checkValid decodeRes dd₁ s.world s.first).1,
      first := (stepCaller C PostJSON checkValid decodeRes dd₁ s.world s.first).2,
      second := s.second }
  else
    { world := (stepCaller C PostJSON checkValid decodeRes dd₂ s.world s.second).1,
      first := s.first,
      second := (stepCaller C PostJSON checkValid decodeRes dd₂ s.world s.second).2 }

/-- The two callers after the atomic actions of a schedule, an interleaving
given as the list of who moves. -/
def Callers.run {σ : Type} (C : Cache σ)
    (PostJSON : String → List (String × String) → String × Option String)
    (checkValid : String → Option String)
    (decodeRes : String → ResAccessToken → ResAccessToken × Option String)
    (dd₁ dd₂ : DefaultAccessToken) (schedule : List Bool) (s : Callers σ) : Callers σ :=
  schedule.foldl (Callers.step C PostJSON checkValid decodeRes dd₁ dd₂) s

/-- The number of network calls among the events of a world. -/
def World.posts {σ : Type} (w : World σ) : Nat := (w.events.filterMap Event.postApi).length

/-- Whether a caller holds the lock: it is between `Lock()` and the deferred
`Unlock()`. -/
def Pc.inCritical : Pc → Bool
  | Pc.holding => true
  | Pc.exchanging => true
  | _ => false

/-- Whether a caller has not come to `Lock()` yet. -/
def Pc.early (pc : Pc) : Prop := pc = Pc.start ∨ pc = Pc.waitLock

/-- The states two callers can be in when the cache starts as `c₀` with no
entry, the exchange succeeds with the token `tok` and the store turns the cache
into `c₁`, which holds the token; `n₀` is the number of network calls made
before.  Nobody holds the lock and nothing is stored; or one caller holds the
lock, before or during its exchange; or one caller has returned the token, the
cache holds it, and the other is on its way to finding it there. -/
def Callers.oneExchange {σ : Type} (c₀ c₁ : σ) (tok : String) (n₀ : Nat) (s : Callers σ) :
    Prop :=
  (s.world.cache = c₀ ∧ s.world.locked = false ∧ s.world.posts = n₀ ∧
    s.first.early ∧ s.second.early) ∨
  (s.world.cache = c₀ ∧ s.world.locked = true ∧ s.world.posts = n₀ ∧
    ((s.first = Pc.holding ∧ s.second.early) ∨ (s.second = Pc.holding ∧ s.first.early))) ∨
  (s.world.cache = c₀ ∧ s.world.locked = true ∧ s.world.posts = n₀ + 1 ∧
    ((s.first = Pc.exchanging ∧ s.second.early) ∨
      (s.second = Pc.exchanging ∧ s.first.early))) ∨
  (s.world.cache = c₁ ∧ s.world.locked = false ∧ s.world.posts = n₀ + 1 ∧
    ((s.first = Pc.done (Outcome.returned (tok, none)) ∧
        (s.second.early ∨ s.second = Pc.done (Outcome.returned (tok, none)))) ∨
      (s.second = Pc.done (Outcome.returned (tok, none)) ∧
        (s.first.early ∨ s.first = Pc.done (Outcome.returned (tok, none)))))) ∨
  (s.world.cache = c₁ ∧ s.world.locked = true ∧ s.world.posts = n₀ + 1 ∧
    ((s.first = Pc.done (Outcome.returned (tok, none)) ∧ s.second = Pc.holding) ∨
      (s.second = Pc.done (Outcome.returned (tok, none)) ∧ s.first = Pc.holding)))

/-! ## Observations used to state the properties -/

/-- The candidate in the order the specification words it: the value coerced
to a string, the surrounding pair of double quotes removed, and then the
surrounding white space removed. -/
def candidateAsSpecified (v : JValue) : String :=
  let value := sprintV v
  let value :=
    if HasPrefix value "\"" && HasSuffix value "\"" && decide (len value > 1) then
      sliceInner value
    else value
  TrimSpace value

/-- The text of the string member `key` of a JSON object, `none` when the
object has no member of that name or the member is not a string. -/
def JValue.stringMember (v : JValue) (key : String) : Option String :=
  match v with
  | .obj members =>
    match members.lookup key with
    | some (.str s) => some s
    | _ => none
  | _ => none

/-- The time-to-live of a store into the cache, for the events that are one. -/
def Event.timeout : Event → Option Int
  | Event.cacheSet _ _ timeout => some timeout
  | _ => none

/-! ## Ordering and sorting -/

theorem char_lt_iff (a b : Char) : a < b ↔ a.toNat < b.toNat := by
  rw [Char.lt_def]; exact Iff.rfl

theorem char_eq_of_toNat {a b : Char} (h1 : ¬ a.toNat < b.toNat)
    (h2 : ¬ b.toNat < a.toNat) : a = b :=
  le_antisymm (not_lt.1 fun h => h2 ((char_lt_iff b a).1 h))
    (not_lt.1 fun h => h1 ((char_lt_iff a b).1 h))

theorem bytesLess_iff : ∀ (as bs : List Char), bytesLess as bs = true ↔ as < bs
  | [], [] => by simp [bytesLess]
  | [], b :: bs => by simp [bytesLess, List.nil_lt_cons]
  | a :: as, [] => by simp [bytesLess]
  | a :: as, b :: bs => by
    have ih := bytesLess_iff as bs
    unfold bytesLess
    by_cases h1 : a.toNat < b.toNat
    · simp only [h1, if_true, true_iff]
      exact List.Lex.rel ((char_lt_iff a b).2 h1)
    · by_cases h2 : b.toNat < a.toNat
      · simp only [h1, h2, if_true, if_false]
        constructor
        · intro h; cases h
        · intro h
          have h3 : b :: bs < a :: as := List.Lex.rel ((char_lt_iff b a).2 h2)
          exact absurd h (lt_asymm h3)
      · simp only [h1, h2, if_false]
        rw [ih]
        have hab : a = b := char_eq_of_toNat h1 h2
        subst hab
        exact (List.Lex.cons_iff).symm

/-- The comparison `stringLess` decides the order `<` of `String`. -/
theorem stringLess_iff (a b : String) : stringLess a b = true ↔ a < b := by
  unfold stringLess
  rw [bytesLess_iff]
  exact String.lt_iff_toList_lt.symm

theorem stringLess_eq_false_iff (a b : String) : stringLess a b = false ↔ b ≤ a := by
  rw [← not_lt, ← stringLess_iff]; simp

theorem insertOrdered_perm {α : Type} (less : α → α → Bool) (x : α) :
    ∀ l : List α, (insertOrdered less x l).Perm (x :: l)
  | [] => List.Perm.refl _
  | y :: ys => by
    unfold insertOrdered
    by_cases h : less y x = true
    · rw [if_pos h]
      exact ((insertOrdered_perm less x ys).cons y).trans (List.Perm.swap x y ys)
    · rw [if_neg h]

theorem sortBy_perm {α : Type} (less : α → α → Bool) :
    ∀ l : List α, (sortBy less l).Perm l
  | [] => List.Perm.refl _
  | x :: xs => by
    unfold sortBy
    exact (insertOrdered_perm less x _).trans ((sortBy_perm less xs).cons x)

theorem insertOrdered_sorted (x : String) :
    ∀ l : List String, l.Sorted (· ≤ ·) → (insertOrdered stringLess x l).Sorted (· ≤ ·)
  | [], _ => by simp [insertOrdered]
  | y :: ys, h => by
    unfold insertOrdered
    have hy := List.rel_of_sorted_cons h
    have hys := List.Sorted.of_cons h
    by_cases hlt : stringLess y x = true
    · rw [if_pos hlt]
      have hyx : y ≤ x := le_of_lt ((stringLess_iff y x).1 hlt)
      refine List.sorted_cons.2 ⟨?_, insertOrdered_sorted x ys hys⟩
      intro z hz
      rcases List.mem_cons.1 ((insertOrdered_perm stringLess x ys).subset hz) with hzx | hzy
      · rw [hzx]; exact hyx
      · exact hy z hzy
    · rw [if_neg hlt]
      have hxy : x ≤ y := (stringLess_eq_false_iff y x).1 (by simpa using hlt)
      refine List.sorted_cons.2 ⟨?_, h⟩
      intro z hz
      rcases List.mem_cons.1 hz with hzy | hzy
      · rw [hzy]; exact hxy
      · exact le_trans hxy (hy z hzy)

/-- The result of `sortStrings` is in increasing order. -/
theorem sortStrings_sorted : ∀ l : List String, (sortStrings l).Sorted (· ≤ ·)
  | [] => by simp [sortStrings, sortBy]
  | x :: xs => by
    have ih := sortStrings_sorted xs
    unfold sortStrings at ih ⊢
    unfold sortBy
    exact insertOrdered_sorted x _ ih

/-- The result of `sortStrings` is a rearrangement of its argument. -/
theorem sortStrings_perm (l : List String) : (sortStrings l).Perm l :=
  sortBy_perm stringLess l

/-- The only increasing rearrangement of a list of strings is `sortStrings` of it. -/
theorem sortStrings_eq_of_sorted_perm {cs l : List String}
    (hs : cs.Sorted (· ≤ ·)) (hp : cs.Perm l) : sortStrings l = cs :=
  List.eq_of_perm_of_sorted ((sortStrings_perm l).trans hp.symm) (sortStrings_sorted l) hs

theorem sortStrings_congr {l₁ l₂ : List String} (h : l₁.Perm l₂) :
    sortStrings l₁ = sortStrings l₂ :=
  sortStrings_eq_of_sorted_perm (sortStrings_sorted l₂) ((sortStrings_perm l₂).trans h.symm)

/-! ## Request signing -/

theorem isSkippedKey_iff (k : String) :
    isSkippedKey k = true ↔
      k ∈ ["other_settle_params", "app_id", "thirdparty_id", "sign", "salt", "token"] := by
  simp [isSkippedKey, or_assoc]

theorem signStep_eq (acc : List String) (kv : String × JValue) :
    signStep acc kv = acc ++ (candidateOf kv).toList := by
  unfold signStep candidateOf
  by_cases h1 : isSkippedKey kv.1 = true
  · simp [h1]
  · by_cases h2 : (signValue kv.2 == "" || signValue kv.2 == "null") = true
    · simp only [h1, h2, if_true, if_false, Bool.false_eq_true]; simp
    · simp only [h1, h2, if_false, Bool.false_eq_true]; simp

theorem foldl_signStep (l : List (String × JValue)) :
    ∀ acc : List String, l.foldl signStep acc = acc ++ l.filterMap candidateOf := by
  induction l with
  | nil => intro acc; simp
  | cons kv rest ih =>
    intro acc
    rw [List.foldl_cons, ih, signStep_eq]
    cases h : candidateOf kv <;> simp [List.filterMap_cons, h]

theorem signParts_eq (d : DouYinOpenApi) (paramsMap : List (String × JValue)) :
    signParts d paramsMap = paramsMap.filterMap candidateOf ++ [d.Config.Salt] := by
  unfold signParts
  rw [foldl_signStep]
  simp

/-- The loop of `GenerateSign` collects the values of the fields that pass the
name filter and whose normalised value is neither empty nor `null`. -/
theorem filterMap_candidateOf (l : List (String × JValue)) :
    l.filterMap candidateOf =
      ((l.filter (fun kv => decide (kv.1 ∉
          ["other_settle_params", "app_id", "thirdparty_id", "sign", "salt", "token"]))).map
        (fun kv => signValue kv.2)).filter (fun s => decide (s ≠ "" ∧ s ≠ "null")) := by
  induction l with
  | nil => rfl
  | cons kv rest ih =>
    rw [List.filterMap_cons, List.filter_cons]
    by_cases h1 : isSkippedKey kv.1 = true
    · have h1' := (isSkippedKey_iff kv.1).1 h1
      have hc : candidateOf kv = none := by simp [candidateOf, h1]
      rw [hc, if_neg (by rw [decide_eq_true_eq]; exact not_not.2 h1')]
      exact ih
    · have h1' : kv.1 ∉
          ["other_settle_params", "app_id", "thirdparty_id", "sign", "salt", "token"] :=
        fun hm => h1 ((isSkippedKey_iff kv.1).2 hm)
      rw [if_pos (by rw [decide_eq_true_eq]; exact h1'), List.map_cons, List.filter_cons]
      by_cases h2 : signValue kv.2 = "" ∨ signValue kv.2 = "null"
      · have hc : candidateOf kv = none := by
          unfold candidateOf
          rcases h2 with h2 | h2 <;> simp [h1, h2]
        rw [hc, if_neg (by rw [decide_eq_true_eq]; exact fun hh => h2.elim hh.1 hh.2)]
        exact ih
      · have h2' : signValue kv.2 ≠ "" ∧ signValue kv.2 ≠ "null" := not_or.1 h2
        have hc : candidateOf kv = some (signValue kv.2) := by
          unfold candidateOf
          simp [h1, h2'.1, h2'.2]
        rw [hc, if_pos (by rw [decide_eq_true_eq]; exact h2'), ih]

theorem signString_perm (d : DouYinOpenApi) {m₁ m₂ : List (String × JValue)}
    (h : m₁.Perm m₂) : signString d m₁ = signString d m₂ := by
  unfold signString
  rw [signParts_eq, signParts_eq]
  rw [sortStrings_congr ((h.filterMap candidateOf).append_right [d.Config.Salt])]

theorem mapOf_of_nodup {α : Type} :
    ∀ l : List (String × α), (l.map Prod.fst).Nodup → mapOf l = l
  | [], _ => rfl
  | kv :: rest, h => by
    rw [List.map_cons, List.nodup_cons] at h
    have hany : rest.any (fun kv' => kv'.1 == kv.1) = false := by
      rw [Bool.eq_false_iff]
      intro hh
      rw [List.any_eq_true] at hh
      obtain ⟨kv', hmem, heq⟩ := hh
      have : kv'.1 = kv.1 := by simpa using heq
      exact h.1 (this ▸ List.mem_map_of_mem Prod.fst hmem)
    unfold mapOf
    rw [hany, mapOf_of_nodup rest h.2]
    simp

theorem hexDigit_mem (n : Nat) (h : n < 16) : hexDigit n ∈ "0123456789abcdef".data := by
  interval_cases n <;> decide

/-- The verb `%x` produces lowercase hexadecimal digits only. -/
theorem sprintfHex_lower (bs : List Byte) :
    ∀ c ∈ (sprintfHex bs).data, c ∈ "0123456789abcdef".data := by
  intro c hc
  unfold sprintfHex at hc
  rw [List.mem_flatMap] at hc
  obtain ⟨b, _, hb⟩ := hc
  have h16 : b.val / 16 < 16 := by have := b.isLt; omega
  have h16' : b.val % 16 < 16 := Nat.mod_lt _ (by decide)
  rcases List.mem_cons.1 hb with h | h
  · rw [h]; exact hexDigit_mem _ h16
  · rw [List.mem_singleton.1 h]; exact hexDigit_mem _ h16'

theorem mapOf_append_fresh {α : Type} (k : String) (v : α) :
    ∀ l : List (String × α), (∀ kv ∈ l, kv.1 ≠ k) → mapOf (l ++ [(k, v)]) = mapOf l ++ [(k, v)]
  | [], _ => rfl
  | kv :: rest, h => by
    have hne : kv.1 ≠ k := h kv (List.mem_cons_self _ _)
    have hrest : ∀ kv' ∈ rest, kv'.1 ≠ k := fun kv' hm => h kv' (List.mem_cons_of_mem _ hm)
    have hany : (rest ++ [(k, v)]).any (fun kv' => kv'.1 == kv.1) =
        rest.any (fun kv' => kv'.1 == kv.1) := by
      rw [List.any_append]
      have : (k == kv.1) = false := by simpa using fun e : k = kv.1 => hne e.symm
      simp [this]
    rw [List.cons_append]
    unfold mapOf
    rw [hany, mapOf_append_fresh k v rest hrest]
    split <;> simp

theorem candidateOf_of_skipped (k : String) (v : JValue)
    (hk : k ∈ ["other_settle_params", "app_id", "thirdparty_id", "sign", "salt", "token"]) :
    candidateOf (k, v) = none := by
  have := (isSkippedKey_iff k).2 hk
  simp [candidateOf, this]

theorem candidateOf_of_kept (k : String) (v : JValue)
    (hk : k ∉ ["other_settle_params", "app_id", "thirdparty_id", "sign", "salt", "token"]) :
    candidateOf (k, v) =
      if signValue v = "" ∨ signValue v = "null" then none else some (signValue v) := by
  have hs : isSkippedKey k = false := by
    rw [Bool.eq_false_iff]; exact fun h => hk ((isSkippedKey_iff k).1 h)
  unfold candidateOf
  simp only [hs, Bool.false_eq_true, if_false, Bool.or_eq_true, beq_iff_eq]

theorem signParts_append_one (d : DouYinOpenApi) (m : List (String × JValue))
    (kv : String × JValue) :
    signParts d (m ++ [kv]) =
      m.filterMap candidateOf ++ (candidateOf kv).toList ++ [d.Config.Salt] := by
  rw [signParts_eq, List.filterMap_append]
  cases h : candidateOf kv <;> simp [List.filterMap_cons, h]

theorem signParts_append_none (d : DouYinOpenApi) (m : List (String × JValue))
    (kv : String × JValue) (h : candidateOf kv = none) :
    signParts d (m ++ [kv]) = signParts d m := by
  rw [signParts_append_one, h, signParts_eq]; simp

theorem signString_append_some (d : DouYinOpenApi) (m : List (String × JValue))
    (kv : String × JValue) (c : String) (h : candidateOf kv = some c) :
    signString d (m ++ [kv]) = Join (sortStrings (c :: signParts d m)) "&" := by
  unfold signString
  rw [signParts_append_one, h, signParts_eq]
  have hp : (List.filterMap candidateOf m ++ (some c).toList ++ [d.Config.Salt]).Perm
      (c :: (List.filterMap candidateOf m ++ [d.Config.Salt])) := by
    simp only [Option.toList, List.append_assoc, List.singleton_append]
    exact List.perm_middle
  rw [sortStrings_congr hp]

/-- C1. For every field map and salt, `GenerateSign` returns the lowercase
hexadecimal rendering of the MD5 digest of the following string: the
normalised values of the fields whose name is none of `other_settle_params`,
`app_id`, `thirdparty_id`, `sign`, `salt`, `token` and whose normalised value
is neither empty nor `null`, together with the salt, arranged in increasing
order and joined with `&`. -/
theorem GenerateSign_md5_of_sorted_candidates (md5Sum : String → List Byte)
    (d : DouYinOpenApi) (members : List (String × JValue)) (cs : List String)
    (hsorted : cs.Sorted (· ≤ ·))
    (hperm : cs.Perm
      ((((mapOf members).filter (fun kv => decide (kv.1 ∉
          ["other_settle_params", "app_id", "thirdparty_id", "sign", "salt", "token"]))).map
        (fun kv => signValue kv.2)).filter (fun s => decide (s ≠ "" ∧ s ≠ "null")) ++
        [d.Config.Salt])) :
    GenerateSign md5Sum d (some (.obj members)) = sprintfHex (md5Sum ("&".intercalate cs)) ∧
    ∀ c ∈ (GenerateSign md5Sum d (some (.obj members))).data,
      c ∈ "0123456789abcdef".data := by
  have hgen : GenerateSign md5Sum d (some (.obj members)) =
      sprintfHex (md5Sum ("&".intercalate cs)) := by
    unfold GenerateSign unmarshalMap
    simp only
    unfold signString Join
    rw [signParts_eq, filterMap_candidateOf, sortStrings_eq_of_sorted_perm hsorted hperm]
  refine ⟨hgen, ?_⟩
  rw [hgen]
  exact sprintfHex_lower _

theorem GenerateSign_md5_of_sorted_candidates_witness :
    (["N1", "salt"] : List String).Sorted (· ≤ ·) ∧
    GenerateSign exampleDigest ⟨⟨"app", "secret", false, "tok", "salt"⟩, ""⟩
      (some (.obj [("out_order_no", .str "N1"), ("sign", .str "old"), ("cp_extra", .str "")])) =
      sprintfHex (exampleDigest "N1&salt") := by
  have hs : (["N1", "salt"] : List String).Sorted (· ≤ ·) := by
    have h := sortStrings_sorted ["N1", "salt"]
    have e : sortStrings ["N1", "salt"] = ["N1", "salt"] := by decide
    rwa [e] at h
  have hp : (["N1", "salt"] : List String).Perm
      ((((mapOf [("out_order_no", JValue.str "N1"), ("sign", .str "old"),
          ("cp_extra", .str "")]).filter (fun kv => decide (kv.1 ∉
          ["other_settle_params", "app_id", "thirdparty_id", "sign", "salt", "token"]))).map
        (fun kv => signValue kv.2)).filter (fun s => decide (s ≠ "" ∧ s ≠ "null")) ++
        [(⟨⟨"app", "secret", false, "tok", "salt"⟩, ""⟩ : DouYinOpenApi).Config.Salt]) := by
    have e : ((((mapOf [("out_order_no", JValue.str "N1"), ("sign", .str "old"),
          ("cp_extra", .str "")]).filter (fun kv => decide (kv.1 ∉
          ["other_settle_params", "app_id", "thirdparty_id", "sign", "salt", "token"]))).map
        (fun kv => signValue kv.2)).filter (fun s => decide (s ≠ "" ∧ s ≠ "null")) ++
        [(⟨⟨"app", "secret", false, "tok", "salt"⟩, ""⟩ : DouYinOpenApi).Config.Salt]) =
        ["N1", "salt"] := by decide
    rw [e]
  exact ⟨hs, (GenerateSign_md5_of_sorted_candidates exampleDigest
    ⟨⟨"app", "secret", false, "tok", "salt"⟩, ""⟩ _ ["N1", "salt"] hs hp).1⟩

/-- C2. The output of `GenerateSign` does not depend on the order of the
fields: two listings of the same fields (no name twice) that are
rearrangements of each other give the same signature. -/
theorem GenerateSign_order_invariant (md5Sum : String → List Byte) (d : DouYinOpenApi)
    (members₁ members₂ : List (String × JValue))
    (hperm : members₁.Perm members₂) (hnodup : (members₁.map Prod.fst).Nodup) :
    GenerateSign md5Sum d (some (.obj members₁)) =
      GenerateSign md5Sum d (some (.obj members₂)) := by
  have hnodup₂ : (members₂.map Prod.fst).Nodup := (hperm.map Prod.fst).nodup_iff.1 hnodup
  unfold GenerateSign unmarshalMap
  simp only
  rw [mapOf_of_nodup _ hnodup, mapOf_of_nodup _ hnodup₂, signString_perm d hperm]

theorem GenerateSign_order_invariant_witness :
    GenerateSign exampleDigest ⟨⟨"app", "secret", false, "tok", "salt"⟩, ""⟩
      (some (.obj [("out_order_no", .str "N1"), ("cp_extra", .str "x")])) =
    GenerateSign exampleDigest ⟨⟨"app", "secret", false, "tok", "salt"⟩, ""⟩
      (some (.obj [("cp_extra", .str "x"), ("out_order_no", .str "N1")])) :=
  GenerateSign_order_invariant exampleDigest _ _ _ (List.Perm.swap _ _ _) (by decide)

/-- C3. Adding a field with a non-excluded name whose value is `""` or
`"null"` leaves the string that `GenerateSign` hashes (and so the signature)
unchanged, whereas adding a field whose value is the string `"0"` or the
number zero adds the candidate `0` to the strings that are sorted, joined and
hashed. -/
theorem signString_blank_null_dropped_zero_kept (md5Sum : String → List Byte)
    (d : DouYinOpenApi) (members : List (String × JValue)) (k : String)
    (hk : k ∉ ["other_settle_params", "app_id", "thirdparty_id", "sign", "salt", "token"])
    (hfresh : ∀ kv ∈ members, kv.1 ≠ k) :
    (signString d (mapOf (members ++ [(k, .str "")])) = signString d (mapOf members) ∧
      GenerateSign md5Sum d (some (.obj (members ++ [(k, .str "")]))) =
        GenerateSign md5Sum d (some (.obj members))) ∧
    (signString d (mapOf (members ++ [(k, .str "null")])) = signString d (mapOf members) ∧
      GenerateSign md5Sum d (some (.obj (members ++ [(k, .str "null")]))) =
        GenerateSign md5Sum d (some (.obj members))) ∧
    (signString d (mapOf (members ++ [(k, .str "0")])) =
        Join (sortStrings ("0" :: signParts d (mapOf members))) "&" ∧
      GenerateSign md5Sum d (some (.obj (members ++ [(k, .str "0")]))) =
        sprintfHex (md5Sum (Join (sortStrings ("0" :: signParts d (mapOf members))) "&"))) ∧
    (signString d (mapOf (members ++ [(k, .num ⟨false, [], 0⟩)])) =
        Join (sortStrings ("0" :: signParts d (mapOf members))) "&" ∧
      GenerateSign md5Sum d (some (.obj (members ++ [(k, .num ⟨false, [], 0⟩)]))) =
        sprintfHex (md5Sum (Join (sortStrings ("0" :: signParts d (mapOf members))) "&"))) := by
  have hblank : candidateOf (k, JValue.str "") = none := by
    rw [candidateOf_of_kept k _ hk]; decide
  have hnull : candidateOf (k, JValue.str "null") = none := by
    rw [candidateOf_of_kept k _ hk]; decide
  have hzero : candidateOf (k, JValue.str "0") = some "0" := by
    rw [candidateOf_of_kept k _ hk]; decide
  have hnum : candidateOf (k, JValue.num ⟨false, [], 0⟩) = some "0" := by
    rw [candidateOf_of_kept k _ hk]; decide
  have e1 : signString d (mapOf (members ++ [(k, .str "")])) = signString d (mapOf members) := by
    rw [mapOf_append_fresh k _ members hfresh]
    unfold signString
    rw [signParts_append_none d _ _ hblank]
  have e2 : signString d (mapOf (members ++ [(k, .str "null")])) =
      signString d (mapOf members) := by
    rw [mapOf_append_fresh k _ members hfresh]
    unfold signString
    rw [signParts_append_none d _ _ hnull]
  have e3 : signString d (mapOf (members ++ [(k, .str "0")])) =
      Join (sortStrings ("0" :: signParts d (mapOf members))) "&" := by
    rw [mapOf_append_fresh k _ members hfresh]
    exact signString_append_some d _ _ "0" hzero
  have e4 : signString d (mapOf (members ++ [(k, .num ⟨false, [], 0⟩)])) =
      Join (sortStrings ("0" :: signParts d (mapOf members))) "&" := by
    rw [mapOf_append_fresh k _ members hfresh]
    exact signString_append_some d _ _ "0" hnum
  refine ⟨⟨e1, ?_⟩, ⟨e2, ?_⟩, ⟨e3, ?_⟩, ⟨e4, ?_⟩⟩
  · unfold GenerateSign unmarshalMap; simp only; rw [e1]
  · unfold GenerateSign unmarshalMap; simp only; rw [e2]
  · unfold GenerateSign unmarshalMap; simp only; rw [e3]
  · unfold GenerateSign unmarshalMap; simp only; rw [e4]

theorem signString_blank_null_dropped_zero_kept_witness :
    signString ⟨⟨"app", "secret", false, "tok", "salt"⟩, ""⟩
        (mapOf ([("out_order_no", .str "N1")] ++ [("cp_extra", .str "")])) = "N1&salt" ∧
    signString ⟨⟨"app", "secret", false, "tok", "salt"⟩, ""⟩
        (mapOf ([("out_order_no", .str "N1")] ++ [("cp_extra", .str "0")])) = "0&N1&salt" ∧
    signString ⟨⟨"app", "secret", false, "tok", "salt"⟩, ""⟩
        (mapOf ([("out_order_no", .str "N1")] ++ [("cp_extra", .num ⟨false, [], 0⟩)])) =
      "0&N1&salt" := by
  have h := signString_blank_null_dropped_zero_kept exampleDigest
    ⟨⟨"app", "secret", false, "tok", "salt"⟩, ""⟩ [("out_order_no", .str "N1")] "cp_extra"
    (by decide) (by decide)
  refine ⟨h.1.1.trans (by decide), h.2.2.1.1.trans (by decide), h.2.2.2.1.trans (by decide)⟩

/-- C4, as the claim states it, fails.  The settle-params blob of `SettleParams`
is the field `settle_params`, and `GenerateSign` signs it: two `SettleParams`
that differ only in `settle_params` (`[]` and a list of one item) are hashed as
`N1&S1&[]&salt` and as that string with the list of one item in the place of
`[]`, and get different signatures (here under a digest without collisions).
The name the code leaves out is `other_settle_params`, which no parameter
struct has. -/
theorem GenerateSign_settle_params_counterexample :
    (unmarshalMap (some ({ OutSettleNo := "S1", OutOrderNo := "N1", SettleParams := "[]" } : DouyinOpenapi.SettleParams).marshal)).map
      (signString ⟨⟨"app", "secret", false, "tok", "salt"⟩, ""⟩) = some "N1&S1&[]&salt" ∧
    (unmarshalMap (some ({ OutSettleNo := "S1", OutOrderNo := "N1", SettleParams := "[\x7b\"merchant_uid\":\"m1\",\"amount\":10\x7d]" } : DouyinOpenapi.SettleParams).marshal)).map
      (signString ⟨⟨"app", "secret", false, "tok", "salt"⟩, ""⟩) =
      some "N1&S1&[\x7b\"merchant_uid\":\"m1\",\"amount\":10\x7d]&salt" ∧
    GenerateSign exampleDigest ⟨⟨"app", "secret", false, "tok", "salt"⟩, ""⟩
        (some ({ OutSettleNo := "S1", OutOrderNo := "N1", SettleParams := "[]" } : DouyinOpenapi.SettleParams).marshal) ≠
      GenerateSign exampleDigest ⟨⟨"app", "secret", false, "tok", "salt"⟩, ""⟩
        (some ({ OutSettleNo := "S1", OutOrderNo := "N1", SettleParams := "[\x7b\"merchant_uid\":\"m1\",\"amount\":10\x7d]" } : DouyinOpenapi.SettleParams).marshal) := by
  refine ⟨by decide, by decide, by decide⟩

/-- C4, amended. Two field sets that agree on every field other than the
housekeeping fields `app_id`, `thirdparty_id`, `salt`, `token`, `sign` and
`other_settle_params` get the same signature under the same configured salt.
The field `settle_params` of `SettleParams` is not one of these names. -/
theorem GenerateSign_ignores_housekeeping (md5Sum : String → List Byte) (d : DouYinOpenApi)
    (members₁ members₂ : List (String × JValue))
    (h : ((mapOf members₁).filter (fun kv => decide (kv.1 ∉
          ["app_id", "thirdparty_id", "salt", "token", "sign", "other_settle_params"]))).Perm
        ((mapOf members₂).filter (fun kv => decide (kv.1 ∉
          ["app_id", "thirdparty_id", "salt", "token", "sign", "other_settle_params"])))) :
    GenerateSign md5Sum d (some (.obj members₁)) =
      GenerateSign md5Sum d (some (.obj members₂)) := by
  have key : ∀ l : List (String × JValue), l.filterMap candidateOf =
      (l.filter (fun kv => decide (kv.1 ∉
        ["app_id", "thirdparty_id", "salt", "token", "sign", "other_settle_params"]))).filterMap
        candidateOf := by
    intro l
    induction l with
    | nil => rfl
    | cons kv rest ih =>
      rw [List.filter_cons]
      by_cases hm : kv.1 ∈
          ["app_id", "thirdparty_id", "salt", "token", "sign", "other_settle_params"]
      · have hm' : kv.1 ∈
            ["other_settle_params", "app_id", "thirdparty_id", "sign", "salt", "token"] := by
          simp only [List.mem_cons, List.mem_singleton, List.not_mem_nil, or_false] at hm ⊢
          tauto
        rw [if_neg (by rw [decide_eq_true_eq]; exact not_not.2 hm), List.filterMap_cons,
          candidateOf_of_skipped kv.1 kv.2 hm']
        exact ih
      · rw [if_pos (by rw [decide_eq_true_eq]; exact hm), List.filterMap_cons,
          List.filterMap_cons, ih]
  unfold GenerateSign unmarshalMap
  simp only
  unfold signString
  rw [signParts_eq, signParts_eq, key (mapOf members₁), key (mapOf members₂)]
  rw [sortStrings_congr ((h.filterMap candidateOf).append_right [d.Config.Salt])]

theorem GenerateSign_ignores_housekeeping_witness :
    GenerateSign exampleDigest ⟨⟨"app", "secret", false, "tok", "salt"⟩, ""⟩
      (some (.obj [("app_id", .str "app"), ("out_order_no", .str "N1"), ("sign", .str "s1")])) =
    GenerateSign exampleDigest ⟨⟨"app", "secret", false, "tok", "salt"⟩, ""⟩
      (some (.obj [("out_order_no", .str "N1"), ("token", .str "t"),
        ("other_settle_params", .str "blob")])) :=
  GenerateSign_ignores_housekeeping exampleDigest _ _ _
    (by
      have e₁ : (mapOf [("app_id", JValue.str "app"), ("out_order_no", .str "N1"),
          ("sign", .str "s1")]).filter (fun kv => decide (kv.1 ∉
          ["app_id", "thirdparty_id", "salt", "token", "sign", "other_settle_params"])) =
          [("out_order_no", .str "N1")] := by
        simp [mapOf]
      have e₂ : (mapOf [("out_order_no", JValue.str "N1"), ("token", .str "t"),
          ("other_settle_params", .str "blob")]).filter (fun kv => decide (kv.1 ∉
          ["app_id", "thirdparty_id", "salt", "token", "sign", "other_settle_params"])) =
          [("out_order_no", .str "N1")] := by
        simp [mapOf]
      rw [e₁, e₂])

/-- C5. A field whose stringified value is the quoted text `"null"` (the
letters `null` between one pair of double quotes) is treated as empty by
`GenerateSign`: its normalised value is `null`, the loop appends nothing for
it, and the candidates are the same as without the field. -/
theorem GenerateSign_quoted_null_dropped (d : DouYinOpenApi) (k : String) (v : JValue)
    (hv : sprintV v = "\"null\"") (m₁ m₂ : List (String × JValue)) :
    signValue v = "null" ∧
    (∀ paramsArr : List String, signStep paramsArr (k, v) = paramsArr) ∧
    signParts d (m₁ ++ (k, v) :: m₂) = signParts d (m₁ ++ m₂) ∧
    signString d (m₁ ++ (k, v) :: m₂) = signString d (m₁ ++ m₂) := by
  have hsv : signValue v = "null" := by
    unfold signValue
    rw [hv]
    decide
  have hc : candidateOf (k, v) = none := by
    unfold candidateOf
    simp [hsv]
  have hparts : signParts d (m₁ ++ (k, v) :: m₂) = signParts d (m₁ ++ m₂) := by
    rw [signParts_eq, signParts_eq, List.filterMap_append, List.filterMap_cons, hc,
      List.filterMap_append]
  refine ⟨hsv, ?_, hparts, ?_⟩
  · intro paramsArr
    rw [signStep_eq, hc]
    simp
  · unfold signString
    rw [hparts]

theorem GenerateSign_quoted_null_dropped_witness :
    sprintV (.str "\"null\"") = "\"null\"" ∧
    signString ⟨⟨"app", "secret", false, "tok", "salt"⟩, ""⟩
      ([("out_order_no", .str "N1")] ++ ("cp_extra", .str "\"null\"") :: []) = "N1&salt" :=
  ⟨by decide, ((GenerateSign_quoted_null_dropped ⟨⟨"app", "secret", false, "tok", "salt"⟩, ""⟩
    "cp_extra" (.str "\"null\"") (by decide) [("out_order_no", .str "N1")] []).2.2.2).trans
    (by decide)⟩

/-! ## Callback signature verification -/

theorem hexDigit_inj : ∀ m < 16, ∀ n < 16, hexDigit m = hexDigit n → m = n := by decide

theorem sprintfHex_injective : Function.Injective sprintfHex := by
  have key : ∀ a b : List Byte,
      a.flatMap (fun b => [hexDigit (b.val / 16), hexDigit (b.val % 16)]) =
      b.flatMap (fun b => [hexDigit (b.val / 16), hexDigit (b.val % 16)]) → a = b := by
    intro a
    induction a with
    | nil =>
      intro b h
      cases b with
      | nil => rfl
      | cons y ys => simp at h
    | cons x xs ih =>
      intro b h
      cases b with
      | nil => simp at h
      | cons y ys =>
        simp only [List.flatMap_cons, List.cons_append, List.nil_append, List.cons.injEq] at h
        obtain ⟨h1, h2, h3⟩ := h
        have hx := x.isLt
        have hy := y.isLt
        have e1 := hexDigit_inj _ (by omega) _ (by omega) h1
        have e2 := hexDigit_inj _ (Nat.mod_lt _ (by decide)) _ (Nat.mod_lt _ (by decide)) h2
        have hxy : x = y := Fin.ext (by omega)
        rw [hxy, ih ys h3]
  intro a b h
  exact key a b (congrArg String.data h)

theorem char_toNat_lt (c : Char) : c.toNat < 4294967296 := c.val.val.isLt

theorem exampleDigest_injective : Function.Injective exampleDigest := by
  have key : ∀ a b : List Char,
      a.flatMap (fun c => ([Fin.ofNat (c.toNat / 16777216), Fin.ofNat (c.toNat / 65536),
        Fin.ofNat (c.toNat / 256), Fin.ofNat c.toNat] : List Byte)) =
      b.flatMap (fun c => ([Fin.ofNat (c.toNat / 16777216), Fin.ofNat (c.toNat / 65536),
        Fin.ofNat (c.toNat / 256), Fin.ofNat c.toNat] : List Byte)) → a = b := by
    intro a
    induction a with
    | nil =>
      intro b h
      cases b with
      | nil => rfl
      | cons y ys => simp at h
    | cons x xs ih =>
      intro b h
      cases b with
      | nil => simp at h
      | cons y ys =>
        simp only [List.flatMap_cons, List.cons_append, List.nil_append, List.cons.injEq] at h
        obtain ⟨h1, h2, h3, h4, h5⟩ := h
        have hx := char_toNat_lt x
        have hy := char_toNat_lt y
        have e1 := congrArg Fin.val h1
        have e2 := congrArg Fin.val h2
        have e3 := congrArg Fin.val h3
        have e4 := congrArg Fin.val h4
        simp only [Fin.ofNat, Fin.val_mk] at e1 e2 e3 e4
        have hn : x.toNat = y.toNat := by omega
        have hxy : x = y := by rw [← Char.ofNat_toNat x, ← Char.ofNat_toNat y, hn]
        rw [hxy, ih ys h5]
  intro s t h
  have := key s.data t.data h
  exact String.ext this

theorem intercalate_go_empty (l : List String) : ∀ acc : String,
    String.intercalate.go acc "" l = l.foldl (fun r s => r ++ s) acc := by
  induction l with
  | nil => intro acc; rfl
  | cons a as ih =>
    intro acc
    rw [String.intercalate.go, ih, List.foldl_cons]
    simp

theorem Join_empty_sep (l : List String) : Join l "" = String.join l := by
  unfold Join String.intercalate String.join
  cases l with
  | nil => rfl
  | cons a as =>
    simp only [List.foldl_cons]
    rw [intercalate_go_empty]
    simp

theorem length_Join_empty (l : List String) :
    (Join l "").length = (l.map String.length).sum := by
  rw [Join_empty_sep]
  show (String.join l).data.length = _
  rw [String.data_join, List.length_flatten, List.map_map]
  rfl

theorem length_Join_sortStrings (l : List String) :
    (Join (sortStrings l) "").length = (l.map String.length).sum := by
  rw [length_Join_empty]
  exact ((sortStrings_perm l).map String.length).sum_eq

theorem CheckResponseSign_eq_none_iff (sha1Sum : String → List Byte) (d : DouYinOpenApi)
    (oldSign : String) (strArr : List String) :
    CheckResponseSign sha1Sum d oldSign strArr = none ↔ oldSign = newSign sha1Sum strArr := by
  unfold CheckResponseSign
  by_cases h : newSign sha1Sum strArr = oldSign
  · simp [h]
  · have h' : ¬ oldSign = newSign sha1Sum strArr := fun e => h e.symm
    simp [h, h']

/-- C6. `CheckResponseSign` returns no error exactly when the signature equals
the lowercase hexadecimal SHA-1 digest of the parts arranged in increasing
order and concatenated without a separator; in every other case it returns an
error. -/
theorem CheckResponseSign_ok_iff (sha1Sum : String → List Byte) (d : DouYinOpenApi)
    (oldSign : String) (strArr sorted : List String)
    (hsorted : sorted.Sorted (· ≤ ·)) (hperm : sorted.Perm strArr) :
    (CheckResponseSign sha1Sum d oldSign strArr = none ↔
      oldSign = sprintfHex (sha1Sum (String.join sorted))) ∧
    ((∃ err, CheckResponseSign sha1Sum d oldSign strArr = some err) ↔
      oldSign ≠ sprintfHex (sha1Sum (String.join sorted))) := by
  have hnew : newSign sha1Sum strArr = sprintfHex (sha1Sum (String.join sorted)) := by
    unfold newSign
    rw [sortStrings_eq_of_sorted_perm hsorted hperm, Join_empty_sep]
  have h1 := CheckResponseSign_eq_none_iff sha1Sum d oldSign strArr
  rw [hnew] at h1
  refine ⟨h1, ?_⟩
  constructor
  · rintro ⟨err, he⟩ heq
    rw [h1.2 heq] at he
    cases he
  · intro hne
    cases hc : CheckResponseSign sha1Sum d oldSign strArr with
    | none => exact absurd (h1.1 hc) hne
    | some e => exact ⟨e, rfl⟩

theorem CheckResponseSign_ok_iff_witness :
    (["1602507471", "797", "msg", "tok"] : List String).Sorted (· ≤ ·) ∧
    CheckResponseSign exampleDigest ⟨⟨"app", "secret", false, "tok", "salt"⟩, ""⟩
      (sprintfHex (exampleDigest "1602507471797msgtok"))
      ["tok", "1602507471", "797", "msg"] = none := by
  have hs : (["1602507471", "797", "msg", "tok"] : List String).Sorted (· ≤ ·) := by
    have h := sortStrings_sorted ["tok", "1602507471", "797", "msg"]
    have e : sortStrings ["tok", "1602507471", "797", "msg"] =
        ["1602507471", "797", "msg", "tok"] := by decide
    rwa [e] at h
  have hp : (["1602507471", "797", "msg", "tok"] : List String).Perm
      ["tok", "1602507471", "797", "msg"] := by
    have h := sortStrings_perm ["tok", "1602507471", "797", "msg"]
    have e : sortStrings ["tok", "1602507471", "797", "msg"] =
        ["1602507471", "797", "msg", "tok"] := by decide
    rwa [e] at h
  exact ⟨hs, (CheckResponseSign_ok_iff exampleDigest _ _ _ _ hs hp).1.2 (by decide)⟩

/-- C7. For every list of parts and every rearrangement of it,
`CheckResponseSign` called with the signature computed from the original list
and with the rearranged list returns no error. -/
theorem CheckResponseSign_perm_ok (sha1Sum : String → List Byte) (d : DouYinOpenApi)
    (parts parts' : List String) (hperm : parts'.Perm parts) :
    CheckResponseSign sha1Sum d (newSign sha1Sum parts) parts' = none := by
  rw [CheckResponseSign_eq_none_iff]
  unfold newSign
  rw [sortStrings_congr hperm]

theorem CheckResponseSign_perm_ok_witness :
    CheckResponseSign exampleDigest ⟨⟨"app", "secret", false, "tok", "salt"⟩, ""⟩
      (newSign exampleDigest ["tok", "1602507471", "797", "msg"])
      ["1602507471", "tok", "797", "msg"] = none :=
  CheckResponseSign_perm_ok exampleDigest _ _ _ (List.Perm.swap _ _ _)

/-- C8, as the claim states it, fails.  With the parts `ab` and `aba`,
replacing `ab` by the different string `ba` leaves the sorted concatenation
`ababa` unchanged, so `CheckResponseSign` accepts the original signature for
the changed parts whatever the digest function is, also a collision-free one. -/
theorem CheckResponseSign_mutated_part_accepted :
    (∀ (sha1Sum : String → List Byte) (d : DouYinOpenApi),
      CheckResponseSign sha1Sum d (newSign sha1Sum ([] ++ "ab" :: ["aba"]))
        ([] ++ "ba" :: ["aba"]) = none) ∧
    ¬ (∀ (sha1Sum : String → List Byte) (d : DouYinOpenApi) (l₁ l₂ : List String)
        (x p : String), Function.Injective sha1Sum → p ≠ x →
        CheckResponseSign sha1Sum d (newSign sha1Sum (l₁ ++ x :: l₂)) (l₁ ++ p :: l₂) ≠ none) := by
  have hacc : ∀ (sha1Sum : String → List Byte) (d : DouYinOpenApi),
      CheckResponseSign sha1Sum d (newSign sha1Sum ([] ++ "ab" :: ["aba"]))
        ([] ++ "ba" :: ["aba"]) = none := by
    intro sha1Sum d
    rw [CheckResponseSign_eq_none_iff]
    unfold newSign
    have e : Join (sortStrings ([] ++ "ab" :: ["aba"])) "" =
        Join (sortStrings ([] ++ "ba" :: ["aba"])) "" := by decide
    rw [e]
  refine ⟨hacc, fun h => ?_⟩
  exact h exampleDigest ⟨⟨"app", "secret", false, "tok", "salt"⟩, ""⟩ [] ["aba"] "ab" "ba"
    exampleDigest_injective (by decide) (hacc _ _)

/-- C8, amended. Changing the signature to any different string makes
`CheckResponseSign` fail on the original parts.  Replacing one part by another
string makes it fail under the signature of the original parts, for a
collision-free digest, whenever the sorted concatenation of the parts changes;
this is so in particular when the new part has a different length. -/
theorem CheckResponseSign_detects_mutation (sha1Sum : String → List Byte)
    (d : DouYinOpenApi) (l₁ l₂ : List String) (x p sig : String)
    (hinj : Function.Injective sha1Sum) :
    (sig ≠ newSign sha1Sum (l₁ ++ x :: l₂) →
      CheckResponseSign sha1Sum d sig (l₁ ++ x :: l₂) ≠ none) ∧
    (Join (sortStrings (l₁ ++ p :: l₂)) "" ≠ Join (sortStrings (l₁ ++ x :: l₂)) "" →
      CheckResponseSign sha1Sum d (newSign sha1Sum (l₁ ++ x :: l₂)) (l₁ ++ p :: l₂) ≠ none) ∧
    (p.length ≠ x.length →
      CheckResponseSign sha1Sum d (newSign sha1Sum (l₁ ++ x :: l₂)) (l₁ ++ p :: l₂) ≠ none) := by
  have h2 : Join (sortStrings (l₁ ++ p :: l₂)) "" ≠ Join (sortStrings (l₁ ++ x :: l₂)) "" →
      CheckResponseSign sha1Sum d (newSign sha1Sum (l₁ ++ x :: l₂)) (l₁ ++ p :: l₂) ≠ none := by
    intro hne hnone
    rw [CheckResponseSign_eq_none_iff] at hnone
    unfold newSign at hnone
    exact hne (hinj (sprintfHex_injective hnone)).symm
  refine ⟨?_, h2, ?_⟩
  · intro hsig hnone
    exact hsig ((CheckResponseSign_eq_none_iff sha1Sum d sig _).1 hnone)
  · intro hlen
    apply h2
    intro heq
    have hl := congrArg String.length heq
    rw [length_Join_sortStrings, length_Join_sortStrings] at hl
    simp only [List.map_append, List.map_cons, List.sum_append, List.sum_cons] at hl
    omega

theorem CheckResponseSign_detects_mutation_witness :
    CheckResponseSign exampleDigest ⟨⟨"app", "secret", false, "tok", "salt"⟩, ""⟩
      "00" ([] ++ "ab" :: ["aba"]) ≠ none ∧
    CheckResponseSign exampleDigest ⟨⟨"app", "secret", false, "tok", "salt"⟩, ""⟩
      (newSign exampleDigest ([] ++ "ab" :: ["aba"])) ([] ++ "b" :: ["aba"]) ≠ none := by
  have h := CheckResponseSign_detects_mutation exampleDigest
    ⟨⟨"app", "secret", false, "tok", "salt"⟩, ""⟩ [] ["aba"] "ab" "b" "00"
    exampleDigest_injective
  exact ⟨h.1 (by decide), h.2.2 (by decide)⟩

/-! ## Callbacks -/

theorem PayCallback_of_sign_error (sha1Sum : String → List Byte)
    (checkValid : String → Option String)
    (decodeBody : String → PayCallbackResponse → PayCallbackResponse × Option String)
    (decodeMsg : String → PayCallbackResponseData → PayCallbackResponseData × Option String)
    (d : DouYinOpenApi) (body : String) (env : PayCallbackResponse) (err : String)
    (hbody : Unmarshal checkValid decodeBody body {} = (env, none))
    (hsign : CheckResponseSign sha1Sum d env.MsgSignature
      [d.Config.Token, env.Timestamp, env.Nonce, env.Msg] = some err) :
    PayCallback sha1Sum checkValid decodeBody decodeMsg d body true = (env, some err) := by
  unfold PayCallback
  rw [hbody]
  simp only [if_true, hsign]

theorem PayCallback_of_msg_invalid (sha1Sum : String → List Byte)
    (checkValid : String → Option String)
    (decodeBody : String → PayCallbackResponse → PayCallbackResponse × Option String)
    (decodeMsg : String → PayCallbackResponseData → PayCallbackResponseData × Option String)
    (d : DouYinOpenApi) (body : String) (checkSign : Bool) (env : PayCallbackResponse) (e : String)
    (hbody : Unmarshal checkValid decodeBody body {} = (env, none))
    (hsign : checkSign = false ∨ env.MsgSignature =
      newSign sha1Sum [d.Config.Token, env.Timestamp, env.Nonce, env.Msg])
    (hmsg : checkValid env.Msg = some e) :
    PayCallback sha1Sum checkValid decodeBody decodeMsg d body checkSign = (env, some e) := by
  have hcheck : (if checkSign = true then
      CheckResponseSign sha1Sum d env.MsgSignature
        [d.Config.Token, env.Timestamp, env.Nonce, env.Msg]
      else none) = none := by
    rcases hsign with h | h
    · simp [h]
    · rw [(CheckResponseSign_eq_none_iff sha1Sum d _ _).2 h]
      simp
  have hinner : Unmarshal checkValid decodeMsg env.Msg {} = ({}, some e) := by
    unfold Unmarshal
    rw [hmsg]
  unfold PayCallback
  rw [hbody]
  simp only [hcheck, hinner]

theorem RefundCallback_of_sign_error (sha1Sum : String → List Byte)
    (checkValid : String → Option String)
    (decodeBody : String → RefundCallbackResponse → RefundCallbackResponse × Option String)
    (decodeMsg : String → RefundCallbackResponseMsg → RefundCallbackResponseMsg × Option String)
    (d : DouYinOpenApi) (body : String) (env : RefundCallbackResponse) (err : String)
    (hbody : Unmarshal checkValid decodeBody body {} = (env, none))
    (hsign : CheckResponseSign sha1Sum d env.MsgSignature
      [d.Config.Token, env.Timestamp, env.Nonce, env.Msg] = some err) :
    RefundCallback sha1Sum checkValid decodeBody decodeMsg d body true = (env, some err) := by
  unfold RefundCallback
  rw [hbody]
  simp only [if_true, hsign]

theorem RefundCallback_of_msg_invalid (sha1Sum : String → List Byte)
    (checkValid : String → Option String)
    (decodeBody : String → RefundCallbackResponse → RefundCallbackResponse × Option String)
    (decodeMsg : String → RefundCallbackResponseMsg → RefundCallbackResponseMsg × Option String)
    (d : DouYinOpenApi) (body : String) (checkSign : Bool) (env : RefundCallbackResponse) (e : String)
    (hbody : Unmarshal checkValid decodeBody body {} = (env, none))
    (hsign : checkSign = false ∨ env.MsgSignature =
      newSign sha1Sum [d.Config.Token, env.Timestamp, env.Nonce, env.Msg])
    (hmsg : checkValid env.Msg = some e) :
    RefundCallback sha1Sum checkValid decodeBody decodeMsg d body checkSign = (env, some e) := by
  have hcheck : (if checkSign = true then
      CheckResponseSign sha1Sum d env.MsgSignature
        [d.Config.Token, env.Timestamp, env.Nonce, env.Msg]
      else none) = none := by
    rcases hsign with h | h
    · simp [h]
    · rw [(CheckResponseSign_eq_none_iff sha1Sum d _ _).2 h]
      simp
  have hinner : Unmarshal checkValid decodeMsg env.Msg {} = ({}, some e) := by
    unfold Unmarshal
    rw [hmsg]
  unfold RefundCallback
  rw [hbody]
  simp only [hcheck, hinner]

theorem SettleCallback_of_sign_error (sha1Sum : String → List Byte)
    (checkValid : String → Option String)
    (decodeBody : String → SettleCallbackResponse → SettleCallbackResponse × Option String)
    (decodeMsg : String → SettleCallbackResponseMsg → SettleCallbackResponseMsg × Option String)
    (d : DouYinOpenApi) (body : String) (env : SettleCallbackResponse) (err : String)
    (hbody : Unmarshal checkValid decodeBody body {} = (env, none))
    (hsign : CheckResponseSign sha1Sum d env.MsgSignature
      [d.Config.Token, env.Timestamp, env.Nonce, env.Msg] = some err) :
    SettleCallback sha1Sum checkValid decodeBody decodeMsg d body true = (env, some err) := by
  unfold SettleCallback
  rw [hbody]
  simp only [if_true, hsign]

theorem SettleCallback_of_msg_invalid (sha1Sum : String → List Byte)
    (checkValid : String → Option String)
    (decodeBody : String → SettleCallbackResponse → SettleCallbackResponse × Option String)
    (decodeMsg : String → SettleCallbackResponseMsg → SettleCallbackResponseMsg × Option String)
    (d : DouYinOpenApi) (body : String) (checkSign : Bool) (env : SettleCallbackResponse) (e : String)
    (hbody : Unmarshal checkValid decodeBody body {} = (env, none))
    (hsign : checkSign = false ∨ env.MsgSignature =
      newSign sha1Sum [d.Config.Token, env.Timestamp, env.Nonce, env.Msg])
    (hmsg : checkValid env.Msg = some e) :
    SettleCallback sha1Sum checkValid decodeBody decodeMsg d body checkSign = (env, some e) := by
  have hcheck : (if checkSign = true then
      CheckResponseSign sha1Sum d env.MsgSignature
        [d.Config.Token, env.Timestamp, env.Nonce, env.Msg]
      else none) = none := by
    rcases hsign with h | h
    · simp [h]
    · rw [(CheckResponseSign_eq_none_iff sha1Sum d _ _).2 h]
      simp
  have hinner : Unmarshal checkValid decodeMsg env.Msg {} = ({}, some e) := by
    unfold Unmarshal
    rw [hmsg]
  unfold SettleCallback
  rw [hbody]
  simp only [hcheck, hinner]

theorem MerchantWithdrawCallback_of_sign_error (sha1Sum : String → List Byte)
    (checkValid : String → Option String)
    (decodeBody : String → MerchantWithdrawCallbackResponse → MerchantWithdrawCallbackResponse × Option String)
    (decodeMsg : String → MerchantWithdrawCallbackResponseMsg → MerchantWithdrawCallbackResponseMsg × Option String)
    (d : DouYinOpenApi) (body : String) (env : MerchantWithdrawCallbackResponse) (err : String)
    (hbody : Unmarshal checkValid decodeBody body {} = (env, none))
    (hsign : CheckResponseSign sha1Sum d env.MsgSignature
      [d.Config.Token, env.Timestamp, env.Nonce, env.Msg] = some err) :
    MerchantWithdrawCallback sha1Sum checkValid decodeBody decodeMsg d body true = (env, some err) := by
  unfold MerchantWithdrawCallback
  rw [hbody]
  simp only [if_true, hsign]

theorem MerchantWithdrawCallback_of_msg_invalid (sha1Sum : String → List Byte)
    (checkValid : String → Option String)
    (decodeBody : String → MerchantWithdrawCallbackResponse → MerchantWithdrawCallbackResponse × Option String)
    (decodeMsg : String → MerchantWithdrawCallbackResponseMsg → MerchantWithdrawCallbackResponseMsg × Option String)
    (d : DouYinOpenApi) (body : String) (checkSign : Bool) (env : MerchantWithdrawCallbackResponse) (e : String)
    (hbody : Unmarshal checkValid decodeBody body {} = (env, none))
    (hsign : checkSign = false ∨ env.MsgSignature =
      newSign sha1Sum [d.Config.Token, env.Timestamp, env.Nonce, env.Msg])
    (hmsg : checkValid env.Msg = some e) :
    MerchantWithdrawCallback sha1Sum checkValid decodeBody decodeMsg d body checkSign = (env, some e) := by
  have hcheck : (if checkSign = true then
      CheckResponseSign sha1Sum d env.MsgSignature
        [d.Config.Token, env.Timestamp, env.Nonce, env.Msg]
      else none) = none := by
    rcases hsign with h | h
    · simp [h]
    · rw [(CheckResponseSign_eq_none_iff sha1Sum d _ _).2 h]
      simp
  have hinner : Unmarshal checkValid decodeMsg env.Msg {} = ({}, some e) := by
    unfold Unmarshal
    rw [hmsg]
  unfold MerchantWithdrawCallback
  rw [hbody]
  simp only [hcheck, hinner]

theorem CheckResponseSign_ne_none (sha1Sum : String → List Byte) (d : DouYinOpenApi)
    (oldSign : String) (strArr : List String) (h : oldSign ≠ newSign sha1Sum strArr) :
    CheckResponseSign sha1Sum d oldSign strArr =
      some ("回调验签失败 newSign:" ++ newSign sha1Sum strArr ++ " oldSign:" ++ oldSign) := by
  unfold CheckResponseSign
  have h' : newSign sha1Sum strArr ≠ oldSign := fun e => h e.symm
  simp [h']

/-- C9. For each of `PayCallback`, `RefundCallback`, `SettleCallback` and
`MerchantWithdrawCallback` called with `checkSign = true` on a body that
decodes as an envelope: if `msg_signature` differs from the SHA-1 hex digest of
the sorted concatenation of the configured token, `timestamp`, `nonce` and
`msg`, the call returns the signature error together with the envelope exactly
as the outer decode left it.  The result does not depend on the decoder of the
inner message, which is never run, so `MsgStruct` holds nothing taken from
`msg`. -/
theorem callbacks_reject_bad_signature (sha1Sum : String → List Byte)
    (checkValid : String → Option String) (d : DouYinOpenApi)
    (decodeBody₁ : String → PayCallbackResponse → PayCallbackResponse × Option String)
    (decodeMsg₁ : String → PayCallbackResponseData → PayCallbackResponseData × Option String)
    (body₁ : String) (env₁ : PayCallbackResponse)
    (hbody₁ : Unmarshal checkValid decodeBody₁ body₁ {} = (env₁, none))
    (hsig₁ : env₁.MsgSignature ≠
      newSign sha1Sum [d.Config.Token, env₁.Timestamp, env₁.Nonce, env₁.Msg])
    (decodeBody₂ : String → RefundCallbackResponse → RefundCallbackResponse × Option String)
    (decodeMsg₂ : String → RefundCallbackResponseMsg → RefundCallbackResponseMsg × Option String)
    (body₂ : String) (env₂ : RefundCallbackResponse)
    (hbody₂ : Unmarshal checkValid decodeBody₂ body₂ {} = (env₂, none))
    (hsig₂ : env₂.MsgSignature ≠
      newSign sha1Sum [d.Config.Token, env₂.Timestamp, env₂.Nonce, env₂.Msg])
    (decodeBody₃ : String → SettleCallbackResponse → SettleCallbackResponse × Option String)
    (decodeMsg₃ : String → SettleCallbackResponseMsg → SettleCallbackResponseMsg × Option String)
    (body₃ : String) (env₃ : SettleCallbackResponse)
    (hbody₃ : Unmarshal checkValid decodeBody₃ body₃ {} = (env₃, none))
    (hsig₃ : env₃.MsgSignature ≠
      newSign sha1Sum [d.Config.Token, env₃.Timestamp, env₃.Nonce, env₃.Msg])
    (decodeBody₄ : String → MerchantWithdrawCallbackResponse → MerchantWithdrawCallbackResponse × Option String)
    (decodeMsg₄ : String → MerchantWithdrawCallbackResponseMsg → MerchantWithdrawCallbackResponseMsg × Option String)
    (body₄ : String) (env₄ : MerchantWithdrawCallbackResponse)
    (hbody₄ : Unmarshal checkValid decodeBody₄ body₄ {} = (env₄, none))
    (hsig₄ : env₄.MsgSignature ≠
      newSign sha1Sum [d.Config.Token, env₄.Timestamp, env₄.Nonce, env₄.Msg]) :
    PayCallback sha1Sum checkValid decodeBody₁ decodeMsg₁ d body₁ true =
      (env₁, some ("回调验签失败 newSign:" ++
        newSign sha1Sum [d.Config.Token, env₁.Timestamp, env₁.Nonce, env₁.Msg] ++
        " oldSign:" ++ env₁.MsgSignature)) ∧
    RefundCallback sha1Sum checkValid decodeBody₂ decodeMsg₂ d body₂ true =
      (env₂, some ("回调验签失败 newSign:" ++
        newSign sha1Sum [d.Config.Token, env₂.Timestamp, env₂.Nonce, env₂.Msg] ++
        " oldSign:" ++ env₂.MsgSignature)) ∧
    SettleCallback sha1Sum checkValid decodeBody₃ decodeMsg₃ d body₃ true =
      (env₃, some ("回调验签失败 newSign:" ++
        newSign sha1Sum [d.Config.Token, env₃.Timestamp, env₃.Nonce, env₃.Msg] ++
        " oldSign:" ++ env₃.MsgSignature)) ∧
    MerchantWithdrawCallback sha1Sum checkValid decodeBody₄ decodeMsg₄ d body₄ true =
      (env₄, some ("回调验签失败 newSign:" ++
        newSign sha1Sum [d.Config.Token, env₄.Timestamp, env₄.Nonce, env₄.Msg] ++
        " oldSign:" ++ env₄.MsgSignature)) :=
  ⟨PayCallback_of_sign_error sha1Sum checkValid decodeBody₁ decodeMsg₁ d body₁ env₁ _
      hbody₁ (CheckResponseSign_ne_none sha1Sum d _ _ hsig₁),
    RefundCallback_of_sign_error sha1Sum checkValid decodeBody₂ decodeMsg₂ d body₂ env₂ _
      hbody₂ (CheckResponseSign_ne_none sha1Sum d _ _ hsig₂),
    SettleCallback_of_sign_error sha1Sum checkValid decodeBody₃ decodeMsg₃ d body₃ env₃ _
      hbody₃ (CheckResponseSign_ne_none sha1Sum d _ _ hsig₃),
    MerchantWithdrawCallback_of_sign_error sha1Sum checkValid decodeBody₄ decodeMsg₄ d body₄ env₄ _
      hbody₄ (CheckResponseSign_ne_none sha1Sum d _ _ hsig₄)⟩

theorem callbacks_reject_bad_signature_witness :
    (PayCallback exampleDigest (fun _ => none)
      (fun _ v => ({ v with Msg := "m", MsgSignature := "bad" }, none)) (fun _ v => (v, none))
      ⟨⟨"app", "secret", false, "tok", "salt"⟩, ""⟩ "b" true).2 ≠ none ∧
    (RefundCallback exampleDigest (fun _ => none)
      (fun _ v => ({ v with Msg := "m", MsgSignature := "bad" }, none)) (fun _ v => (v, none))
      ⟨⟨"app", "secret", false, "tok", "salt"⟩, ""⟩ "b" true).2 ≠ none ∧
    (SettleCallback exampleDigest (fun _ => none)
      (fun _ v => ({ v with Msg := "m", MsgSignature := "bad" }, none)) (fun _ v => (v, none))
      ⟨⟨"app", "secret", false, "tok", "salt"⟩, ""⟩ "b" true).2 ≠ none ∧
    (MerchantWithdrawCallback exampleDigest (fun _ => none)
      (fun _ v => ({ v with Msg := "m", MsgSignature := "bad" }, none)) (fun _ v => (v, none))
      ⟨⟨"app", "secret", false, "tok", "salt"⟩, ""⟩ "b" true).2 ≠ none := by
  have h := callbacks_reject_bad_signature exampleDigest (fun _ => none) ⟨⟨"app", "secret", false, "tok", "salt"⟩, ""⟩
    (fun _ v => ({ v with Msg := "m", MsgSignature := "bad" }, none)) (fun _ v => (v, none))
    "b" { Msg := "m", MsgSignature := "bad" } rfl (by decide)
    (fun _ v => ({ v with Msg := "m", MsgSignature := "bad" }, none)) (fun _ v => (v, none))
    "b" { Msg := "m", MsgSignature := "bad" } rfl (by decide)
    (fun _ v => ({ v with Msg := "m", MsgSignature := "bad" }, none)) (fun _ v => (v, none))
    "b" { Msg := "m", MsgSignature := "bad" } rfl (by decide)
    (fun _ v => ({ v with Msg := "m", MsgSignature := "bad" }, none)) (fun _ v => (v, none))
    "b" { Msg := "m", MsgSignature := "bad" } rfl (by decide)
  refine ⟨?_, ?_, ?_, ?_⟩
  · rw [h.1]; simp
  · rw [h.2.1]; simp
  · rw [h.2.2.1]; simp
  · rw [h.2.2.2]; simp

/-- C10. For every callback envelope whose outer JSON decodes (and whose
signature passes or is not checked) but whose inner `msg` is not syntactically
valid JSON, `PayCallback`, `RefundCallback`, `SettleCallback` and
`MerchantWithdrawCallback` return the syntax error of the decoder, together
with the envelope as the outer decode left it, instead of succeeding. -/
theorem callbacks_reject_invalid_msg (sha1Sum : String → List Byte)
    (checkValid : String → Option String) (d : DouYinOpenApi)
    (decodeBody₁ : String → PayCallbackResponse → PayCallbackResponse × Option String)
    (decodeMsg₁ : String → PayCallbackResponseData → PayCallbackResponseData × Option String)
    (body₁ : String) (checkSign₁ : Bool) (env₁ : PayCallbackResponse) (e₁ : String)
    (hbody₁ : Unmarshal checkValid decodeBody₁ body₁ {} = (env₁, none))
    (hsign₁ : checkSign₁ = false ∨ env₁.MsgSignature =
      newSign sha1Sum [d.Config.Token, env₁.Timestamp, env₁.Nonce, env₁.Msg])
    (hmsg₁ : checkValid env₁.Msg = some e₁)
    (decodeBody₂ : String → RefundCallbackResponse → RefundCallbackResponse × Option String)
    (decodeMsg₂ : String → RefundCallbackResponseMsg → RefundCallbackResponseMsg × Option String)
    (body₂ : String) (checkSign₂ : Bool) (env₂ : RefundCallbackResponse) (e₂ : String)
    (hbody₂ : Unmarshal checkValid decodeBody₂ body₂ {} = (env₂, none))
    (hsign₂ : checkSign₂ = false ∨ env₂.MsgSignature =
      newSign sha1Sum [d.Config.Token, env₂.Timestamp, env₂.Nonce, env₂.Msg])
    (hmsg₂ : checkValid env₂.Msg = some e₂)
    (decodeBody₃ : String → SettleCallbackResponse → SettleCallbackResponse × Option String)
    (decodeMsg₃ : String → SettleCallbackResponseMsg → SettleCallbackResponseMsg × Option String)
    (body₃ : String) (checkSign₃ : Bool) (env₃ : SettleCallbackResponse) (e₃ : String)
    (hbody₃ : Unmarshal checkValid decodeBody₃ body₃ {} = (env₃, none))
    (hsign₃ : checkSign₃ = false ∨ env₃.MsgSignature =
      newSign sha1Sum [d.Config.Token, env₃.Timestamp, env₃.Nonce, env₃.Msg])
    (hmsg₃ : checkValid env₃.Msg = some e₃)
    (decodeBody₄ : String → MerchantWithdrawCallbackResponse → MerchantWithdrawCallbackResponse × Option String)
    (decodeMsg₄ : String → MerchantWithdrawCallbackResponseMsg → MerchantWithdrawCallbackResponseMsg × Option String)
    (body₄ : String) (checkSign₄ : Bool) (env₄ : MerchantWithdrawCallbackResponse) (e₄ : String)
    (hbody₄ : Unmarshal checkValid decodeBody₄ body₄ {} = (env₄, none))
    (hsign₄ : checkSign₄ = false ∨ env₄.MsgSignature =
      newSign sha1Sum [d.Config.Token, env₄.Timestamp, env₄.Nonce, env₄.Msg])
    (hmsg₄ : checkValid env₄.Msg = some e₄) :
    PayCallback sha1Sum checkValid decodeBody₁ decodeMsg₁ d body₁ checkSign₁ =
      (env₁, some e₁) ∧
    RefundCallback sha1Sum checkValid decodeBody₂ decodeMsg₂ d body₂ checkSign₂ =
      (env₂, some e₂) ∧
    SettleCallback sha1Sum checkValid decodeBody₃ decodeMsg₃ d body₃ checkSign₃ =
      (env₃, some e₃) ∧
    MerchantWithdrawCallback sha1Sum checkValid decodeBody₄ decodeMsg₄ d body₄ checkSign₄ =
      (env₄, some e₄) :=
  ⟨PayCallback_of_msg_invalid sha1Sum checkValid decodeBody₁ decodeMsg₁ d body₁ checkSign₁
      env₁ e₁ hbody₁ hsign₁ hmsg₁,
    RefundCallback_of_msg_invalid sha1Sum checkValid decodeBody₂ decodeMsg₂ d body₂ checkSign₂
      env₂ e₂ hbody₂ hsign₂ hmsg₂,
    SettleCallback_of_msg_invalid sha1Sum checkValid decodeBody₃ decodeMsg₃ d body₃ checkSign₃
      env₃ e₃ hbody₃ hsign₃ hmsg₃,
    MerchantWithdrawCallback_of_msg_invalid sha1Sum checkValid decodeBody₄ decodeMsg₄ d body₄ checkSign₄
      env₄ e₄ hbody₄ hsign₄ hmsg₄⟩

theorem callbacks_reject_invalid_msg_witness :
    PayCallback exampleDigest
      (fun s => if s = "[" then some "unexpected end of JSON input" else none)
      (fun _ v => ({ v with Msg := "[" }, none)) (fun _ v => (v, none))
      ⟨⟨"app", "secret", false, "tok", "salt"⟩, ""⟩ "b" false =
      ({ Msg := "[" }, some "unexpected end of JSON input") ∧
    RefundCallback exampleDigest
      (fun s => if s = "[" then some "unexpected end of JSON input" else none)
      (fun _ v => ({ v with Msg := "[" }, none)) (fun _ v => (v, none))
      ⟨⟨"app", "secret", false, "tok", "salt"⟩, ""⟩ "b" false =
      ({ Msg := "[" }, some "unexpected end of JSON input") ∧
    SettleCallback exampleDigest
      (fun s => if s = "[" then some "unexpected end of JSON input" else none)
      (fun _ v => ({ v with Msg := "[" }, none)) (fun _ v => (v, none))
      ⟨⟨"app", "secret", false, "tok", "salt"⟩, ""⟩ "b" false =
      ({ Msg := "[" }, some "unexpected end of JSON input") ∧
    MerchantWithdrawCallback exampleDigest
      (fun s => if s = "[" then some "unexpected end of JSON input" else none)
      (fun _ v => ({ v with Msg := "[" }, none)) (fun _ v => (v, none))
      ⟨⟨"app", "secret", false, "tok", "salt"⟩, ""⟩ "b" false =
      ({ Msg := "[" }, some "unexpected end of JSON input") :=
  callbacks_reject_invalid_msg exampleDigest
    (fun s => if s = "[" then some "unexpected end of JSON input" else none) ⟨⟨"app", "secret", false, "tok", "salt"⟩, ""⟩
    (fun _ v => ({ v with Msg := "[" }, none)) (fun _ v => (v, none))
    "b" false { Msg := "[" } "unexpected end of JSON input" rfl (Or.inl rfl) rfl
    (fun _ v => ({ v with Msg := "[" }, none)) (fun _ v => (v, none))
    "b" false { Msg := "[" } "unexpected end of JSON input" rfl (Or.inl rfl) rfl
    (fun _ v => ({ v with Msg := "[" }, none)) (fun _ v => (v, none))
    "b" false { Msg := "[" } "unexpected end of JSON input" rfl (Or.inl rfl) rfl
    (fun _ v => ({ v with Msg := "[" }, none)) (fun _ v => (v, none))
    "b" false { Msg := "[" } "unexpected end of JSON input" rfl (Or.inl rfl) rfl

/-- C11. For every payment callback body that decodes as an envelope `env`
whose `msg` string decodes as a payment payload, `PayCallback(body, false)`
returns no error whatever `msg_signature` is (no digest is computed), returns
`timestamp`, `nonce`, `msg`, `msg_signature` and `type` as the envelope gives
them, and returns as `MsgStruct` the decode of `msg` into a fresh struct. -/
theorem PayCallback_unchecked_ok (sha1Sum sha1Sum' : String → List Byte)
    (checkValid : String → Option String)
    (decodeBody : String → PayCallbackResponse → PayCallbackResponse × Option String)
    (decodeMsg : String → PayCallbackResponseData → PayCallbackResponseData × Option String)
    (d : DouYinOpenApi) (body : String) (env : PayCallbackResponse)
    (msgStruct : PayCallbackResponseData)
    (hbody : Unmarshal checkValid decodeBody body {} = (env, none))
    (hmsg : Unmarshal checkValid decodeMsg env.Msg {} = (msgStruct, none)) :
    PayCallback sha1Sum checkValid decodeBody decodeMsg d body false =
      ({ Timestamp := env.Timestamp, Nonce := env.Nonce, Msg := env.Msg,
         MsgStruct := msgStruct, MsgSignature := env.MsgSignature, Type' := env.Type' },
        none) ∧
    PayCallback sha1Sum checkValid decodeBody decodeMsg d body false =
      PayCallback sha1Sum' checkValid decodeBody decodeMsg d body false := by
  have h : ∀ f : String → List Byte,
      PayCallback f checkValid decodeBody decodeMsg d body false =
        ({ env with MsgStruct := msgStruct }, none) := by
    intro f
    unfold PayCallback
    rw [hbody]
    simp only [Bool.false_eq_true, if_false, hmsg]
  exact ⟨h sha1Sum, (h sha1Sum).trans (h sha1Sum').symm⟩

theorem PayCallback_unchecked_ok_witness :
    PayCallback exampleDigest (fun _ => none)
      (fun _ v => ({ v with Timestamp := "1602507471", Nonce := "797", Msg := "msg", MsgSignature := "52fff5f7a4bf4a921c2daf83c75cf0e716432c73", Type' := "payment" }, none))
      (fun _ v => ({ v with Appid := "tt07e3715e98c9aac0", CpOrderNo := "out_order_no_1", TotalAmount := 9980, Status := "SUCCESS" }, none))
      ⟨⟨"app", "secret", false, "tok", "salt"⟩, ""⟩ "body" false =
      ({ Timestamp := "1602507471", Nonce := "797", Msg := "msg",
         MsgStruct := { Appid := "tt07e3715e98c9aac0", CpOrderNo := "out_order_no_1", TotalAmount := 9980, Status := "SUCCESS" },
         MsgSignature := "52fff5f7a4bf4a921c2daf83c75cf0e716432c73", Type' := "payment" },
        none) :=
  (PayCallback_unchecked_ok exampleDigest exampleDigest (fun _ => none)
    (fun _ v => ({ v with Timestamp := "1602507471", Nonce := "797", Msg := "msg", MsgSignature := "52fff5f7a4bf4a921c2daf83c75cf0e716432c73", Type' := "payment" }, none))
    (fun _ v => ({ v with Appid := "tt07e3715e98c9aac0", CpOrderNo := "out_order_no_1", TotalAmount := 9980, Status := "SUCCESS" }, none))
    ⟨⟨"app", "secret", false, "tok", "salt"⟩, ""⟩ "body" _ _ rfl rfl).1

/-! ## Webhooks -/

theorem HandleWebHook_of_body (sha1Sum : String → List Byte) (checkValid : String → Option String)
    (decodeBody : String → WebHookBody → WebHookBody × Option String)
    (decodeVerify : String → VerifyWebhook → VerifyWebhook × Option String)
    (decodeAuthorize : String → EventImAuthorize → EventImAuthorize × Option String)
    (decodeCallback : String → EventImAuthorizeMessageCallback →
      EventImAuthorizeMessageCallback × Option String)
    (d : DouYinOpenApi) (xDouyinSignature body : String) (checkSign : Bool)
    (wb : WebHookBody)
    (hsig : checkSign = false ∨ generateSignature sha1Sum d body = xDouyinSignature)
    (hbody : Unmarshal checkValid decodeBody body {} = (wb, none)) :
    HandleWebHook sha1Sum checkValid decodeBody decodeVerify decodeAuthorize decodeCallback d
      xDouyinSignature body checkSign =
      if wb.Event = "verify_webhook" then
        match Unmarshal checkValid decodeVerify wb.Content {} with
        | (_, some err) => (wb, some err)
        | (verifyWebhook, none) => ({ wb with VerifyWebhookContent := verifyWebhook }, none)
      else if wb.Event = "im_authorize" then
        match Unmarshal checkValid decodeAuthorize wb.Content {} with
        | (_, some err) => (wb, some err)
        | (eventImAuthorize, none) => ({ wb with ImAuthorizeContent := eventImAuthorize }, none)
      else if wb.Event = "im_authorize_message_callback" then
        match Unmarshal checkValid decodeCallback wb.Content {} with
        | (_, some err) => (wb, some err)
        | (eventImAuthorizeMessageCallback, none) =>
          ({ wb with MsgCallbackContent := eventImAuthorizeMessageCallback }, none)
      else (wb, some ("event " ++ wb.Event ++ " not support")) := by
  have hc : (checkSign == true && generateSignature sha1Sum d body != xDouyinSignature) =
      false := by
    rcases hsig with h | h <;> simp [h]
  unfold HandleWebHook
  rw [hc, hbody]
  simp only [Bool.false_eq_true, if_false]

/-- C12. For every webhook body that decodes (and passes the signature check
when it is enabled), and given that `content` decodes when the event is one of
the three recognised ones, `HandleWebHook` returns the unsupported-event error
if and only if the event is none of `verify_webhook`, `im_authorize`,
`im_authorize_message_callback`; it then returns the body as decoded. -/
theorem HandleWebHook_unsupported_iff (sha1Sum : String → List Byte) (checkValid : String → Option String)
    (decodeBody : String → WebHookBody → WebHookBody × Option String)
    (decodeVerify : String → VerifyWebhook → VerifyWebhook × Option String)
    (decodeAuthorize : String → EventImAuthorize → EventImAuthorize × Option String)
    (decodeCallback : String → EventImAuthorizeMessageCallback →
      EventImAuthorizeMessageCallback × Option String)
    (d : DouYinOpenApi) (xDouyinSignature body : String) (checkSign : Bool)
    (wb : WebHookBody)
    (hsig : checkSign = false ∨ generateSignature sha1Sum d body = xDouyinSignature)
    (hbody : Unmarshal checkValid decodeBody body {} = (wb, none))
    (hverify : wb.Event = "verify_webhook" →
      (Unmarshal checkValid decodeVerify wb.Content {}).2 = none)
    (hauthorize : wb.Event = "im_authorize" →
      (Unmarshal checkValid decodeAuthorize wb.Content {}).2 = none)
    (hcallback : wb.Event = "im_authorize_message_callback" →
      (Unmarshal checkValid decodeCallback wb.Content {}).2 = none) :
    ((HandleWebHook sha1Sum checkValid decodeBody decodeVerify decodeAuthorize decodeCallback d
      xDouyinSignature body checkSign).2 = some ("event " ++ wb.Event ++ " not support") ↔
      wb.Event ∉ ["verify_webhook", "im_authorize", "im_authorize_message_callback"]) ∧
    (wb.Event ∉ ["verify_webhook", "im_authorize", "im_authorize_message_callback"] →
      HandleWebHook sha1Sum checkValid decodeBody decodeVerify decodeAuthorize decodeCallback d
      xDouyinSignature body checkSign = (wb, some ("event " ++ wb.Event ++ " not support"))) := by
  rw [HandleWebHook_of_body sha1Sum checkValid decodeBody decodeVerify decodeAuthorize
    decodeCallback d xDouyinSignature body checkSign wb hsig hbody]
  by_cases h1 : wb.Event = "verify_webhook"
  · have hv := hverify h1
    rw [if_pos h1]
    rcases hu : Unmarshal checkValid decodeVerify wb.Content {} with ⟨v, e⟩
    rw [hu] at hv
    simp only at hv
    subst hv
    simp [h1]
  · rw [if_neg h1]
    by_cases h2 : wb.Event = "im_authorize"
    · have hv := hauthorize h2
      rw [if_pos h2]
      rcases hu : Unmarshal checkValid decodeAuthorize wb.Content {} with ⟨v, e⟩
      rw [hu] at hv
      simp only at hv
      subst hv
      simp [h2]
    · rw [if_neg h2]
      by_cases h3 : wb.Event = "im_authorize_message_callback"
      · have hv := hcallback h3
        rw [if_pos h3]
        rcases hu : Unmarshal checkValid decodeCallback wb.Content {} with ⟨v, e⟩
        rw [hu] at hv
        simp only at hv
        subst hv
        simp [h3]
      · rw [if_neg h3]
        simp [h1, h2, h3]

theorem HandleWebHook_unsupported_iff_witness :
    HandleWebHook exampleDigest (fun _ => none)
      (fun _ v => ({ v with Event := "im_group_fans", Content := "c" }, none))
      (fun _ v => (v, none)) (fun _ v => (v, none)) (fun _ v => (v, none))
      ⟨⟨"app", "secret", false, "tok", "salt"⟩, ""⟩ "sig" "body" false =
      ({ Event := "im_group_fans", Content := "c" }, some "event im_group_fans not support") :=
  (HandleWebHook_unsupported_iff exampleDigest (fun _ => none)
    (fun _ v => ({ v with Event := "im_group_fans", Content := "c" }, none))
    (fun _ v => (v, none)) (fun _ v => (v, none)) (fun _ v => (v, none))
    ⟨⟨"app", "secret", false, "tok", "salt"⟩, ""⟩ "sig" "body" false { Event := "im_group_fans", Content := "c" } (Or.inl rfl) rfl
    (fun _ => rfl) (fun _ => rfl) (fun _ => rfl)).2 (by decide)

/-- C13. For every webhook body with a recognised event (that passes the
signature check when enabled and decodes), `HandleWebHook` decodes `content`
into the sub-structure the event selects (`verify_webhook` into
`VerifyWebhookContent`, `im_authorize` into `ImAuthorizeContent`,
`im_authorize_message_callback` into `MsgCallbackContent`), sets that field to
the decoded value and leaves every other field, the two other content fields
included, as the outer decode produced it; when `content` does not decode it
returns the decode error and the body as the outer decode produced it. -/
theorem HandleWebHook_dispatch (sha1Sum : String → List Byte) (checkValid : String → Option String)
    (decodeBody : String → WebHookBody → WebHookBody × Option String)
    (decodeVerify : String → VerifyWebhook → VerifyWebhook × Option String)
    (decodeAuthorize : String → EventImAuthorize → EventImAuthorize × Option String)
    (decodeCallback : String → EventImAuthorizeMessageCallback →
      EventImAuthorizeMessageCallback × Option String)
    (d : DouYinOpenApi) (xDouyinSignature body : String) (checkSign : Bool)
    (wb : WebHookBody)
    (hsig : checkSign = false ∨ generateSignature sha1Sum d body = xDouyinSignature)
    (hbody : Unmarshal checkValid decodeBody body {} = (wb, none)) :
    (wb.Event = "verify_webhook" →
      (∀ v, Unmarshal checkValid decodeVerify wb.Content {} = (v, none) →
        HandleWebHook sha1Sum checkValid decodeBody decodeVerify decodeAuthorize decodeCallback d
      xDouyinSignature body checkSign = ({ wb with VerifyWebhookContent := v }, none)) ∧
      (∀ v e, Unmarshal checkValid decodeVerify wb.Content {} = (v, some e) →
        HandleWebHook sha1Sum checkValid decodeBody decodeVerify decodeAuthorize decodeCallback d
      xDouyinSignature body checkSign = (wb, some e))) ∧
    (wb.Event = "im_authorize" →
      (∀ v, Unmarshal checkValid decodeAuthorize wb.Content {} = (v, none) →
        HandleWebHook sha1Sum checkValid decodeBody decodeVerify decodeAuthorize decodeCallback d
      xDouyinSignature body checkSign = ({ wb with ImAuthorizeContent := v }, none)) ∧
      (∀ v e, Unmarshal checkValid decodeAuthorize wb.Content {} = (v, some e) →
        HandleWebHook sha1Sum checkValid decodeBody decodeVerify decodeAuthorize decodeCallback d
      xDouyinSignature body checkSign = (wb, some e))) ∧
    (wb.Event = "im_authorize_message_callback" →
      (∀ v, Unmarshal checkValid decodeCallback wb.Content {} = (v, none) →
        HandleWebHook sha1Sum checkValid decodeBody decodeVerify decodeAuthorize decodeCallback d
      xDouyinSignature body checkSign = ({ wb with MsgCallbackContent := v }, none)) ∧
      (∀ v e, Unmarshal checkValid decodeCallback wb.Content {} = (v, some e) →
        HandleWebHook sha1Sum checkValid decodeBody decodeVerify decodeAuthorize decodeCallback d
      xDouyinSignature body checkSign = (wb, some e))) := by
  rw [HandleWebHook_of_body sha1Sum checkValid decodeBody decodeVerify decodeAuthorize
    decodeCallback d xDouyinSignature body checkSign wb hsig hbody]
  refine ⟨fun h1 => ?_, fun h2 => ?_, fun h3 => ?_⟩
  · rw [if_pos h1]
    exact ⟨fun v hv => by rw [hv], fun v e hv => by rw [hv]⟩
  · have h1 : wb.Event ≠ "verify_webhook" := by rw [h2]; decide
    rw [if_neg h1, if_pos h2]
    exact ⟨fun v hv => by rw [hv], fun v e hv => by rw [hv]⟩
  · have h1 : wb.Event ≠ "verify_webhook" := by rw [h3]; decide
    have h2 : wb.Event ≠ "im_authorize" := by rw [h3]; decide
    rw [if_neg h1, if_neg h2, if_pos h3]
    exact ⟨fun v hv => by rw [hv], fun v e hv => by rw [hv]⟩

theorem HandleWebHook_dispatch_witness :
    HandleWebHook exampleDigest (fun _ => none)
      (fun _ v => ({ v with Event := "verify_webhook", Content := "c" }, none))
      (fun _ v => ({ v with Challenge := 12345 }, none)) (fun _ v => (v, none))
      (fun _ v => (v, none)) ⟨⟨"app", "secret", false, "tok", "salt"⟩, ""⟩ "sig" "body" false =
      ({ Event := "verify_webhook", Content := "c",
         VerifyWebhookContent := { Challenge := 12345 } }, none) :=
  ((HandleWebHook_dispatch exampleDigest (fun _ => none)
    (fun _ v => ({ v with Event := "verify_webhook", Content := "c" }, none))
    (fun _ v => ({ v with Challenge := 12345 }, none)) (fun _ v => (v, none))
    (fun _ v => (v, none)) ⟨⟨"app", "secret", false, "tok", "salt"⟩, ""⟩ "sig" "body" false
    { Event := "verify_webhook", Content := "c" } (Or.inl rfl) rfl).1 rfl).1 _ rfl

/-! ## Signing depends on the values only -/

theorem GenerateSign_congr_values (md5Sum : String → List Byte) (d : DouYinOpenApi)
    (members₁ members₂ : List (String × JValue))
    (h : (((mapOf members₁).filter (fun kv => decide (kv.1 ∉ ["other_settle_params", "app_id", "thirdparty_id", "sign", "salt", "token"]))).map
          (fun kv => signValue kv.2)).Perm
        (((mapOf members₂).filter (fun kv => decide (kv.1 ∉ ["other_settle_params", "app_id", "thirdparty_id", "sign", "salt", "token"]))).map
          (fun kv => signValue kv.2))) :
    GenerateSign md5Sum d (some (.obj members₁)) =
      GenerateSign md5Sum d (some (.obj members₂)) := by
  unfold GenerateSign unmarshalMap
  simp only
  unfold signString
  rw [signParts_eq, signParts_eq, filterMap_candidateOf, filterMap_candidateOf]
  rw [sortStrings_congr
    ((h.filter (fun s => decide (s ≠ "" ∧ s ≠ "null"))).append_right [d.Config.Salt])]

theorem perm_exchange {α : Type} (A B C : List α) (x y : α) :
    (A ++ x :: (B ++ y :: C)).Perm (A ++ y :: (B ++ x :: C)) := by
  refine List.Perm.append_left A ?_
  have h1 : (x :: (B ++ y :: C)).Perm (x :: y :: (B ++ C)) := List.perm_middle.cons x
  have h2 : (y :: (B ++ x :: C)).Perm (y :: x :: (B ++ C)) := List.perm_middle.cons y
  exact h1.trans ((List.Perm.swap y x (B ++ C)).trans h2.symm)

/-- C20. The signature returned by `GenerateSign` depends only on the multiset
of normalised values of the non-excluded fields and on the salt, not on the
field names: field sets with the same multiset of normalised values over their
non-excluded fields get the same signature; in particular renaming a field to
another non-excluded name, or exchanging the values of two non-excluded
fields, leaves the signature unchanged. -/
theorem GenerateSign_names_irrelevant (md5Sum : String → List Byte) (d : DouYinOpenApi)
    (members₁ members₂ l₁ l₂ l₃ : List (String × JValue)) (k k' : String) (v v' : JValue)
    (hk : k ∉ ["other_settle_params", "app_id", "thirdparty_id", "sign", "salt", "token"]) (hk' : k' ∉ ["other_settle_params", "app_id", "thirdparty_id", "sign", "salt", "token"]) :
    ((((mapOf members₁).filter (fun kv => decide (kv.1 ∉ ["other_settle_params", "app_id", "thirdparty_id", "sign", "salt", "token"]))).map
          (fun kv => signValue kv.2)).Perm
        (((mapOf members₂).filter (fun kv => decide (kv.1 ∉ ["other_settle_params", "app_id", "thirdparty_id", "sign", "salt", "token"]))).map
          (fun kv => signValue kv.2)) →
      GenerateSign md5Sum d (some (.obj members₁)) =
        GenerateSign md5Sum d (some (.obj members₂))) ∧
    (((l₁ ++ (k, v) :: l₂).map Prod.fst).Nodup → ((l₁ ++ (k', v) :: l₂).map Prod.fst).Nodup →
      GenerateSign md5Sum d (some (.obj (l₁ ++ (k, v) :: l₂))) =
        GenerateSign md5Sum d (some (.obj (l₁ ++ (k', v) :: l₂)))) ∧
    (((l₁ ++ (k, v) :: (l₂ ++ (k', v') :: l₃)).map Prod.fst).Nodup →
      GenerateSign md5Sum d (some (.obj (l₁ ++ (k, v) :: (l₂ ++ (k', v') :: l₃)))) =
        GenerateSign md5Sum d (some (.obj (l₁ ++ (k, v') :: (l₂ ++ (k', v) :: l₃))))) := by
  have hkd : decide (k ∉ ["other_settle_params", "app_id", "thirdparty_id", "sign", "salt", "token"]) = true := decide_eq_true hk
  have hkd' : decide (k' ∉ ["other_settle_params", "app_id", "thirdparty_id", "sign", "salt", "token"]) = true := decide_eq_true hk'
  refine ⟨GenerateSign_congr_values md5Sum d members₁ members₂, fun hn hn' => ?_, fun hn => ?_⟩
  · apply GenerateSign_congr_values
    rw [mapOf_of_nodup _ hn, mapOf_of_nodup _ hn']
    simp only [List.filter_append, List.filter_cons, hkd, hkd', if_true, List.map_append,
      List.map_cons]
    exact List.Perm.refl _
  · have hn' : ((l₁ ++ (k, v') :: (l₂ ++ (k', v) :: l₃)).map Prod.fst).Nodup := by
      simpa using hn
    apply GenerateSign_congr_values
    rw [mapOf_of_nodup _ hn, mapOf_of_nodup _ hn']
    simp only [List.filter_append, List.filter_cons, hkd, hkd', if_true, List.map_append,
      List.map_cons]
    exact perm_exchange _ _ _ _ _

theorem GenerateSign_names_irrelevant_witness :
    GenerateSign exampleDigest ⟨⟨"app", "secret", false, "tok", "salt"⟩, ""⟩
        (some (.obj ([] ++ ("subject", .str "a") :: [("cp_extra", .str "b")]))) =
      GenerateSign exampleDigest ⟨⟨"app", "secret", false, "tok", "salt"⟩, ""⟩
        (some (.obj ([] ++ ("body", .str "a") :: [("cp_extra", .str "b")]))) ∧
    GenerateSign exampleDigest ⟨⟨"app", "secret", false, "tok", "salt"⟩, ""⟩
        (some (.obj ([] ++ ("subject", .str "a") :: ([] ++ ("body", .str "b") :: [])))) =
      GenerateSign exampleDigest ⟨⟨"app", "secret", false, "tok", "salt"⟩, ""⟩
        (some (.obj ([] ++ ("subject", .str "b") :: ([] ++ ("body", .str "a") :: [])))) := by
  have h₁ := GenerateSign_names_irrelevant exampleDigest ⟨⟨"app", "secret", false, "tok", "salt"⟩, ""⟩ [] [] [] [("cp_extra", .str "b")] []
    "subject" "body" (.str "a") (.str "b") (by decide) (by decide)
  have h₂ := GenerateSign_names_irrelevant exampleDigest ⟨⟨"app", "secret", false, "tok", "salt"⟩, ""⟩ [] [] [] [] []
    "subject" "body" (.str "a") (.str "b") (by decide) (by decide)
  exact ⟨h₁.2.1 (by decide) (by decide), h₂.2.2 (by decide)⟩

/-! ## Access token -/

theorem GetAccessToken_hit {σ : Type} (C : Cache σ)
    (PostJSON : String → List (String × String) → String × Option String)
    (checkValid : String → Option String)
    (decodeRes : String → ResAccessToken → ResAccessToken × Option String)
    (dd : DefaultAccessToken) (w : World σ) (token : String)
    (hhit : C.Get w.cache dd.GetCacheKey = some (CacheValue.str token)) :
    GetAccessToken C PostJSON checkValid decodeRes dd w =
      (Outcome.returned (token, none),
        { cache := w.cache, locked := w.locked,
          events := w.events ++ [Event.cacheGet dd.GetCacheKey] }) := by
  unfold GetAccessToken
  simp only [World.emit, hhit]

theorem GetAccessToken_exchange_failed {σ : Type} (C : Cache σ)
    (PostJSON : String → List (String × String) → String × Option String)
    (checkValid : String → Option String)
    (decodeRes : String → ResAccessToken → ResAccessToken × Option String)
    (dd : DefaultAccessToken) (w : World σ) (req : ResAccessToken) (err : String)
    (hmiss : C.Get w.cache dd.GetCacheKey = none) (hfree : w.locked = false)
    (hfail : GetTokenFromServer PostJSON checkValid decodeRes (if dd.SandBox then sandBoxTokenURL else accessTokenURL)
      dd.AppId dd.AppSecret = (req, some err)) :
    GetAccessToken C PostJSON checkValid decodeRes dd w =
      (Outcome.returned ("", some err),
        { cache := w.cache, locked := false,
          events := w.events ++ [Event.cacheGet dd.GetCacheKey, Event.lock, Event.cacheGet dd.GetCacheKey,
            Event.post (if dd.SandBox then sandBoxTokenURL else accessTokenURL)
              [("appid", dd.AppId), ("secret", dd.AppSecret), ("grant_type", "client_credential")], Event.unlock] }) := by
  unfold GetAccessToken
  simp only [World.emit, World.lock, World.unlock, hmiss, hfree, hfail, Bool.false_eq_true,
    if_false, List.append_assoc, List.singleton_append, List.cons_append, List.nil_append]

theorem GetAccessToken_exchange_ok {σ : Type} (C : Cache σ)
    (PostJSON : String → List (String × String) → String × Option String)
    (checkValid : String → Option String)
    (decodeRes : String → ResAccessToken → ResAccessToken × Option String)
    (dd : DefaultAccessToken) (w : World σ) (req : ResAccessToken)
    (hmiss : C.Get w.cache dd.GetCacheKey = none) (hfree : w.locked = false)
    (hok : GetTokenFromServer PostJSON checkValid decodeRes (if dd.SandBox then sandBoxTokenURL else accessTokenURL)
      dd.AppId dd.AppSecret = (req, none)) :
    GetAccessToken C PostJSON checkValid decodeRes dd w =
      match C.Set w.cache dd.GetCacheKey (CacheValue.str req.Data.AccessToken)
          (wrapInt64 (wrapInt64 (req.Data.ExpiresIn - 1500) * 1000000000)) with
      | (cache, some err) =>
        (Outcome.returned ("", some err),
          { cache := cache, locked := false,
            events := w.events ++ [Event.cacheGet dd.GetCacheKey, Event.lock, Event.cacheGet dd.GetCacheKey,
            Event.post (if dd.SandBox then sandBoxTokenURL else accessTokenURL)
              [("appid", dd.AppId), ("secret", dd.AppSecret), ("grant_type", "client_credential")],
              Event.cacheSet dd.GetCacheKey (CacheValue.str req.Data.AccessToken)
                (wrapInt64 (wrapInt64 (req.Data.ExpiresIn - 1500) * 1000000000)),
              Event.unlock] })
      | (cache, none) =>
        (Outcome.returned (req.Data.AccessToken, none),
          { cache := cache, locked := false,
            events := w.events ++ [Event.cacheGet dd.GetCacheKey, Event.lock, Event.cacheGet dd.GetCacheKey,
            Event.post (if dd.SandBox then sandBoxTokenURL else accessTokenURL)
              [("appid", dd.AppId), ("secret", dd.AppSecret), ("grant_type", "client_credential")],
              Event.cacheSet dd.GetCacheKey (CacheValue.str req.Data.AccessToken)
                (wrapInt64 (wrapInt64 (req.Data.ExpiresIn - 1500) * 1000000000)),
              Event.unlock] }) := by
  unfold GetAccessToken
  simp only [World.emit, World.lock, World.unlock, hmiss, hfree, hok, Bool.false_eq_true,
    if_false, List.append_assoc, List.singleton_append, List.cons_append, List.nil_append]

theorem wrapInt64_of_range (x : Int) (h₁ : -9223372036854775808 ≤ x)
    (h₂ : x ≤ 9223372036854775807) : wrapInt64 x = x := by
  unfold wrapInt64
  omega

theorem iterate_GetAccessToken_hit {σ : Type} (C : Cache σ)
    (PostJSON : String → List (String × String) → String × Option String)
    (checkValid : String → Option String)
    (decodeRes : String → ResAccessToken → ResAccessToken × Option String)
    (dd : DefaultAccessToken) (w : World σ) (token : String)
    (hhit : C.Get w.cache dd.GetCacheKey = some (CacheValue.str token)) (n : Nat) :
    (fun w' => (GetAccessToken C PostJSON checkValid decodeRes dd w').2)^[n] w =
      { cache := w.cache, locked := w.locked,
        events := w.events ++ List.replicate n (Event.cacheGet dd.GetCacheKey) } := by
  induction n with
  | zero => simp
  | succ n ih =>
    rw [Function.iterate_succ_apply', ih]
    rw [GetAccessToken_hit C PostJSON checkValid decodeRes dd
      { cache := w.cache, locked := w.locked,
        events := w.events ++ List.replicate n (Event.cacheGet dd.GetCacheKey) } token hhit]
    simp [List.replicate_succ']

/-- C14. In every state in which the cache holds a string token under the
cache key, `GetAccessToken` returns exactly that token with no error and does
nothing but one cache lookup: no network call, no locking (the mutex may even
be held), no store, and the cache is as before.  Hence, while the cache holds
the entry, any number of further calls issue no network call and each returns
the token. -/
theorem GetAccessToken_cached {σ : Type} (C : Cache σ)
    (PostJSON : String → List (String × String) → String × Option String)
    (checkValid : String → Option String)
    (decodeRes : String → ResAccessToken → ResAccessToken × Option String)
    (dd : DefaultAccessToken) (w : World σ) (token : String)
    (hhit : C.Get w.cache dd.GetCacheKey = some (CacheValue.str token)) :
    GetAccessToken C PostJSON checkValid decodeRes dd w =
      (Outcome.returned (token, none),
        { cache := w.cache, locked := w.locked,
          events := w.events ++ [Event.cacheGet dd.GetCacheKey] }) ∧
    ∀ n : Nat,
      (fun w' => (GetAccessToken C PostJSON checkValid decodeRes dd w').2)^[n] w =
        { cache := w.cache, locked := w.locked,
          events := w.events ++ List.replicate n (Event.cacheGet dd.GetCacheKey) } ∧
      (GetAccessToken C PostJSON checkValid decodeRes dd
        ((fun w' => (GetAccessToken C PostJSON checkValid decodeRes dd w').2)^[n] w)).1 =
        Outcome.returned (token, none) := by
  refine ⟨GetAccessToken_hit C PostJSON checkValid decodeRes dd w token hhit, fun n => ?_⟩
  have hit := iterate_GetAccessToken_hit C PostJSON checkValid decodeRes dd w token hhit n
  refine ⟨hit, ?_⟩
  rw [hit, GetAccessToken_hit C PostJSON checkValid decodeRes dd
    { cache := w.cache, locked := w.locked,
      events := w.events ++ List.replicate n (Event.cacheGet dd.GetCacheKey) } token hhit]

theorem GetAccessToken_cached_witness :
    GetAccessToken memoryCache (fun _ _ => ("body", none)) (fun _ => none) (fun _ v => ({ v with Data := { AccessToken := "T", ExpiresIn := 7200 } }, none)) ⟨"app", "secret", "client_credential", "douyin_openapi_access_token_app", false⟩
      ⟨⟨100, [("douyin_openapi_access_token_app", CacheValue.str "T", 5700000000000)]⟩, true, []⟩ =
      (Outcome.returned ("T", none),
        ⟨⟨100, [("douyin_openapi_access_token_app", CacheValue.str "T", 5700000000000)]⟩, true, [Event.cacheGet "douyin_openapi_access_token_app"]⟩) :=
  (GetAccessToken_cached memoryCache (fun _ _ => ("body", none)) (fun _ => none) (fun _ v => ({ v with Data := { AccessToken := "T", ExpiresIn := 7200 } }, none)) ⟨"app", "secret", "client_credential", "douyin_openapi_access_token_app", false⟩
    ⟨⟨100, [("douyin_openapi_access_token_app", CacheValue.str "T", 5700000000000)]⟩, true, []⟩ "T" (by decide)).1

/-- C15, as the claim states it, fails.  With `expires_in = 10000000000` the
product `(expires_in - 1500) * time.Second` overflows `time.Duration`, and the
time-to-live handed to the cache is negative; and when the cache's `Set`
returns an error, a successful exchange does not make `GetAccessToken` return
the token. -/
theorem GetAccessToken_ttl_counterexample :
    GetAccessToken memoryCache (fun _ _ => ("body", none)) (fun _ => none) (fun _ v => ({ v with Data := { AccessToken := "T", ExpiresIn := 10000000000 } }, none)) ⟨"app", "secret", "client_credential", "douyin_openapi_access_token_app", false⟩
        ⟨⟨0, []⟩, false, []⟩ =
      (Outcome.returned ("T", none),
        ⟨⟨0, [("douyin_openapi_access_token_app", CacheValue.str "T", -8446745573709551616)]⟩, false,
          [Event.cacheGet "douyin_openapi_access_token_app", Event.lock, Event.cacheGet "douyin_openapi_access_token_app",
          Event.post "https://developer.toutiao.com/api/apps/v2/token"
            [("appid", "app"), ("secret", "secret"), ("grant_type", "client_credential")],
          Event.cacheSet "douyin_openapi_access_token_app" (CacheValue.str "T") (-8446745573709551616), Event.unlock]⟩) ∧
    (-8446745573709551616 : Int) ≠ (10000000000 - 1500) * 1000000000 ∧
    GetAccessToken (⟨fun _ _ => none, fun c _ _ _ => (c, some "cache is down")⟩ : Cache Unit)
        (fun _ _ => ("body", none)) (fun _ => none) (fun _ v => ({ v with Data := { AccessToken := "T", ExpiresIn := 7200 } }, none)) ⟨"app", "secret", "client_credential", "douyin_openapi_access_token_app", false⟩ ⟨(), false, []⟩ =
      (Outcome.returned ("", some "cache is down"),
        ⟨(), false,
          [Event.cacheGet "douyin_openapi_access_token_app", Event.lock, Event.cacheGet "douyin_openapi_access_token_app",
          Event.post "https://developer.toutiao.com/api/apps/v2/token"
            [("appid", "app"), ("secret", "secret"), ("grant_type", "client_credential")],
          Event.cacheSet "douyin_openapi_access_token_app" (CacheValue.str "T") 5700000000000, Event.unlock]⟩) := by
  refine ⟨by decide, by decide, by decide⟩

/-- C15, amended. On a cache miss with the lock free, when the exchange
succeeds, `expires_in - 1500` seconds fit a `time.Duration` and the cache's
`Set` succeeds, `GetAccessToken` returns the `access_token` of the response and
has stored that token under the cache key with a time-to-live of exactly
`(expires_in - 1500)` seconds (in nanoseconds); nothing else was stored. -/
theorem GetAccessToken_stores_token {σ : Type} (C : Cache σ)
    (PostJSON : String → List (String × String) → String × Option String)
    (checkValid : String → Option String)
    (decodeRes : String → ResAccessToken → ResAccessToken × Option String)
    (dd : DefaultAccessToken) (w : World σ) (req : ResAccessToken) (cache' : σ)
    (hmiss : C.Get w.cache dd.GetCacheKey = none) (hfree : w.locked = false)
    (hok : GetTokenFromServer PostJSON checkValid decodeRes (if dd.SandBox then sandBoxTokenURL else accessTokenURL)
      dd.AppId dd.AppSecret = (req, none))
    (hrange : -9223372036 ≤ req.Data.ExpiresIn - 1500 ∧
      req.Data.ExpiresIn - 1500 ≤ 9223372036)
    (hset : C.Set w.cache dd.GetCacheKey (CacheValue.str req.Data.AccessToken)
      ((req.Data.ExpiresIn - 1500) * 1000000000) = (cache', none)) :
    GetAccessToken C PostJSON checkValid decodeRes dd w =
      (Outcome.returned (req.Data.AccessToken, none),
        { cache := cache', locked := false,
          events := w.events ++ [Event.cacheGet dd.GetCacheKey, Event.lock, Event.cacheGet dd.GetCacheKey,
            Event.post (if dd.SandBox then sandBoxTokenURL else accessTokenURL)
              [("appid", dd.AppId), ("secret", dd.AppSecret), ("grant_type", "client_credential")],
            Event.cacheSet dd.GetCacheKey (CacheValue.str req.Data.AccessToken)
              ((req.Data.ExpiresIn - 1500) * 1000000000),
            Event.unlock] }) := by
  have h1 : wrapInt64 (req.Data.ExpiresIn - 1500) = req.Data.ExpiresIn - 1500 :=
    wrapInt64_of_range _ (by omega) (by omega)
  have h2 : wrapInt64 ((req.Data.ExpiresIn - 1500) * 1000000000) =
      (req.Data.ExpiresIn - 1500) * 1000000000 :=
    wrapInt64_of_range _ (by omega) (by omega)
  rw [GetAccessToken_exchange_ok C PostJSON checkValid decodeRes dd w req hmiss hfree hok,
    h1, h2, hset]

theorem GetAccessToken_stores_token_witness :
    GetAccessToken memoryCache (fun _ _ => ("body", none)) (fun _ => none) (fun _ v => ({ v with Data := { AccessToken := "T", ExpiresIn := 7200 } }, none)) ⟨"app", "secret", "client_credential", "douyin_openapi_access_token_app", false⟩
        ⟨⟨0, []⟩, false, []⟩ =
      (Outcome.returned ("T", none),
        ⟨⟨0, [("douyin_openapi_access_token_app", CacheValue.str "T", 5700 * 1000000000)]⟩, false,
          [Event.cacheGet "douyin_openapi_access_token_app", Event.lock, Event.cacheGet "douyin_openapi_access_token_app",
          Event.post "https://developer.toutiao.com/api/apps/v2/token"
            [("appid", "app"), ("secret", "secret"), ("grant_type", "client_credential")],
          Event.cacheSet "douyin_openapi_access_token_app" (CacheValue.str "T") (5700 * 1000000000), Event.unlock]⟩) :=
  GetAccessToken_stores_token memoryCache (fun _ _ => ("body", none)) (fun _ => none) (fun _ v => ({ v with Data := { AccessToken := "T", ExpiresIn := 7200 } }, none))
    ⟨"app", "secret", "client_credential", "douyin_openapi_access_token_app", false⟩ ⟨⟨0, []⟩, false, []⟩ { Data := { AccessToken := "T", ExpiresIn := 7200 } }
    ⟨0, [("douyin_openapi_access_token_app", CacheValue.str "T", 5700 * 1000000000)]⟩
    (by decide) rfl (by decide) (by decide) (by decide)

/-- C16. On a cache miss with the lock free, when the token exchange fails (a
transport error, a response that does not decode, or a non-zero `err_no`),
`GetAccessToken` returns an empty token and the error, stores nothing (the
cache is as before; the events are two lookups, the lock, the network call
and the unlock), and the lock is released when it returns. -/
theorem GetAccessToken_exchange_error {σ : Type} (C : Cache σ)
    (PostJSON : String → List (String × String) → String × Option String)
    (checkValid : String → Option String)
    (decodeRes : String → ResAccessToken → ResAccessToken × Option String)
    (dd : DefaultAccessToken) (w : World σ) (err : String)
    (hmiss : C.Get w.cache dd.GetCacheKey = none) (hfree : w.locked = false)
    (hfail :
      (∃ body, PostJSON (if dd.SandBox then sandBoxTokenURL else accessTokenURL)
          [("appid", dd.AppId), ("secret", dd.AppSecret), ("grant_type", "client_credential")] = (body, some err)) ∨
      (∃ body res, PostJSON (if dd.SandBox then sandBoxTokenURL else accessTokenURL)
          [("appid", dd.AppId), ("secret", dd.AppSecret), ("grant_type", "client_credential")] = (body, none) ∧
        Unmarshal checkValid decodeRes body {} = (res, some err)) ∨
      (∃ body res, PostJSON (if dd.SandBox then sandBoxTokenURL else accessTokenURL)
          [("appid", dd.AppId), ("secret", dd.AppSecret), ("grant_type", "client_credential")] = (body, none) ∧
        Unmarshal checkValid decodeRes body {} = (res, none) ∧ res.ErrNo ≠ 0 ∧
        err = "get access_token error : errcode=" ++ res.ErrTips ++ " , errormsg=" ++
          sprintInt res.ErrNo)) :
    GetAccessToken C PostJSON checkValid decodeRes dd w =
      (Outcome.returned ("", some err),
        { cache := w.cache, locked := false,
          events := w.events ++ [Event.cacheGet dd.GetCacheKey, Event.lock, Event.cacheGet dd.GetCacheKey,
            Event.post (if dd.SandBox then sandBoxTokenURL else accessTokenURL)
              [("appid", dd.AppId), ("secret", dd.AppSecret), ("grant_type", "client_credential")], Event.unlock] }) := by
  have hsrv : ∃ req, GetTokenFromServer PostJSON checkValid decodeRes (if dd.SandBox then sandBoxTokenURL else accessTokenURL)
      dd.AppId dd.AppSecret = (req, some err) := by
    unfold GetTokenFromServer
    rcases hfail with ⟨body, h⟩ | ⟨body, res, h, hu⟩ | ⟨body, res, h, hu, hne, he⟩
    · exact ⟨{}, by simp only [h]⟩
    · exact ⟨res, by simp only [h, hu]⟩
    · exact ⟨res, by simp only [h, hu, hne, ne_eq, not_false_eq_true, if_true, he]⟩
  obtain ⟨req, hreq⟩ := hsrv
  exact GetAccessToken_exchange_failed C PostJSON checkValid decodeRes dd w req err hmiss hfree
    hreq

theorem GetAccessToken_exchange_error_witness :
    GetAccessToken memoryCache (fun _ _ => ("", some "dial tcp: timeout")) (fun _ => none)
        (fun _ v => ({ v with Data := { AccessToken := "T", ExpiresIn := 7200 } }, none)) ⟨"app", "secret", "client_credential", "douyin_openapi_access_token_app", false⟩ ⟨⟨0, []⟩, false, []⟩ =
      (Outcome.returned ("", some "dial tcp: timeout"),
        ⟨⟨0, []⟩, false,
          [Event.cacheGet "douyin_openapi_access_token_app", Event.lock, Event.cacheGet "douyin_openapi_access_token_app",
          Event.post "https://developer.toutiao.com/api/apps/v2/token"
            [("appid", "app"), ("secret", "secret"), ("grant_type", "client_credential")],
          Event.unlock]⟩) :=
  GetAccessToken_exchange_error memoryCache (fun _ _ => ("", some "dial tcp: timeout"))
    (fun _ => none) (fun _ v => ({ v with Data := { AccessToken := "T", ExpiresIn := 7200 } }, none)) ⟨"app", "secret", "client_credential", "douyin_openapi_access_token_app", false⟩ ⟨⟨0, []⟩, false, []⟩ "dial tcp: timeout" (by decide) rfl
    (Or.inl ⟨"", rfl⟩)

/-! ## The facade operations -/

theorem PostJson_of_delivered {ρ : Type} (T : Transport)
    (decode : String → ρ → ρ × Option String) (api : String) (params : JValue)
    (response resp : ρ) (body : String)
    (hsent : ∀ req ∈ (PostJson T decode api params response).2,
      T.PostJSON req.api req.params = (body, none))
    (hdec : Unmarshal T.checkValid decode body response = (resp, none)) :
    (PostJson T decode api params response).1 = (resp, none) := by
  have h : T.PostJSON api params = (body, none) :=
    hsent ⟨api, params, []⟩ (List.mem_singleton_self _)
  unfold PostJson
  simp only [h, hdec]

theorem PostJsonWithHeader_of_delivered {ρ : Type} (T : Transport)
    (decode : String → ρ → ρ × Option String) (api : String) (params : JValue)
    (response : ρ) (header : List (String × String)) (resp : ρ) (body : String)
    (hsent : ∀ req ∈ (PostJsonWithHeader T decode api params response header).2,
      T.PostJsonWithHeader req.api req.params req.header = (body, none))
    (hdec : Unmarshal T.checkValid decode body response = (resp, none)) :
    (PostJsonWithHeader T decode api params response header).1 = (resp, none) := by
  have h : T.PostJsonWithHeader api params header = (body, none) :=
    hsent ⟨api, params, header⟩ (List.mem_singleton_self _)
  unfold PostJsonWithHeader
  simp only [h, hdec]

theorem error_iff_code {ρ : Type} (r : ρ × Option String) (resp : ρ) (code : Int)
    (msg : String)
    (h : r = if code ≠ 0 then (resp, some msg) else (resp, none)) :
    (r.2 ≠ none ↔ code ≠ 0) ∧ (code = 0 → r = (resp, none)) := by
  by_cases hc : code = 0
  · simp [h, hc]
  · simp [h, hc]

theorem Code2Session_posts_to (T : Transport)
    (decode : String → Code2SessionResponse → Code2SessionResponse × Option String)
    (d : DouYinOpenApi) (code anonymousCode : String) :
    (Code2Session T decode d code anonymousCode).2.map Request.api = [(d.GetApiUrl code2Session)] := rfl

theorem Code2Session_response (T : Transport)
    (decode : String → Code2SessionResponse → Code2SessionResponse × Option String)
    (d : DouYinOpenApi) (code anonymousCode : String)
    (body : String) (resp : Code2SessionResponse)
    (hsent : ∀ req ∈ (Code2Session T decode d code anonymousCode).2, T.PostJSON req.api req.params = (body, none))
    (hdec : Unmarshal T.checkValid decode body {} = (resp, none)) :
    (Code2Session T decode d code anonymousCode).1 =
      if resp.ErrNo ≠ 0 then (resp, some ("小程序登录错误: " ++ resp.ErrTips ++ " " ++ sprintInt resp.ErrNo))
      else (resp, none) := by
  unfold Code2Session
  simp only
  rw [PostJson_of_delivered T decode _ _ _ resp body hsent hdec]

theorem CreateOrder_posts_to (T : Transport)
    (decode : String → CreateOrderResponse → CreateOrderResponse × Option String)
    (md5Sum : String → List Byte) (d : DouYinOpenApi) (params : CreateOrderParams) :
    (CreateOrder T decode md5Sum d params).2.map Request.api = [createOrder] := rfl

theorem CreateOrder_response (T : Transport)
    (decode : String → CreateOrderResponse → CreateOrderResponse × Option String)
    (md5Sum : String → List Byte) (d : DouYinOpenApi) (params : CreateOrderParams)
    (body : String) (resp : CreateOrderResponse)
    (hsent : ∀ req ∈ (CreateOrder T decode md5Sum d params).2, T.PostJSON req.api req.params = (body, none))
    (hdec : Unmarshal T.checkValid decode body {} = (resp, none)) :
    (CreateOrder T decode md5Sum d params).1 =
      if resp.ErrNo ≠ 0 then (resp, some (resp.ErrTips ++ " " ++ sprintInt resp.ErrNo))
      else (resp, none) := by
  unfold CreateOrder
  simp only
  rw [PostJson_of_delivered T decode _ _ _ resp body hsent hdec]

theorem QueryOrder_posts_to (T : Transport)
    (decode : String → QueryOrderResponse → QueryOrderResponse × Option String)
    (md5Sum : String → List Byte) (d : DouYinOpenApi) (outOrderNo thirdpartyId : String) :
    (QueryOrder T decode md5Sum d outOrderNo thirdpartyId).2.map Request.api = [queryOrder] := rfl

theorem QueryOrder_response (T : Transport)
    (decode : String → QueryOrderResponse → QueryOrderResponse × Option String)
    (md5Sum : String → List Byte) (d : DouYinOpenApi) (outOrderNo thirdpartyId : String)
    (body : String) (resp : QueryOrderResponse)
    (hsent : ∀ req ∈ (QueryOrder T decode md5Sum d outOrderNo thirdpartyId).2, T.PostJSON req.api req.params = (body, none))
    (hdec : Unmarshal T.checkValid decode body {} = (resp, none)) :
    (QueryOrder T decode md5Sum d outOrderNo thirdpartyId).1 =
      if resp.ErrNo ≠ 0 then (resp, some (resp.ErrTips ++ " " ++ sprintInt resp.ErrNo))
      else (resp, none) := by
  unfold QueryOrder
  simp only
  rw [PostJson_of_delivered T decode _ _ _ resp body hsent hdec]

theorem CreateRefund_posts_to (T : Transport)
    (decode : String → CreateRefundResponse → CreateRefundResponse × Option String)
    (md5Sum : String → List Byte) (d : DouYinOpenApi) (params : CreateRefundParams) :
    (CreateRefund T decode md5Sum d params).2.map Request.api = [createRefund] := rfl

theorem CreateRefund_response (T : Transport)
    (decode : String → CreateRefundResponse → CreateRefundResponse × Option String)
    (md5Sum : String → List Byte) (d : DouYinOpenApi) (params : CreateRefundParams)
    (body : String) (resp : CreateRefundResponse)
    (hsent : ∀ req ∈ (CreateRefund T decode md5Sum d params).2, T.PostJSON req.api req.params = (body, none))
    (hdec : Unmarshal T.checkValid decode body {} = (resp, none)) :
    (CreateRefund T decode md5Sum d params).1 =
      if resp.ErrNo ≠ 0 then (resp, some ("CreateRefund error " ++ resp.ErrTips ++ " " ++ sprintInt resp.ErrNo))
      else (resp, none) := by
  unfold CreateRefund
  simp only
  rw [PostJson_of_delivered T decode _ _ _ resp body hsent hdec]

theorem QueryRefund_posts_to (T : Transport)
    (decode : String → QueryRefundParamsResponse → QueryRefundParamsResponse × Option String)
    (md5Sum : String → List Byte) (d : DouYinOpenApi) (outRefundNo thirdpartyId : String) :
    (QueryRefund T decode md5Sum d outRefundNo thirdpartyId).2.map Request.api = [queryRefund] := rfl

theorem QueryRefund_response (T : Transport)
    (decode : String → QueryRefundParamsResponse → QueryRefundParamsResponse × Option String)
    (md5Sum : String → List Byte) (d : DouYinOpenApi) (outRefundNo thirdpartyId : String)
    (body : String) (resp : QueryRefundParamsResponse)
    (hsent : ∀ req ∈ (QueryRefund T decode md5Sum d outRefundNo thirdpartyId).2, T.PostJSON req.api req.params = (body, none))
    (hdec : Unmarshal T.checkValid decode body {} = (resp, none)) :
    (QueryRefund T decode md5Sum d outRefundNo thirdpartyId).1 =
      if resp.ErrNo ≠ 0 then (resp, some ("QueryRefund error " ++ resp.ErrTips ++ " " ++ sprintInt resp.ErrNo))
      else (resp, none) := by
  unfold QueryRefund
  simp only
  rw [PostJson_of_delivered T decode _ _ _ resp body hsent hdec]

theorem Settle_posts_to (T : Transport)
    (decode : String → SettleResponse → SettleResponse × Option String)
    (md5Sum : String → List Byte) (quote : String → String) (d : DouYinOpenApi) (settleParams : SettleParams) (settleParamsItem : Option (List SettleParamsItem)) :
    (Settle T decode md5Sum quote d settleParams settleParamsItem).2.map Request.api = [settle] := rfl

theorem Settle_response (T : Transport)
    (decode : String → SettleResponse → SettleResponse × Option String)
    (md5Sum : String → List Byte) (quote : String → String) (d : DouYinOpenApi) (settleParams : SettleParams) (settleParamsItem : Option (List SettleParamsItem))
    (body : String) (resp : SettleResponse)
    (hsent : ∀ req ∈ (Settle T decode md5Sum quote d settleParams settleParamsItem).2, T.PostJSON req.api req.params = (body, none))
    (hdec : Unmarshal T.checkValid decode body {} = (resp, none)) :
    (Settle T decode md5Sum quote d settleParams settleParamsItem).1 =
      if resp.ErrNo ≠ 0 then (resp, some ("settle error " ++ resp.ErrTips ++ " " ++ sprintInt resp.ErrNo))
      else (resp, none) := by
  unfold Settle
  simp only
  rw [PostJson_of_delivered T decode _ _ _ resp body hsent hdec]

theorem QuerySettle_posts_to (T : Transport)
    (decode : String → QuerySettleResponse → QuerySettleResponse × Option String)
    (md5Sum : String → List Byte) (d : DouYinOpenApi) (outSettleNo thirdpartyId : String) :
    (QuerySettle T decode md5Sum d outSettleNo thirdpartyId).2.map Request.api = [querySettle] := rfl

theorem QuerySettle_response (T : Transport)
    (decode : String → QuerySettleResponse → QuerySettleResponse × Option String)
    (md5Sum : String → List Byte) (d : DouYinOpenApi) (outSettleNo thirdpartyId : String)
    (body : String) (resp : QuerySettleResponse)
    (hsent : ∀ req ∈ (QuerySettle T decode md5Sum d outSettleNo thirdpartyId).2, T.PostJSON req.api req.params = (body, none))
    (hdec : Unmarshal T.checkValid decode body {} = (resp, none)) :
    (QuerySettle T decode md5Sum d outSettleNo thirdpartyId).1 =
      if resp.ErrNo ≠ 0 then (resp, some ("QuerySettle error " ++ resp.ErrTips ++ " " ++ sprintInt resp.ErrNo))
      else (resp, none) := by
  unfold QuerySettle
  simp only
  rw [PostJson_of_delivered T decode _ _ _ resp body hsent hdec]

theorem UnsettleAmount_posts_to (T : Transport)
    (decode : String → UnsettleAmountResponse → UnsettleAmountResponse × Option String)
    (md5Sum : String → List Byte) (d : DouYinOpenApi) (outOrderNo thirdpartyId outItemOrderNo : String) :
    (UnsettleAmount T decode md5Sum d outOrderNo thirdpartyId outItemOrderNo).2.map Request.api = [unsettleAmount] := rfl

theorem UnsettleAmount_response (T : Transport)
    (decode : String → UnsettleAmountResponse → UnsettleAmountResponse × Option String)
    (md5Sum : String → List Byte) (d : DouYinOpenApi) (outOrderNo thirdpartyId outItemOrderNo : String)
    (body : String) (resp : UnsettleAmountResponse)
    (hsent : ∀ req ∈ (UnsettleAmount T decode md5Sum d outOrderNo thirdpartyId outItemOrderNo).2, T.PostJSON req.api req.params = (body, none))
    (hdec : Unmarshal T.checkValid decode body {} = (resp, none)) :
    (UnsettleAmount T decode md5Sum d outOrderNo thirdpartyId outItemOrderNo).1 =
      if resp.ErrNo ≠ 0 then (resp, some ("UnsettleAmount error " ++ resp.ErrTips ++ " " ++ sprintInt resp.ErrNo))
      else (resp, none) := by
  unfold UnsettleAmount
  simp only
  rw [PostJson_of_delivered T decode _ _ _ resp body hsent hdec]

theorem CreateReturn_posts_to (T : Transport)
    (decode : String → CreateReturnResponse → CreateReturnResponse × Option String)
    (md5Sum : String → List Byte) (d : DouYinOpenApi) (params : CreateReturnParams) :
    (CreateReturn T decode md5Sum d params).2.map Request.api = [createReturn] := rfl

theorem CreateReturn_response (T : Transport)
    (decode : String → CreateReturnResponse → CreateReturnResponse × Option String)
    (md5Sum : String → List Byte) (d : DouYinOpenApi) (params : CreateReturnParams)
    (body : String) (resp : CreateReturnResponse)
    (hsent : ∀ req ∈ (CreateReturn T decode md5Sum d params).2, T.PostJSON req.api req.params = (body, none))
    (hdec : Unmarshal T.checkValid decode body {} = (resp, none)) :
    (CreateReturn T decode md5Sum d params).1 =
      if resp.ErrNo ≠ 0 then (resp, some ("CreateReturn error " ++ resp.ErrTips ++ " " ++ sprintInt resp.ErrNo))
      else (resp, none) := by
  unfold CreateReturn
  simp only
  rw [PostJson_of_delivered T decode _ _ _ resp body hsent hdec]

theorem QueryReturn_posts_to (T : Transport)
    (decode : String → QueryReturnResponse → QueryReturnResponse × Option String)
    (md5Sum : String → List Byte) (d : DouYinOpenApi) (returnNo outReturnNo thirdpartyId : String) :
    (QueryReturn T decode md5Sum d returnNo outReturnNo thirdpartyId).2.map Request.api = [queryReturn] := rfl

theorem QueryReturn_response (T : Transport)
    (decode : String → QueryReturnResponse → QueryReturnResponse × Option String)
    (md5Sum : String → List Byte) (d : DouYinOpenApi) (returnNo outReturnNo thirdpartyId : String)
    (body : String) (resp : QueryReturnResponse)
    (hsent : ∀ req ∈ (QueryReturn T decode md5Sum d returnNo outReturnNo thirdpartyId).2, T.PostJSON req.api req.params = (body, none))
    (hdec : Unmarshal T.checkValid decode body {} = (resp, none)) :
    (QueryReturn T decode md5Sum d returnNo outReturnNo thirdpartyId).1 =
      if resp.ErrNo ≠ 0 then (resp, some ("queryReturnResponse error " ++ resp.ErrTips ++ " " ++ sprintInt resp.ErrNo))
      else (resp, none) := by
  unfold QueryReturn
  simp only
  rw [PostJson_of_delivered T decode _ _ _ resp body hsent hdec]

theorem QueryMerchantBalance_posts_to (T : Transport)
    (decode : String → QueryMerchantBalanceResponse → QueryMerchantBalanceResponse × Option String)
    (md5Sum : String → List Byte) (d : DouYinOpenApi) (params : QueryMerchantBalanceParams) :
    (QueryMerchantBalance T decode md5Sum d params).2.map Request.api = [queryMerchantBalance] := rfl

theorem QueryMerchantBalance_response (T : Transport)
    (decode : String → QueryMerchantBalanceResponse → QueryMerchantBalanceResponse × Option String)
    (md5Sum : String → List Byte) (d : DouYinOpenApi) (params : QueryMerchantBalanceParams)
    (body : String) (resp : QueryMerchantBalanceResponse)
    (hsent : ∀ req ∈ (QueryMerchantBalance T decode md5Sum d params).2, T.PostJSON req.api req.params = (body, none))
    (hdec : Unmarshal T.checkValid decode body {} = (resp, none)) :
    (QueryMerchantBalance T decode md5Sum d params).1 =
      if resp.ErrNo ≠ 0 then (resp, some ("queryMerchantBalanceResponse error " ++ resp.ErrTips ++ " " ++ sprintInt resp.ErrNo))
      else (resp, none) := by
  unfold QueryMerchantBalance
  simp only
  rw [PostJson_of_delivered T decode _ _ _ resp body hsent hdec]

theorem MerchantWithdraw_posts_to (T : Transport)
    (decode : String → MerchantWithdrawResponse → MerchantWithdrawResponse × Option String)
    (md5Sum : String → List Byte) (d : DouYinOpenApi) (params : MerchantWithdrawParams) :
    (MerchantWithdraw T decode md5Sum d params).2.map Request.api = [merchantWithdraw] := rfl

theorem MerchantWithdraw_response (T : Transport)
    (decode : String → MerchantWithdrawResponse → MerchantWithdrawResponse × Option String)
    (md5Sum : String → List Byte) (d : DouYinOpenApi) (params : MerchantWithdrawParams)
    (body : String) (resp : MerchantWithdrawResponse)
    (hsent : ∀ req ∈ (MerchantWithdraw T decode md5Sum d params).2, T.PostJSON req.api req.params = (body, none))
    (hdec : Unmarshal T.checkValid decode body {} = (resp, none)) :
    (MerchantWithdraw T decode md5Sum d params).1 =
      if resp.ErrNo ≠ 0 then (resp, some ("merchantWithdrawResponse error " ++ resp.ErrTips ++ " " ++ sprintInt resp.ErrNo))
      else (resp, none) := by
  unfold MerchantWithdraw
  simp only
  rw [PostJson_of_delivered T decode _ _ _ resp body hsent hdec]

theorem QueryWithdrawOrder_posts_to (T : Transport)
    (decode : String → QueryWithdrawOrderResponse → QueryWithdrawOrderResponse × Option String)
    (md5Sum : String → List Byte) (d : DouYinOpenApi) (params : QueryWithdrawOrderParams) :
    (QueryWithdrawOrder T decode md5Sum d params).2.map Request.api = [queryWithdrawOrder] := rfl

theorem QueryWithdrawOrder_response (T : Transport)
    (decode : String → QueryWithdrawOrderResponse → QueryWithdrawOrderResponse × Option String)
    (md5Sum : String → List Byte) (d : DouYinOpenApi) (params : QueryWithdrawOrderParams)
    (body : String) (resp : QueryWithdrawOrderResponse)
    (hsent : ∀ req ∈ (QueryWithdrawOrder T decode md5Sum d params).2, T.PostJSON req.api req.params = (body, none))
    (hdec : Unmarshal T.checkValid decode body {} = (resp, none)) :
    (QueryWithdrawOrder T decode md5Sum d params).1 =
      if resp.ErrNo ≠ 0 then (resp, some ("queryWithdrawOrderResponse error " ++ resp.ErrTips ++ " " ++ sprintInt resp.ErrNo))
      else (resp, none) := by
  unfold QueryWithdrawOrder
  simp only
  rw [PostJson_of_delivered T decode _ _ _ resp body hsent hdec]

theorem OrderV2Push_posts_to (T : Transport)
    (decode : String → OrderV2PushResponse → OrderV2PushResponse × Option String)
    (d : DouYinOpenApi) (normal : OrderV2PushParams) :
    (OrderV2Push T decode d normal).2.map Request.api = [orderV2Push] := rfl

theorem OrderV2Push_response (T : Transport)
    (decode : String → OrderV2PushResponse → OrderV2PushResponse × Option String)
    (d : DouYinOpenApi) (normal : OrderV2PushParams)
    (body : String) (resp : OrderV2PushResponse)
    (hsent : ∀ req ∈ (OrderV2Push T decode d normal).2, T.PostJSON req.api req.params = (body, none))
    (hdec : Unmarshal T.checkValid decode body {} = (resp, none)) :
    (OrderV2Push T decode d normal).1 =
      if resp.ErrCode ≠ 0 then (resp, some ("OrderV2Push error " ++ resp.ErrMsg ++ " " ++ resp.Body))
      else (resp, none) := by
  unfold OrderV2Push
  simp only
  rw [PostJson_of_delivered T decode _ _ _ resp body hsent hdec]

theorem UrlLinkGenerate_posts_to (T : Transport)
    (decode : String → UrlLinkGenerateResponse → UrlLinkGenerateResponse × Option String)
    (accessToken : String × Option String) (d : DouYinOpenApi) (params : UrlLinkGenerateParams)
    (htoken : accessToken.2 = none) :
    (UrlLinkGenerate T decode accessToken d params).2.map Request.api = [urlLinkGenerate] := by
  obtain ⟨token, e⟩ := accessToken
  simp only at htoken
  subst htoken
  rfl

theorem UrlLinkGenerate_response (T : Transport)
    (decode : String → UrlLinkGenerateResponse → UrlLinkGenerateResponse × Option String)
    (accessToken : String × Option String) (d : DouYinOpenApi) (params : UrlLinkGenerateParams)
    (body : String) (resp : UrlLinkGenerateResponse)
    (htoken : accessToken.2 = none)
    (hsent : ∀ req ∈ (UrlLinkGenerate T decode accessToken d params).2, T.PostJSON req.api req.params = (body, none))
    (hdec : Unmarshal T.checkValid decode body {} = (resp, none)) :
    (UrlLinkGenerate T decode accessToken d params).1 =
      if resp.ErrNo ≠ 0 then (resp, some ("urlLinkGenerateResponse error " ++ resp.ErrTips ++ " " ++ sprintInt resp.ErrNo))
      else (resp, none) := by
  obtain ⟨token, e⟩ := accessToken
  simp only at htoken
  subst htoken
  unfold UrlLinkGenerate at hsent ⊢
  simp only at hsent ⊢
  rw [PostJson_of_delivered T decode _ _ _ resp body hsent hdec]

theorem SendPrivateMessage_posts_to (T : Transport)
    (decode : String → ImAuthorizeSendMsgResponse → ImAuthorizeSendMsgResponse × Option String)
    (accessToken : String × Option String) (d : DouYinOpenApi) (openId : String) (params : ImAuthorizeSendMsgParams)
    (htoken : accessToken.2 = none) :
    (SendPrivateMessage T decode accessToken d openId params).2.map Request.api = [(imAuthorizeSendMsg ++ "?open_id=" ++ openId)] := by
  obtain ⟨token, e⟩ := accessToken
  simp only at htoken
  subst htoken
  rfl

theorem SendPrivateMessage_response (T : Transport)
    (decode : String → ImAuthorizeSendMsgResponse → ImAuthorizeSendMsgResponse × Option String)
    (accessToken : String × Option String) (d : DouYinOpenApi) (openId : String) (params : ImAuthorizeSendMsgParams)
    (body : String) (resp : ImAuthorizeSendMsgResponse)
    (htoken : accessToken.2 = none)
    (hsent : ∀ req ∈ (SendPrivateMessage T decode accessToken d openId params).2, T.PostJsonWithHeader req.api req.params req.header = (body, none))
    (hdec : Unmarshal T.checkValid decode body {} = (resp, none)) :
    (SendPrivateMessage T decode accessToken d openId params).1 =
      if resp.ErrNo ≠ 0 then (resp, some ("SendMsg error " ++ resp.ErrMsg ++ " " ++ sprintInt resp.ErrNo))
      else (resp, none) := by
  obtain ⟨token, e⟩ := accessToken
  simp only at htoken
  subst htoken
  unfold SendPrivateMessage at hsent ⊢
  simp only at hsent ⊢
  rw [PostJsonWithHeader_of_delivered T decode _ _ _ _ resp body hsent hdec]

theorem RecallPrivateMessage_posts_to (T : Transport)
    (decode : String → ImAuthorizeRecallMsgResponse → ImAuthorizeRecallMsgResponse × Option String)
    (accessToken : String × Option String) (d : DouYinOpenApi) (openId : String) (params : ImAuthorizeRecallMsgParams)
    (htoken : accessToken.2 = none) :
    (RecallPrivateMessage T decode accessToken d openId params).2.map Request.api = [(imAuthorizeRecallMsg ++ "?open_id=" ++ openId)] := by
  obtain ⟨token, e⟩ := accessToken
  simp only at htoken
  subst htoken
  rfl

theorem RecallPrivateMessage_response (T : Transport)
    (decode : String → ImAuthorizeRecallMsgResponse → ImAuthorizeRecallMsgResponse × Option String)
    (accessToken : String × Option String) (d : DouYinOpenApi) (openId : String) (params : ImAuthorizeRecallMsgParams)
    (body : String) (resp : ImAuthorizeRecallMsgResponse)
    (htoken : accessToken.2 = none)
    (hsent : ∀ req ∈ (RecallPrivateMessage T decode accessToken d openId params).2, T.PostJsonWithHeader req.api req.params req.header = (body, none))
    (hdec : Unmarshal T.checkValid decode body {} = (resp, none)) :
    (RecallPrivateMessage T decode accessToken d openId params).1 =
      if resp.ErrNo ≠ 0 then (resp, some ("RecallMsg error " ++ resp.ErrMsg ++ " " ++ sprintInt resp.ErrNo))
      else (resp, none) := by
  obtain ⟨token, e⟩ := accessToken
  simp only at htoken
  subst htoken
  unfold RecallPrivateMessage at hsent ⊢
  simp only at hsent ⊢
  rw [PostJsonWithHeader_of_delivered T decode _ _ _ _ resp body hsent hdec]

/-- C17. For each facade operation (`Code2Session`, `CreateOrder`, `QueryOrder`,
`CreateRefund`, `QueryRefund`, `Settle`, `QuerySettle`, `UnsettleAmount`,
`CreateReturn`, `QueryReturn`, `QueryMerchantBalance`, `MerchantWithdraw`,
`QueryWithdrawOrder`, `OrderV2Push`, `UrlLinkGenerate`, `SendPrivateMessage`,
`RecallPrivateMessage`), taken by itself: for all its arguments and every
response that the transport delivers for the request of this operation and
that decodes, the operation returns an error if and only if the error code of
the decoded envelope is non-zero, and when the code is zero it returns the
decoded response with no error.  Nothing is assumed about what the transport
answers to the other operations; the three operations that first ask for an
access token are taken when they obtained one. -/
theorem facade_error_iff_code (T : Transport) (md5Sum : String → List Byte)
    (quote : String → String) (d : DouYinOpenApi) :
    (∀ (decode : String → Code2SessionResponse → Code2SessionResponse × Option String)
        (code anonymousCode : String)
        (body : String) (resp : Code2SessionResponse),
      (∀ req ∈ (Code2Session T decode d code anonymousCode).2, T.PostJSON req.api req.params = (body, none)) →
      Unmarshal T.checkValid decode body {} = (resp, none) →
      ((Code2Session T decode d code anonymousCode).1.2 ≠ none ↔ resp.ErrNo ≠ 0) ∧
        (resp.ErrNo = 0 → (Code2Session T decode d code anonymousCode).1 = (resp, none))) ∧
    (∀ (decode : String → CreateOrderResponse → CreateOrderResponse × Option String)
        (params : CreateOrderParams)
        (body : String) (resp : CreateOrderResponse),
      (∀ req ∈ (CreateOrder T decode md5Sum d params).2, T.PostJSON req.api req.params = (body, none)) →
      Unmarshal T.checkValid decode body {} = (resp, none) →
      ((CreateOrder T decode md5Sum d params).1.2 ≠ none ↔ resp.ErrNo ≠ 0) ∧
        (resp.ErrNo = 0 → (CreateOrder T decode md5Sum d params).1 = (resp, none))) ∧
    (∀ (decode : String → QueryOrderResponse → QueryOrderResponse × Option String)
        (outOrderNo thirdpartyId : String)
        (body : String) (resp : QueryOrderResponse),
      (∀ req ∈ (QueryOrder T decode md5Sum d outOrderNo thirdpartyId).2, T.PostJSON req.api req.params = (body, none)) →
      Unmarshal T.checkValid decode body {} = (resp, none) →
      ((QueryOrder T decode md5Sum d outOrderNo thirdpartyId).1.2 ≠ none ↔ resp.ErrNo ≠ 0) ∧
        (resp.ErrNo = 0 → (QueryOrder T decode md5Sum d outOrderNo thirdpartyId).1 = (resp, none))) ∧
    (∀ (decode : String → CreateRefundResponse → CreateRefundResponse × Option String)
        (params : CreateRefundParams)
        (body : String) (resp : CreateRefundResponse),
      (∀ req ∈ (CreateRefund T decode md5Sum d params).2, T.PostJSON req.api req.params = (body, none)) →
      Unmarshal T.checkValid decode body {} = (resp, none) →
      ((CreateRefund T decode md5Sum d params).1.2 ≠ none ↔ resp.ErrNo ≠ 0) ∧
        (resp.ErrNo = 0 → (CreateRefund T decode md5Sum d params).1 = (resp, none))) ∧
    (∀ (decode : String → QueryRefundParamsResponse → QueryRefundParamsResponse × Option String)
        (outRefundNo thirdpartyId : String)
        (body : String) (resp : QueryRefundParamsResponse),
      (∀ req ∈ (QueryRefund T decode md5Sum d outRefundNo thirdpartyId).2, T.PostJSON req.api req.params = (body, none)) →
      Unmarshal T.checkValid decode body {} = (resp, none) →
      ((QueryRefund T decode md5Sum d outRefundNo thirdpartyId).1.2 ≠ none ↔ resp.ErrNo ≠ 0) ∧
        (resp.ErrNo = 0 → (QueryRefund T decode md5Sum d outRefundNo thirdpartyId).1 = (resp, none))) ∧
    (∀ (decode : String → SettleResponse → SettleResponse × Option String)
        (settleParams : SettleParams) (settleParamsItem : Option (List SettleParamsItem))
        (body : String) (resp : SettleResponse),
      (∀ req ∈ (Settle T decode md5Sum quote d settleParams settleParamsItem).2, T.PostJSON req.api req.params = (body, none)) →
      Unmarshal T.checkValid decode body {} = (resp, none) →
      ((Settle T decode md5Sum quote d settleParams settleParamsItem).1.2 ≠ none ↔ resp.ErrNo ≠ 0) ∧
        (resp.ErrNo = 0 → (Settle T decode md5Sum quote d settleParams settleParamsItem).1 = (resp, none))) ∧
    (∀ (decode : String → QuerySettleResponse → QuerySettleResponse × Option String)
        (outSettleNo thirdpartyId : String)
        (body : String) (resp : QuerySettleResponse),
      (∀ req ∈ (QuerySettle T decode md5Sum d outSettleNo thirdpartyId).2, T.PostJSON req.api req.params = (body, none)) →
      Unmarshal T.checkValid decode body {} = (resp, none) →
      ((QuerySettle T decode md5Sum d outSettleNo thirdpartyId).1.2 ≠ none ↔ resp.ErrNo ≠ 0) ∧
        (resp.ErrNo = 0 → (QuerySettle T decode md5Sum d outSettleNo thirdpartyId).1 = (resp, none))) ∧
    (∀ (decode : String → UnsettleAmountResponse → UnsettleAmountResponse × Option String)
        (outOrderNo thirdpartyId outItemOrderNo : String)
        (body : String) (resp : UnsettleAmountResponse),
      (∀ req ∈ (UnsettleAmount T decode md5Sum d outOrderNo thirdpartyId outItemOrderNo).2, T.PostJSON req.api req.params = (body, none)) →
      Unmarshal T.checkValid decode body {} = (resp, none) →
      ((UnsettleAmount T decode md5Sum d outOrderNo thirdpartyId outItemOrderNo).1.2 ≠ none ↔ resp.ErrNo ≠ 0) ∧
        (resp.ErrNo = 0 → (UnsettleAmount T decode md5Sum d outOrderNo thirdpartyId outItemOrderNo).1 = (resp, none))) ∧
    (∀ (decode : String → CreateReturnResponse → CreateReturnResponse × Option String)
        (params : CreateReturnParams)
        (body : String) (resp : CreateReturnResponse),
      (∀ req ∈ (CreateReturn T decode md5Sum d params).2, T.PostJSON req.api req.params = (body, none)) →
      Unmarshal T.checkValid decode body {} = (resp, none) →
      ((CreateReturn T decode md5Sum d params).1.2 ≠ none ↔ resp.ErrNo ≠ 0) ∧
        (resp.ErrNo = 0 → (CreateReturn T decode md5Sum d params).1 = (resp, none))) ∧
    (∀ (decode : String → QueryReturnResponse → QueryReturnResponse × Option String)
        (returnNo outReturnNo thirdpartyId : String)
        (body : String) (resp : QueryReturnResponse),
      (∀ req ∈ (QueryReturn T decode md5Sum d returnNo outReturnNo thirdpartyId).2, T.PostJSON req.api req.params = (body, none)) →
      Unmarshal T.checkValid decode body {} = (resp, none) →
      ((QueryReturn T decode md5Sum d returnNo outReturnNo thirdpartyId).1.2 ≠ none ↔ resp.ErrNo ≠ 0) ∧
        (resp.ErrNo = 0 → (QueryReturn T decode md5Sum d returnNo outReturnNo thirdpartyId).1 = (resp, none))) ∧
    (∀ (decode : String → QueryMerchantBalanceResponse → QueryMerchantBalanceResponse × Option String)
        (params : QueryMerchantBalanceParams)
        (body : String) (resp : QueryMerchantBalanceResponse),
      (∀ req ∈ (QueryMerchantBalance T decode md5Sum d params).2, T.PostJSON req.api req.params = (body, none)) →
      Unmarshal T.checkValid decode body {} = (resp, none) →
      ((QueryMerchantBalance T decode md5Sum d params).1.2 ≠ none ↔ resp.ErrNo ≠ 0) ∧
        (resp.ErrNo = 0 → (QueryMerchantBalance T decode md5Sum d params).1 = (resp, none))) ∧
    (∀ (decode : String → MerchantWithdrawResponse → MerchantWithdrawResponse × Option String)
        (params : MerchantWithdrawParams)
        (body : String) (resp : MerchantWithdrawResponse),
      (∀ req ∈ (MerchantWithdraw T decode md5Sum d params).2, T.PostJSON req.api req.params = (body, none)) →
      Unmarshal T.checkValid decode body {} = (resp, none) →
      ((MerchantWithdraw T decode md5Sum d params).1.2 ≠ none ↔ resp.ErrNo ≠ 0) ∧
        (resp.ErrNo = 0 → (MerchantWithdraw T decode md5Sum d params).1 = (resp, none))) ∧
    (∀ (decode : String → QueryWithdrawOrderResponse → QueryWithdrawOrderResponse × Option String)
        (params : QueryWithdrawOrderParams)
        (body : String) (resp : QueryWithdrawOrderResponse),
      (∀ req ∈ (QueryWithdrawOrder T decode md5Sum d params).2, T.PostJSON req.api req.params = (body, none)) →
      Unmarshal T.checkValid decode body {} = (resp, none) →
      ((QueryWithdrawOrder T decode md5Sum d params).1.2 ≠ none ↔ resp.ErrNo ≠ 0) ∧
        (resp.ErrNo = 0 → (QueryWithdrawOrder T decode md5Sum d params).1 = (resp, none))) ∧
    (∀ (decode : String → OrderV2PushResponse → OrderV2PushResponse × Option String)
        (normal : OrderV2PushParams)
        (body : String) (resp : OrderV2PushResponse),
      (∀ req ∈ (OrderV2Push T decode d normal).2, T.PostJSON req.api req.params = (body, none)) →
      Unmarshal T.checkValid decode body {} = (resp, none) →
      ((OrderV2Push T decode d normal).1.2 ≠ none ↔ resp.ErrCode ≠ 0) ∧
        (resp.ErrCode = 0 → (OrderV2Push T decode d normal).1 = (resp, none))) ∧
    (∀ (decode : String → UrlLinkGenerateResponse → UrlLinkGenerateResponse × Option String)
        (accessToken : String × Option String) (params : UrlLinkGenerateParams)
        (body : String) (resp : UrlLinkGenerateResponse),
      accessToken.2 = none →
      (∀ req ∈ (UrlLinkGenerate T decode accessToken d params).2, T.PostJSON req.api req.params = (body, none)) →
      Unmarshal T.checkValid decode body {} = (resp, none) →
      ((UrlLinkGenerate T decode accessToken d params).1.2 ≠ none ↔ resp.ErrNo ≠ 0) ∧
        (resp.ErrNo = 0 → (UrlLinkGenerate T decode accessToken d params).1 = (resp, none))) ∧
    (∀ (decode : String → ImAuthorizeSendMsgResponse → ImAuthorizeSendMsgResponse × Option String)
        (accessToken : String × Option String) (openId : String) (params : ImAuthorizeSendMsgParams)
        (body : String) (resp : ImAuthorizeSendMsgResponse),
      accessToken.2 = none →
      (∀ req ∈ (SendPrivateMessage T decode accessToken d openId params).2, T.PostJsonWithHeader req.api req.params req.header = (body, none)) →
      Unmarshal T.checkValid decode body {} = (resp, none) →
      ((SendPrivateMessage T decode accessToken d openId params).1.2 ≠ none ↔ resp.ErrNo ≠ 0) ∧
        (resp.ErrNo = 0 → (SendPrivateMessage T decode accessToken d openId params).1 = (resp, none))) ∧
    (∀ (decode : String → ImAuthorizeRecallMsgResponse → ImAuthorizeRecallMsgResponse × Option String)
        (accessToken : String × Option String) (openId : String) (params : ImAuthorizeRecallMsgParams)
        (body : String) (resp : ImAuthorizeRecallMsgResponse),
      accessToken.2 = none →
      (∀ req ∈ (RecallPrivateMessage T decode accessToken d openId params).2, T.PostJsonWithHeader req.api req.params req.header = (body, none)) →
      Unmarshal T.checkValid decode body {} = (resp, none) →
      ((RecallPrivateMessage T decode accessToken d openId params).1.2 ≠ none ↔ resp.ErrNo ≠ 0) ∧
        (resp.ErrNo = 0 → (RecallPrivateMessage T decode accessToken d openId params).1 = (resp, none))) :=
  ⟨fun decode code anonymousCode body resp hsent hdec =>
      error_iff_code _ _ _ _ (Code2Session_response T decode d code anonymousCode body resp hsent hdec),
    fun decode params body resp hsent hdec =>
      error_iff_code _ _ _ _ (CreateOrder_response T decode md5Sum d params body resp hsent hdec),
    fun decode outOrderNo thirdpartyId body resp hsent hdec =>
      error_iff_code _ _ _ _ (QueryOrder_response T decode md5Sum d outOrderNo thirdpartyId body resp hsent hdec),
    fun decode params body resp hsent hdec =>
      error_iff_code _ _ _ _ (CreateRefund_response T decode md5Sum d params body resp hsent hdec),
    fun decode outRefundNo thirdpartyId body resp hsent hdec =>
      error_iff_code _ _ _ _ (QueryRefund_response T decode md5Sum d outRefundNo thirdpartyId body resp hsent hdec),
    fun decode settleParams settleParamsItem body resp hsent hdec =>
      error_iff_code _ _ _ _ (Settle_response T decode md5Sum quote d settleParams settleParamsItem body resp hsent hdec),
    fun decode outSettleNo thirdpartyId body resp hsent hdec =>
      error_iff_code _ _ _ _ (QuerySettle_response T decode md5Sum d outSettleNo thirdpartyId body resp hsent hdec),
    fun decode outOrderNo thirdpartyId outItemOrderNo body resp hsent hdec =>
      error_iff_code _ _ _ _ (UnsettleAmount_response T decode md5Sum d outOrderNo thirdpartyId outItemOrderNo body resp hsent hdec),
    fun decode params body resp hsent hdec =>
      error_iff_code _ _ _ _ (CreateReturn_response T decode md5Sum d params body resp hsent hdec),
    fun decode returnNo outReturnNo thirdpartyId body resp hsent hdec =>
      error_iff_code _ _ _ _ (QueryReturn_response T decode md5Sum d returnNo outReturnNo thirdpartyId body resp hsent hdec),
    fun decode params body resp hsent hdec =>
      error_iff_code _ _ _ _ (QueryMerchantBalance_response T decode md5Sum d params body resp hsent hdec),
    fun decode params body resp hsent hdec =>
      error_iff_code _ _ _ _ (MerchantWithdraw_response T decode md5Sum d params body resp hsent hdec),
    fun decode params body resp hsent hdec =>
      error_iff_code _ _ _ _ (QueryWithdrawOrder_response T decode md5Sum d params body resp hsent hdec),
    fun decode normal body resp hsent hdec =>
      error_iff_code _ _ _ _ (OrderV2Push_response T decode d normal body resp hsent hdec),
    fun decode accessToken params body resp htoken hsent hdec =>
      error_iff_code _ _ _ _ (UrlLinkGenerate_response T decode accessToken d params body resp htoken hsent hdec),
    fun decode accessToken openId params body resp htoken hsent hdec =>
      error_iff_code _ _ _ _ (SendPrivateMessage_response T decode accessToken d openId params body resp htoken hsent hdec),
    fun decode accessToken openId params body resp htoken hsent hdec =>
      error_iff_code _ _ _ _ (RecallPrivateMessage_response T decode accessToken d openId params body resp htoken hsent hdec)⟩

theorem facade_error_iff_code_witness :
    (CreateOrder (⟨fun api _ => if api = createOrder then ("body", none) else ("", some "no route to host"),
        fun _ _ _ => ("", some "no route to host"), fun _ => none⟩ : Transport)
        (fun _ _ => (({ ErrNo := 2001, ErrTips := "order exists" } : CreateOrderResponse), none)) exampleDigest
        ⟨⟨"app", "secret", false, "tok", "salt"⟩, "https://developer.toutiao.com"⟩ { OutOrderNo := "N1", TotalAmount := 100 }).1.2 ≠ none ∧
    (CreateOrder (⟨fun api _ => if api = createOrder then ("body", none) else ("", some "no route to host"),
        fun _ _ _ => ("", some "no route to host"), fun _ => none⟩ : Transport)
        (fun _ _ => (({ ErrNo := 0, ErrTips := "", Data := { OrderId := "N7101", OrderToken := "CgwIARDiDRibDiAB" } } : CreateOrderResponse), none)) exampleDigest
        ⟨⟨"app", "secret", false, "tok", "salt"⟩, "https://developer.toutiao.com"⟩ { OutOrderNo := "N1", TotalAmount := 100 }).1 =
      (({ ErrNo := 0, ErrTips := "", Data := { OrderId := "N7101", OrderToken := "CgwIARDiDRibDiAB" } } : CreateOrderResponse), none) ∧
    (SendPrivateMessage (⟨fun _ _ => ("", some "no route to host"),
        fun api _ _ => if api = imAuthorizeSendMsg ++ "?open_id=" ++ "u1" then ("body", none)
          else ("", some "no route to host"), fun _ => none⟩ : Transport)
        (fun _ _ => (({ ErrNo := 28001007, ErrMsg := "invalid open_id" } : ImAuthorizeSendMsgResponse), none)) ("tk", none)
        ⟨⟨"app", "secret", false, "tok", "salt"⟩, "https://developer.toutiao.com"⟩ "u1" {}).1.2 ≠ none :=
  ⟨(((facade_error_iff_code (⟨fun api _ => if api = createOrder then ("body", none) else ("", some "no route to host"),
        fun _ _ _ => ("", some "no route to host"), fun _ => none⟩ : Transport)
      exampleDigest (fun s => s) ⟨⟨"app", "secret", false, "tok", "salt"⟩, "https://developer.toutiao.com"⟩).2.1
      (fun _ _ => (({ ErrNo := 2001, ErrTips := "order exists" } : CreateOrderResponse), none)) { OutOrderNo := "N1", TotalAmount := 100 } "body"
      ({ ErrNo := 2001, ErrTips := "order exists" } : CreateOrderResponse)
      (fun req hreq => by rw [List.mem_singleton.1 hreq]; rfl) rfl).1).2 (by decide),
   ((facade_error_iff_code (⟨fun api _ => if api = createOrder then ("body", none) else ("", some "no route to host"),
        fun _ _ _ => ("", some "no route to host"), fun _ => none⟩ : Transport)
      exampleDigest (fun s => s) ⟨⟨"app", "secret", false, "tok", "salt"⟩, "https://developer.toutiao.com"⟩).2.1
      (fun _ _ => (({ ErrNo := 0, ErrTips := "", Data := { OrderId := "N7101", OrderToken := "CgwIARDiDRibDiAB" } } : CreateOrderResponse), none)) { OutOrderNo := "N1", TotalAmount := 100 } "body"
      ({ ErrNo := 0, ErrTips := "", Data := { OrderId := "N7101", OrderToken := "CgwIARDiDRibDiAB" } } : CreateOrderResponse)
      (fun req hreq => by rw [List.mem_singleton.1 hreq]; rfl) rfl).2 rfl,
   (((facade_error_iff_code (⟨fun _ _ => ("", some "no route to host"),
        fun api _ _ => if api = imAuthorizeSendMsg ++ "?open_id=" ++ "u1" then ("body", none)
          else ("", some "no route to host"), fun _ => none⟩ : Transport)
      exampleDigest (fun s => s) ⟨⟨"app", "secret", false, "tok", "salt"⟩, "https://developer.toutiao.com"⟩).2.2.2.2.2.2.2.2.2.2.2.2.2.2.2.1
      (fun _ _ => (({ ErrNo := 28001007, ErrMsg := "invalid open_id" } : ImAuthorizeSendMsgResponse), none)) ("tk", none) "u1" {} "body"
      ({ ErrNo := 28001007, ErrMsg := "invalid open_id" } : ImAuthorizeSendMsgResponse) rfl
      (fun req hreq => by rw [List.mem_singleton.1 hreq]; rfl) rfl).1).2 (by decide)⟩

/-! ## Base URLs -/

theorem GetAccessToken_miss_posts {σ : Type} (C : Cache σ)
    (PostJSON : String → List (String × String) → String × Option String)
    (checkValid : String → Option String)
    (decodeRes : String → ResAccessToken → ResAccessToken × Option String)
    (dd : DefaultAccessToken) (w : World σ)
    (hmiss : C.Get w.cache dd.GetCacheKey = none) (hfree : w.locked = false) :
    (GetAccessToken C PostJSON checkValid decodeRes dd w).2.events.filterMap Event.postApi =
      w.events.filterMap Event.postApi ++
        [if dd.SandBox then sandBoxTokenURL else accessTokenURL] := by
  rcases hsrv : GetTokenFromServer PostJSON checkValid decodeRes
      (if dd.SandBox then sandBoxTokenURL else accessTokenURL) dd.AppId dd.AppSecret with
    ⟨req, _ | err⟩
  · rw [GetAccessToken_exchange_ok C PostJSON checkValid decodeRes dd w req hmiss hfree hsrv]
    rcases C.Set w.cache dd.GetCacheKey (CacheValue.str req.Data.AccessToken)
        (wrapInt64 (wrapInt64 (req.Data.ExpiresIn - 1500) * 1000000000)) with ⟨c, _ | e⟩ <;>
      simp [List.filterMap_append, List.filterMap_cons, Event.postApi]
  · rw [GetAccessToken_exchange_failed C PostJSON checkValid decodeRes dd w req err hmiss hfree
      hsrv]
    simp [List.filterMap_append, List.filterMap_cons, Event.postApi]

/-- C19, as the claim states it, fails.  In sandbox mode `CreateOrder` posts to
`https://developer.toutiao.com/api/apps/ecpay/v1/create_order`, which does not
start with the sandbox base URL; and in production mode `SendPrivateMessage`
posts to a URL under `https://open.douyin.com`, which does not start with the
production base URL. -/
theorem facade_base_url_counterexample :
    (CreateOrder ⟨fun _ _ => ("body", none), fun _ _ _ => ("body", none), fun _ => none⟩ (fun _ v => (v, none)) exampleDigest
        (NewDouYinOpenApi ⟨"app", "secret", true, "tok", "salt"⟩) {}).2.map Request.api =
      ["https://developer.toutiao.com/api/apps/ecpay/v1/create_order"] ∧
    (NewDouYinOpenApi ⟨"app", "secret", true, "tok", "salt"⟩).BaseApi =
      "https://open-sandbox.douyin.com" ∧
    HasPrefix "https://developer.toutiao.com/api/apps/ecpay/v1/create_order"
      "https://open-sandbox.douyin.com" = false ∧
    (SendPrivateMessage ⟨fun _ _ => ("body", none), fun _ _ _ => ("body", none), fun _ => none⟩ (fun _ v => (v, none)) ("tk", none)
        (NewDouYinOpenApi ⟨"app", "secret", false, "tok", "salt"⟩) "oid" {}).2.map Request.api =
      ["https://open.douyin.com/im/authorize/send/msg/?open_id=oid"] ∧
    (NewDouYinOpenApi ⟨"app", "secret", false, "tok", "salt"⟩).BaseApi =
      "https://developer.toutiao.com" ∧
    HasPrefix "https://open.douyin.com/im/authorize/send/msg/?open_id=oid"
      "https://developer.toutiao.com" = false := by
  refine ⟨by decide, by decide, by decide, by decide, by decide, by decide⟩

theorem isPrefixOf_append_self (pre rest : List Char) : pre.isPrefixOf (pre ++ rest) = true := by
  induction pre with
  | nil => simp [List.isPrefixOf]
  | cons c cs ih => simp [List.isPrefixOf, ih]

theorem HasPrefix_append (pre rest : String) : HasPrefix (pre ++ rest) pre = true := by
  unfold HasPrefix
  rw [String.data_append]
  exact isPrefixOf_append_self _ _

/-- C19, amended. For every configuration `GetApiUrl(p)` is the selected base
URL (the sandbox one exactly when `IsSandbox` is set) followed by `p`, and
`Code2Session` posts to `GetApiUrl` of its path, so to a URL that starts with
the selected base URL.  The fourteen operations `CreateOrder`, `QueryOrder`,
`CreateRefund`, `QueryRefund`, `Settle`, `QuerySettle`, `UnsettleAmount`,
`CreateReturn`, `QueryReturn`, `QueryMerchantBalance`, `MerchantWithdraw`,
`QueryWithdrawOrder`, `OrderV2Push` and `UrlLinkGenerate` post to a URL that
starts with the production base URL, which is the selected one when
`IsSandbox` is not set.  The token exchange of `GetAccessToken` (on a cache
miss with the lock free) posts to the sandbox token URL when `SandBox` is set
and to the production token URL otherwise; `NewDouYinOpenApi` builds the
default access token with `SandBox` equal to `IsSandbox` when the
configuration supplies none, and keeps a supplied one as it is. -/
theorem base_url_selection (config : DouYinOpenApiConfig) (T : Transport)
    (md5Sum : String → List Byte) (quote : String → String) :
    (∀ p : String, (NewDouYinOpenApi config).GetApiUrl p =
      (if config.IsSandbox then "https://open-sandbox.douyin.com"
        else "https://developer.toutiao.com") ++ p) ∧
    (∀ (decode : String → Code2SessionResponse → Code2SessionResponse × Option String)
        (code anonymousCode : String),
      ∀ req ∈ (Code2Session T decode (NewDouYinOpenApi config) code anonymousCode).2,
        req.api = (NewDouYinOpenApi config).GetApiUrl "/api/apps/v2/jscode2session" ∧
        HasPrefix req.api (if config.IsSandbox then "https://open-sandbox.douyin.com"
        else "https://developer.toutiao.com") = true) ∧
    (∀ (decode : String → CreateOrderResponse → CreateOrderResponse × Option String)
        (params : CreateOrderParams),
      ∀ req ∈ (CreateOrder T decode md5Sum (NewDouYinOpenApi config) params).2,
        HasPrefix req.api "https://developer.toutiao.com" = true ∧
        (config.IsSandbox = false →
          HasPrefix req.api (NewDouYinOpenApi config).BaseApi = true)) ∧
    (∀ (decode : String → QueryOrderResponse → QueryOrderResponse × Option String)
        (outOrderNo thirdpartyId : String),
      ∀ req ∈ (QueryOrder T decode md5Sum (NewDouYinOpenApi config) outOrderNo thirdpartyId).2,
        HasPrefix req.api "https://developer.toutiao.com" = true ∧
        (config.IsSandbox = false →
          HasPrefix req.api (NewDouYinOpenApi config).BaseApi = true)) ∧
    (∀ (decode : String → CreateRefundResponse → CreateRefundResponse × Option String)
        (params : CreateRefundParams),
      ∀ req ∈ (CreateRefund T decode md5Sum (NewDouYinOpenApi config) params).2,
        HasPrefix req.api "https://developer.toutiao.com" = true ∧
        (config.IsSandbox = false →
          HasPrefix req.api (NewDouYinOpenApi config).BaseApi = true)) ∧
    (∀ (decode : String → QueryRefundParamsResponse → QueryRefundParamsResponse × Option String)
        (outRefundNo thirdpartyId : String),
      ∀ req ∈ (QueryRefund T decode md5Sum (NewDouYinOpenApi config) outRefundNo thirdpartyId).2,
        HasPrefix req.api "https://developer.toutiao.com" = true ∧
        (config.IsSandbox = false →
          HasPrefix req.api (NewDouYinOpenApi config).BaseApi = true)) ∧
    (∀ (decode : String → SettleResponse → SettleResponse × Option String)
        (settleParams : SettleParams) (settleParamsItem : Option (List SettleParamsItem)),
      ∀ req ∈ (Settle T decode md5Sum quote (NewDouYinOpenApi config) settleParams settleParamsItem).2,
        HasPrefix req.api "https://developer.toutiao.com" = true ∧
        (config.IsSandbox = false →
          HasPrefix req.api (NewDouYinOpenApi config).BaseApi = true)) ∧
    (∀ (decode : String → QuerySettleResponse → QuerySettleResponse × Option String)
        (outSettleNo thirdpartyId : String),
      ∀ req ∈ (QuerySettle T decode md5Sum (NewDouYinOpenApi config) outSettleNo thirdpartyId).2,
        HasPrefix req.api "https://developer.toutiao.com" = true ∧
        (config.IsSandbox = false →
          HasPrefix req.api (NewDouYinOpenApi config).BaseApi = true)) ∧
    (∀ (decode : String → UnsettleAmountResponse → UnsettleAmountResponse × Option String)
        (outOrderNo thirdpartyId outItemOrderNo : String),
      ∀ req ∈ (UnsettleAmount T decode md5Sum (NewDouYinOpenApi config) outOrderNo thirdpartyId outItemOrderNo).2,
        HasPrefix req.api "https://developer.toutiao.com" = true ∧
        (config.IsSandbox = false →
          HasPrefix req.api (NewDouYinOpenApi config).BaseApi = true)) ∧
    (∀ (decode : String → CreateReturnResponse → CreateReturnResponse × Option String)
        (params : CreateReturnParams),
      ∀ req ∈ (CreateReturn T decode md5Sum (NewDouYinOpenApi config) params).2,
        HasPrefix req.api "https://developer.toutiao.com" = true ∧
        (config.IsSandbox = false →
          HasPrefix req.api (NewDouYinOpenApi config).BaseApi = true)) ∧
    (∀ (decode : String → QueryReturnResponse → QueryReturnResponse × Option String)
        (returnNo outReturnNo thirdpartyId : String),
      ∀ req ∈ (QueryReturn T decode md5Sum (NewDouYinOpenApi config) returnNo outReturnNo thirdpartyId).2,
        HasPrefix req.api "https://developer.toutiao.com" = true ∧
        (config.IsSandbox = false →
          HasPrefix req.api (NewDouYinOpenApi config).BaseApi = true)) ∧
    (∀ (decode : String → QueryMerchantBalanceResponse → QueryMerchantBalanceResponse × Option String)
        (params : QueryMerchantBalanceParams),
      ∀ req ∈ (QueryMerchantBalance T decode md5Sum (NewDouYinOpenApi config) params).2,
        HasPrefix req.api "https://developer.toutiao.com" = true ∧
        (config.IsSandbox = false →
          HasPrefix req.api (NewDouYinOpenApi config).BaseApi = true)) ∧
    (∀ (decode : String → MerchantWithdrawResponse → MerchantWithdrawResponse × Option String)
        (params : MerchantWithdrawParams),
      ∀ req ∈ (MerchantWithdraw T decode md5Sum (NewDouYinOpenApi config) params).2,
        HasPrefix req.api "https://developer.toutiao.com" = true ∧
        (config.IsSandbox = false →
          HasPrefix req.api (NewDouYinOpenApi config).BaseApi = true)) ∧
    (∀ (decode : String → QueryWithdrawOrderResponse → QueryWithdrawOrderResponse × Option String)
        (params : QueryWithdrawOrderParams),
      ∀ req ∈ (QueryWithdrawOrder T decode md5Sum (NewDouYinOpenApi config) params).2,
        HasPrefix req.api "https://developer.toutiao.com" = true ∧
        (config.IsSandbox = false →
          HasPrefix req.api (NewDouYinOpenApi config).BaseApi = true)) ∧
    (∀ (decode : String → OrderV2PushResponse → OrderV2PushResponse × Option String)
        (normal : OrderV2PushParams),
      ∀ req ∈ (OrderV2Push T decode (NewDouYinOpenApi config) normal).2,
        HasPrefix req.api "https://developer.toutiao.com" = true ∧
        (config.IsSandbox = false →
          HasPrefix req.api (NewDouYinOpenApi config).BaseApi = true)) ∧
    (∀ (decode : String → UrlLinkGenerateResponse → UrlLinkGenerateResponse × Option String)
        (accessToken : String × Option String) (params : UrlLinkGenerateParams),
      ∀ req ∈ (UrlLinkGenerate T decode accessToken (NewDouYinOpenApi config) params).2,
        HasPrefix req.api "https://developer.toutiao.com" = true ∧
        (config.IsSandbox = false →
          HasPrefix req.api (NewDouYinOpenApi config).BaseApi = true)) ∧
    (∀ (σ : Type) (C : Cache σ)
        (PostJSON : String → List (String × String) → String × Option String)
        (checkValid : String → Option String)
        (decodeRes : String → ResAccessToken → ResAccessToken × Option String)
        (dd : DefaultAccessToken) (w : World σ),
      C.Get w.cache dd.GetCacheKey = none → w.locked = false →
      (GetAccessToken C PostJSON checkValid decodeRes dd w).2.events.filterMap Event.postApi =
        w.events.filterMap Event.postApi ++
          [if dd.SandBox then "https://open-sandbox.douyin.com/api/apps/v2/token"
            else "https://developer.toutiao.com/api/apps/v2/token"]) ∧
    (∀ τ : Type, NewDouYinOpenApi.AccessToken config (none : Option τ) =
      Outcome.returned (Sum.inr
        { AppId := config.AppId, AppSecret := config.AppSecret,
          GrantType := "client_credential",
          accessTokenCacheKey := "douyin_openapi_access_token_" ++ config.AppId,
          SandBox := config.IsSandbox })) ∧
    (∀ (τ : Type) (supplied : τ), NewDouYinOpenApi.AccessToken config (some supplied) =
      Outcome.returned (Sum.inl supplied)) := by
  have hbase : config.IsSandbox = false →
      (NewDouYinOpenApi config).BaseApi = "https://developer.toutiao.com" := by
    intro h
    unfold NewDouYinOpenApi
    simp only [h, Bool.false_eq_true, if_false]
  have hconst : ∀ (url : String), HasPrefix url "https://developer.toutiao.com" = true →
      ∀ (params : JValue) (header : List (String × String)),
        HasPrefix (⟨url, params, header⟩ : Request).api "https://developer.toutiao.com" = true :=
    fun _ h _ _ => h
  refine ⟨fun p => rfl, ?_, ?_, ?_, ?_, ?_, ?_, ?_, ?_, ?_, ?_, ?_, ?_, ?_, ?_, ?_, ?_, fun τ => rfl, fun τ supplied => rfl⟩
  · intro decode code anonymousCode req hreq
    rw [List.mem_singleton.1 hreq]
    exact ⟨rfl, HasPrefix_append _ _⟩
  · intro decode params req hreq
    rw [List.mem_singleton.1 hreq]
    exact ⟨hconst createOrder (by decide) _ _, fun h => by rw [hbase h]; exact hconst createOrder (by decide) _ _⟩
  · intro decode outOrderNo thirdpartyId req hreq
    rw [List.mem_singleton.1 hreq]
    exact ⟨hconst queryOrder (by decide) _ _, fun h => by rw [hbase h]; exact hconst queryOrder (by decide) _ _⟩
  · intro decode params req hreq
    rw [List.mem_singleton.1 hreq]
    exact ⟨hconst createRefund (by decide) _ _, fun h => by rw [hbase h]; exact hconst createRefund (by decide) _ _⟩
  · intro decode outRefundNo thirdpartyId req hreq
    rw [List.mem_singleton.1 hreq]
    exact ⟨hconst queryRefund (by decide) _ _, fun h => by rw [hbase h]; exact hconst queryRefund (by decide) _ _⟩
  · intro decode settleParams settleParamsItem req hreq
    rw [List.mem_singleton.1 hreq]
    exact ⟨hconst settle (by decide) _ _, fun h => by rw [hbase h]; exact hconst settle (by decide) _ _⟩
  · intro decode outSettleNo thirdpartyId req hreq
    rw [List.mem_singleton.1 hreq]
    exact ⟨hconst querySettle (by decide) _ _, fun h => by rw [hbase h]; exact hconst querySettle (by decide) _ _⟩
  · intro decode outOrderNo thirdpartyId outItemOrderNo req hreq
    rw [List.mem_singleton.1 hreq]
    exact ⟨hconst unsettleAmount (by decide) _ _, fun h => by rw [hbase h]; exact hconst unsettleAmount (by decide) _ _⟩
  · intro decode params req hreq
    rw [List.mem_singleton.1 hreq]
    exact ⟨hconst createReturn (by decide) _ _, fun h => by rw [hbase h]; exact hconst createReturn (by decide) _ _⟩
  · intro decode returnNo outReturnNo thirdpartyId req hreq
    rw [List.mem_singleton.1 hreq]
    exact ⟨hconst queryReturn (by decide) _ _, fun h => by rw [hbase h]; exact hconst queryReturn (by decide) _ _⟩
  · intro decode params req hreq
    rw [List.mem_singleton.1 hreq]
    exact ⟨hconst queryMerchantBalance (by decide) _ _, fun h => by rw [hbase h]; exact hconst queryMerchantBalance (by decide) _ _⟩
  · intro decode params req hreq
    rw [List.mem_singleton.1 hreq]
    exact ⟨hconst merchantWithdraw (by decide) _ _, fun h => by rw [hbase h]; exact hconst merchantWithdraw (by decide) _ _⟩
  · intro decode params req hreq
    rw [List.mem_singleton.1 hreq]
    exact ⟨hconst queryWithdrawOrder (by decide) _ _, fun h => by rw [hbase h]; exact hconst queryWithdrawOrder (by decide) _ _⟩
  · intro decode normal req hreq
    rw [List.mem_singleton.1 hreq]
    exact ⟨hconst orderV2Push (by decide) _ _, fun h => by rw [hbase h]; exact hconst orderV2Push (by decide) _ _⟩
  · intro decode accessToken params req hreq
    obtain ⟨token, _ | e⟩ := accessToken
    · rw [List.mem_singleton.1 hreq]
      exact ⟨hconst urlLinkGenerate (by decide) _ _, fun h => by rw [hbase h]; exact hconst urlLinkGenerate (by decide) _ _⟩
    · exact absurd hreq (List.not_mem_nil _)
  · intro σ C PostJSON checkValid decodeRes dd w hmiss hfree
    exact GetAccessToken_miss_posts C PostJSON checkValid decodeRes dd w hmiss hfree

theorem base_url_selection_witness :
    (GetAccessToken memoryCache (fun _ _ => ("body", none)) (fun _ => none)
        (fun _ v => (v, none)) ⟨"app", "secret", "client_credential", "douyin_openapi_access_token_app", true⟩
        ⟨⟨0, []⟩, false, []⟩).2.events.filterMap Event.postApi =
      ([] : List Event).filterMap Event.postApi ++
        [if (⟨"app", "secret", "client_credential", "douyin_openapi_access_token_app", true⟩ : DefaultAccessToken).SandBox then "https://open-sandbox.douyin.com/api/apps/v2/token"
          else "https://developer.toutiao.com/api/apps/v2/token"] ∧
    (∀ req ∈ (Code2Session (⟨fun _ _ => ("body", none), fun _ _ _ => ("body", none), fun _ => none⟩ : Transport) (fun _ v => (v, none))
        (NewDouYinOpenApi ⟨"app", "secret", true, "tok", "salt"⟩) "c" "a").2,
      req.api = (NewDouYinOpenApi ⟨"app", "secret", true, "tok", "salt"⟩).GetApiUrl "/api/apps/v2/jscode2session" ∧
      HasPrefix req.api (if (⟨"app", "secret", true, "tok", "salt"⟩ : DouYinOpenApiConfig).IsSandbox then "https://open-sandbox.douyin.com"
        else "https://developer.toutiao.com") = true) ∧
    (∀ req ∈ (CreateOrder (⟨fun _ _ => ("body", none), fun _ _ _ => ("body", none), fun _ => none⟩ : Transport) (fun _ v => (v, none)) exampleDigest
        (NewDouYinOpenApi ⟨"app", "secret", false, "tok", "salt"⟩) {}).2,
      HasPrefix req.api (NewDouYinOpenApi ⟨"app", "secret", false, "tok", "salt"⟩).BaseApi = true) :=
  ⟨(base_url_selection ⟨"app", "secret", true, "tok", "salt"⟩ (⟨fun _ _ => ("body", none), fun _ _ _ => ("body", none), fun _ => none⟩ : Transport) exampleDigest (fun s => s)).2.2.2.2.2.2.2.2.2.2.2.2.2.2.2.2.1
      Memory memoryCache (fun _ _ => ("body", none)) (fun _ => none) (fun _ v => (v, none))
      ⟨"app", "secret", "client_credential", "douyin_openapi_access_token_app", true⟩ ⟨⟨0, []⟩, false, []⟩ (by decide) rfl,
   (base_url_selection ⟨"app", "secret", true, "tok", "salt"⟩ (⟨fun _ _ => ("body", none), fun _ _ _ => ("body", none), fun _ => none⟩ : Transport) exampleDigest (fun s => s)).2.1 (fun _ v => (v, none)) "c" "a",
   fun req hreq => ((base_url_selection ⟨"app", "secret", false, "tok", "salt"⟩ (⟨fun _ _ => ("body", none), fun _ _ _ => ("body", none), fun _ => none⟩ : Transport) exampleDigest (fun s => s)).2.2.1
      (fun _ v => (v, none)) {} req hreq).2 rfl⟩

/-! ## Two concurrent callers of GetAccessToken -/

/-- Four atomic actions of one caller, with nobody else running and the lock
free, are the method `GetAccessToken`. -/
theorem stepCaller_sequential {σ : Type} (C : Cache σ)
    (PostJSON : String → List (String × String) → String × Option String)
    (checkValid : String → Option String)
    (decodeRes : String → ResAccessToken → ResAccessToken × Option String)
    (dd : DefaultAccessToken) (w : World σ) (hfree : w.locked = false) :
    (fun p : World σ × Pc => stepCaller C PostJSON checkValid decodeRes dd p.1 p.2)^[4] (w, Pc.start) =
      ((GetAccessToken C PostJSON checkValid decodeRes dd w).2, Pc.done (GetAccessToken C PostJSON checkValid decodeRes dd w).1) := by
  simp only [Function.iterate_succ, Function.iterate_zero, Function.comp_apply, id_eq]
  unfold GetAccessToken
  rcases h1 : C.Get w.cache dd.GetCacheKey with _ | ⟨val | t⟩
  · rcases hs : GetTokenFromServer PostJSON checkValid decodeRes
        (if dd.SandBox then sandBoxTokenURL else accessTokenURL) dd.AppId dd.AppSecret with
      ⟨req, _ | err⟩
    · rcases hset : C.Set w.cache dd.GetCacheKey (CacheValue.str req.Data.AccessToken)
          (wrapInt64 (wrapInt64 (req.Data.ExpiresIn - 1500) * 1000000000)) with ⟨c, _ | e⟩ <;>
        simp [stepCaller, World.emit, World.lock, World.unlock, h1, hfree, hs, hset]
    · simp [stepCaller, World.emit, World.lock, World.unlock, h1, hfree, hs]
  · simp [stepCaller, World.emit, World.lock, World.unlock, h1, hfree]
  · simp [stepCaller, World.emit, World.lock, World.unlock, h1, hfree]

/-- What one atomic action does to the lock. -/
theorem stepCaller_lock {σ : Type} (C : Cache σ)
    (PostJSON : String → List (String × String) → String × Option String)
    (checkValid : String → Option String)
    (decodeRes : String → ResAccessToken → ResAccessToken × Option String)
    (dd : DefaultAccessToken) (w : World σ) (pc : Pc) :
    (pc.inCritical = true →
      (stepCaller C PostJSON checkValid decodeRes dd w pc).1.locked = ((stepCaller C PostJSON checkValid decodeRes dd w pc).2.inCritical && w.locked) ∨
      (stepCaller C PostJSON checkValid decodeRes dd w pc).2.inCritical = false ∧ (stepCaller C PostJSON checkValid decodeRes dd w pc).1.locked = false) ∧
    (pc.inCritical = false →
      ((stepCaller C PostJSON checkValid decodeRes dd w pc).2.inCritical = true →
        w.locked = false ∧ (stepCaller C PostJSON checkValid decodeRes dd w pc).1.locked = true) ∧
      ((stepCaller C PostJSON checkValid decodeRes dd w pc).2.inCritical = false →
        (stepCaller C PostJSON checkValid decodeRes dd w pc).1.locked = w.locked)) := by
  cases pc with
  | start =>
    rcases h1 : C.Get w.cache dd.GetCacheKey with _ | ⟨val | t⟩ <;>
      simp [stepCaller, World.emit, Pc.inCritical, h1]
  | waitLock =>
    cases hl : w.locked <;> simp [stepCaller, World.lock, Pc.inCritical, hl]
  | holding =>
    rcases h1 : C.Get w.cache dd.GetCacheKey with _ | ⟨val | t⟩ <;>
      simp [stepCaller, World.emit, World.unlock, Pc.inCritical, h1]
  | exchanging =>
    rcases hs : GetTokenFromServer PostJSON checkValid decodeRes
        (if dd.SandBox then sandBoxTokenURL else accessTokenURL) dd.AppId dd.AppSecret with
      ⟨req, _ | err⟩
    · rcases hset : C.Set w.cache dd.GetCacheKey (CacheValue.str req.Data.AccessToken)
          (wrapInt64 (wrapInt64 (req.Data.ExpiresIn - 1500) * 1000000000)) with ⟨c, _ | e⟩ <;>
        simp [stepCaller, World.emit, World.unlock, Pc.inCritical, hs, hset]
    · simp [stepCaller, World.unlock, Pc.inCritical, hs]
  | done out => simp [stepCaller, Pc.inCritical]

/-- Mutual exclusion is kept by every atomic action: the lock is held exactly
when a caller is in its critical section, and never both are. -/
theorem Callers.step_mutex {σ : Type} (C : Cache σ)
    (PostJSON : String → List (String × String) → String × Option String)
    (checkValid : String → Option String)
    (decodeRes : String → ResAccessToken → ResAccessToken × Option String)
    (dd₁ dd₂ : DefaultAccessToken) (s : Callers σ) (b : Bool)
    (h : s.world.locked = (s.first.inCritical || s.second.inCritical) ∧
      ¬ (s.first.inCritical = true ∧ s.second.inCritical = true)) :
    (Callers.step C PostJSON checkValid decodeRes dd₁ dd₂ s b).world.locked =
        ((Callers.step C PostJSON checkValid decodeRes dd₁ dd₂ s b).first.inCritical || (Callers.step C PostJSON checkValid decodeRes dd₁ dd₂ s b).second.inCritical) ∧
      ¬ ((Callers.step C PostJSON checkValid decodeRes dd₁ dd₂ s b).first.inCritical = true ∧
        (Callers.step C PostJSON checkValid decodeRes dd₁ dd₂ s b).second.inCritical = true) := by
  obtain ⟨hl, hx⟩ := h
  cases b
  · have k := stepCaller_lock C PostJSON checkValid decodeRes dd₂ s.world s.second
    simp only [Callers.step, Bool.false_eq_true, if_false]
    revert k hl hx
    cases s.first.inCritical <;> cases s.second.inCritical <;> cases s.world.locked <;>
      cases (stepCaller C PostJSON checkValid decodeRes dd₂ s.world s.second).2.inCritical <;>
      cases (stepCaller C PostJSON checkValid decodeRes dd₂ s.world s.second).1.locked <;> simp
  · have k := stepCaller_lock C PostJSON checkValid decodeRes dd₁ s.world s.first
    simp only [Callers.step, if_true]
    revert k hl hx
    cases s.first.inCritical <;> cases s.second.inCritical <;> cases s.world.locked <;>
      cases (stepCaller C PostJSON checkValid decodeRes dd₁ s.world s.first).2.inCritical <;>
      cases (stepCaller C PostJSON checkValid decodeRes dd₁ s.world s.first).1.locked <;> simp

theorem Callers.run_mutex {σ : Type} (C : Cache σ)
    (PostJSON : String → List (String × String) → String × Option String)
    (checkValid : String → Option String)
    (decodeRes : String → ResAccessToken → ResAccessToken × Option String)
    (dd₁ dd₂ : DefaultAccessToken) (schedule : List Bool) :
    ∀ s : Callers σ,
      (s.world.locked = (s.first.inCritical || s.second.inCritical) ∧
        ¬ (s.first.inCritical = true ∧ s.second.inCritical = true)) →
      (Callers.run C PostJSON checkValid decodeRes dd₁ dd₂ schedule s).world.locked =
          ((Callers.run C PostJSON checkValid decodeRes dd₁ dd₂ schedule s).first.inCritical ||
            (Callers.run C PostJSON checkValid decodeRes dd₁ dd₂ schedule s).second.inCritical) ∧
        ¬ ((Callers.run C PostJSON checkValid decodeRes dd₁ dd₂ schedule s).first.inCritical = true ∧
          (Callers.run C PostJSON checkValid decodeRes dd₁ dd₂ schedule s).second.inCritical = true) := by
  induction schedule with
  | nil => intro s h; exact h
  | cons b rest ih =>
    intro s h
    unfold Callers.run
    rw [List.foldl_cons]
    exact ih _ (Callers.step_mutex C PostJSON checkValid decodeRes dd₁ dd₂ s b h)

/-- Two callers are never both in the middle of an exchange. -/
theorem Callers.run_not_both_exchanging {σ : Type} (C : Cache σ)
    (PostJSON : String → List (String × String) → String × Option String)
    (checkValid : String → Option String)
    (decodeRes : String → ResAccessToken → ResAccessToken × Option String)
    (dd₁ dd₂ : DefaultAccessToken) (schedule : List Bool) (w : World σ)
    (hfree : w.locked = false) :
    ¬ ((Callers.run C PostJSON checkValid decodeRes dd₁ dd₂ schedule ⟨w, Pc.start, Pc.start⟩).first = Pc.exchanging ∧
      (Callers.run C PostJSON checkValid decodeRes dd₁ dd₂ schedule ⟨w, Pc.start, Pc.start⟩).second = Pc.exchanging) := by
  have h := (Callers.run_mutex C PostJSON checkValid decodeRes dd₁ dd₂ schedule
    ⟨w, Pc.start, Pc.start⟩ ⟨by simp [hfree, Pc.inCritical], by simp [Pc.inCritical]⟩).2
  intro hb
  apply h
  rw [hb.1, hb.2]
  exact ⟨rfl, rfl⟩

theorem Callers.step_oneExchange {σ : Type} (C : Cache σ)
    (PostJSON : String → List (String × String) → String × Option String)
    (checkValid : String → Option String)
    (decodeRes : String → ResAccessToken → ResAccessToken × Option String)
    (dd : DefaultAccessToken) (c₀ c₁ : σ) (req : ResAccessToken) (n₀ : Nat)
    (hmiss : C.Get c₀ dd.GetCacheKey = none)
    (hok : GetTokenFromServer PostJSON checkValid decodeRes
      (if dd.SandBox then sandBoxTokenURL else accessTokenURL) dd.AppId dd.AppSecret =
      (req, none))
    (hset : C.Set c₀ dd.GetCacheKey (CacheValue.str req.Data.AccessToken)
      (wrapInt64 (wrapInt64 (req.Data.ExpiresIn - 1500) * 1000000000)) = (c₁, none))
    (hget : C.Get c₁ dd.GetCacheKey = some (CacheValue.str req.Data.AccessToken))
    (s : Callers σ) (b : Bool) (h : s.oneExchange c₀ c₁ req.Data.AccessToken n₀) :
    (Callers.step C PostJSON checkValid decodeRes dd dd s b).oneExchange c₀ c₁ req.Data.AccessToken n₀ := by
  obtain ⟨⟨cache, locked, events⟩, first, second⟩ := s
  unfold Callers.oneExchange at h ⊢
  simp only [World.posts, Pc.early] at h
  rcases h with ⟨hc, hl, hp, h1, h2⟩ | ⟨hc, hl, hp, h12⟩ | ⟨hc, hl, hp, h12⟩ |
    ⟨hc, hl, hp, h12⟩ | ⟨hc, hl, hp, h12⟩
  · subst hc hl
    rcases h1 with h1 | h1 <;> rcases h2 with h2 | h2 <;> subst h1 h2 <;> cases b <;>
      simp [Callers.step, stepCaller, World.emit, World.lock, World.unlock, World.posts,
        Pc.early, Event.postApi, List.filterMap_append, hmiss, hp]
  · subst hc hl
    rcases h12 with ⟨h1, h2 | h2⟩ | ⟨h1, h2 | h2⟩ <;> subst h1 h2 <;> cases b <;>
      simp [Callers.step, stepCaller, World.emit, World.lock, World.unlock, World.posts,
        Pc.early, Event.postApi, List.filterMap_append, hmiss, hp]
  · subst hc hl
    rcases h12 with ⟨h1, h2 | h2⟩ | ⟨h1, h2 | h2⟩ <;> subst h1 h2 <;> cases b <;>
      simp [Callers.step, stepCaller, World.emit, World.lock, World.unlock, World.posts,
        Pc.early, Event.postApi, List.filterMap_append, hmiss, hok, hset, hp]
  · subst hc hl
    rcases h12 with ⟨h1, (h2 | h2) | h2⟩ | ⟨h1, (h2 | h2) | h2⟩ <;> subst h1 h2 <;>
      cases b <;>
      simp [Callers.step, stepCaller, World.emit, World.lock, World.unlock, World.posts,
        Pc.early, Event.postApi, List.filterMap_append, hget, hp]
  · subst hc hl
    rcases h12 with ⟨h1, h2⟩ | ⟨h1, h2⟩ <;> subst h1 h2 <;> cases b <;>
      simp [Callers.step, stepCaller, World.emit, World.lock, World.unlock, World.posts,
        Pc.early, Event.postApi, List.filterMap_append, hget, hp]

theorem Callers.run_oneExchange {σ : Type} (C : Cache σ)
    (PostJSON : String → List (String × String) → String × Option String)
    (checkValid : String → Option String)
    (decodeRes : String → ResAccessToken → ResAccessToken × Option String)
    (dd : DefaultAccessToken) (c₀ c₁ : σ) (req : ResAccessToken) (n₀ : Nat)
    (hmiss : C.Get c₀ dd.GetCacheKey = none)
    (hok : GetTokenFromServer PostJSON checkValid decodeRes
      (if dd.SandBox then sandBoxTokenURL else accessTokenURL) dd.AppId dd.AppSecret =
      (req, none))
    (hset : C.Set c₀ dd.GetCacheKey (CacheValue.str req.Data.AccessToken)
      (wrapInt64 (wrapInt64 (req.Data.ExpiresIn - 1500) * 1000000000)) = (c₁, none))
    (hget : C.Get c₁ dd.GetCacheKey = some (CacheValue.str req.Data.AccessToken))
    (schedule : List Bool) :
    ∀ s : Callers σ, s.oneExchange c₀ c₁ req.Data.AccessToken n₀ →
      (Callers.run C PostJSON checkValid decodeRes dd dd schedule s).oneExchange c₀ c₁ req.Data.AccessToken n₀ := by
  induction schedule with
  | nil => intro s h; exact h
  | cons b rest ih =>
    intro s h
    unfold Callers.run
    rw [List.foldl_cons]
    exact ih _ (Callers.step_oneExchange C PostJSON checkValid decodeRes dd c₀ c₁ req n₀
      hmiss hok hset hget s b h)

/-- From every state of the invariant, twelve more atomic actions (four of the
first caller, four of the second, four of the first) bring both callers to
their return, with the token. -/
theorem Callers.oneExchange_finish {σ : Type} (C : Cache σ)
    (PostJSON : String → List (String × String) → String × Option String)
    (checkValid : String → Option String)
    (decodeRes : String → ResAccessToken → ResAccessToken × Option String)
    (dd : DefaultAccessToken) (c₀ c₁ : σ) (req : ResAccessToken) (n₀ : Nat)
    (hmiss : C.Get c₀ dd.GetCacheKey = none)
    (hok : GetTokenFromServer PostJSON checkValid decodeRes
      (if dd.SandBox then sandBoxTokenURL else accessTokenURL) dd.AppId dd.AppSecret =
      (req, none))
    (hset : C.Set c₀ dd.GetCacheKey (CacheValue.str req.Data.AccessToken)
      (wrapInt64 (wrapInt64 (req.Data.ExpiresIn - 1500) * 1000000000)) = (c₁, none))
    (hget : C.Get c₁ dd.GetCacheKey = some (CacheValue.str req.Data.AccessToken))
    (s : Callers σ) (h : s.oneExchange c₀ c₁ req.Data.AccessToken n₀) :
    (Callers.run C PostJSON checkValid decodeRes dd dd [true, true, true, true, false, false, false, false, true, true, true, true] s).first = Pc.done (Outcome.returned (req.Data.AccessToken, none)) ∧
    (Callers.run C PostJSON checkValid decodeRes dd dd [true, true, true, true, false, false, false, false, true, true, true, true] s).second =
      Pc.done (Outcome.returned (req.Data.AccessToken, none)) := by
  obtain ⟨⟨cache, locked, events⟩, first, second⟩ := s
  unfold Callers.oneExchange at h
  simp only [World.posts, Pc.early] at h
  rcases h with ⟨hc, hl, hp, h1, h2⟩ | ⟨hc, hl, hp, h12⟩ | ⟨hc, hl, hp, h12⟩ |
    ⟨hc, hl, hp, h12⟩ | ⟨hc, hl, hp, h12⟩
  · subst hc hl
    rcases h1 with h1 | h1 <;> rcases h2 with h2 | h2 <;> subst h1 h2 <;>
      simp [Callers.run, Callers.step, stepCaller, World.emit, World.lock, World.unlock, World.posts,
        Pc.early, Event.postApi, List.filterMap_append, hmiss, hok, hset, hget]
  · subst hc hl
    rcases h12 with ⟨h1, h2 | h2⟩ | ⟨h1, h2 | h2⟩ <;> subst h1 h2 <;>
      simp [Callers.run, Callers.step, stepCaller, World.emit, World.lock, World.unlock, World.posts,
        Pc.early, Event.postApi, List.filterMap_append, hmiss, hok, hset, hget]
  · subst hc hl
    rcases h12 with ⟨h1, h2 | h2⟩ | ⟨h1, h2 | h2⟩ <;> subst h1 h2 <;>
      simp [Callers.run, Callers.step, stepCaller, World.emit, World.lock, World.unlock, World.posts,
        Pc.early, Event.postApi, List.filterMap_append, hmiss, hok, hset, hget]
  · subst hc hl
    rcases h12 with ⟨h1, (h2 | h2) | h2⟩ | ⟨h1, (h2 | h2) | h2⟩ <;> subst h1 h2 <;>
      simp [Callers.run, Callers.step, stepCaller, World.emit, World.lock, World.unlock, World.posts,
        Pc.early, Event.postApi, List.filterMap_append, hmiss, hok, hset, hget]
  · subst hc hl
    rcases h12 with ⟨h1, h2⟩ | ⟨h1, h2⟩ <;> subst h1 h2 <;>
      simp [Callers.run, Callers.step, stepCaller, World.emit, World.lock, World.unlock, World.posts,
        Pc.early, Event.postApi, List.filterMap_append, hmiss, hok, hset, hget]

theorem Callers.oneExchange_posts {σ : Type} (c₀ c₁ : σ) (tok : String) (n₀ : Nat)
    (s : Callers σ) (h : s.oneExchange c₀ c₁ tok n₀) :
    s.world.posts ≤ n₀ + 1 ∧
    (∀ o₁ o₂, s.first = Pc.done o₁ → s.second = Pc.done o₂ →
      o₁ = Outcome.returned (tok, none) ∧ o₂ = Outcome.returned (tok, none) ∧
      s.world.posts = n₀ + 1 ∧ s.world.locked = false ∧ s.world.cache = c₁) := by
  unfold Callers.oneExchange at h
  simp only [Pc.early] at h
  rcases h with ⟨hc, hl, hp, h1, h2⟩ | ⟨hc, hl, hp, h12⟩ | ⟨hc, hl, hp, h12⟩ |
    ⟨hc, hl, hp, h12⟩ | ⟨hc, hl, hp, h12⟩
  · refine ⟨by omega, fun o₁ o₂ e₁ e₂ => ?_⟩
    rcases h1 with h1 | h1 <;> rw [h1] at e₁ <;> cases e₁
  · refine ⟨by omega, fun o₁ o₂ e₁ e₂ => ?_⟩
    rcases h12 with ⟨h1, _⟩ | ⟨h1, _⟩
    · rw [h1] at e₁; cases e₁
    · rw [h1] at e₂; cases e₂
  · refine ⟨by omega, fun o₁ o₂ e₁ e₂ => ?_⟩
    rcases h12 with ⟨h1, _⟩ | ⟨h1, _⟩
    · rw [h1] at e₁; cases e₁
    · rw [h1] at e₂; cases e₂
  · refine ⟨by omega, fun o₁ o₂ e₁ e₂ => ?_⟩
    rcases h12 with ⟨h1, (h2 | h2) | h2⟩ | ⟨h1, (h2 | h2) | h2⟩
    · rw [h2] at e₂; cases e₂
    · rw [h2] at e₂; cases e₂
    · rw [h1] at e₁; rw [h2] at e₂; cases e₁; cases e₂; exact ⟨rfl, rfl, hp, hl, hc⟩
    · rw [h2] at e₁; cases e₁
    · rw [h2] at e₁; cases e₁
    · rw [h1] at e₂; rw [h2] at e₁; cases e₁; cases e₂; exact ⟨rfl, rfl, hp, hl, hc⟩
  · refine ⟨by omega, fun o₁ o₂ e₁ e₂ => ?_⟩
    rcases h12 with ⟨_, h2⟩ | ⟨_, h2⟩
    · rw [h2] at e₂; cases e₂
    · rw [h2] at e₁; cases e₁

/-- C18, as the claim states it, fails.  When the exchange fails (here with a
transport error), the caller that obtains the lock second finds the cache
still empty and issues a second exchange; the same happens when the exchange
succeeds with `expires_in = 1000`, for which the stored entry has a negative
time-to-live and is not returned by the cache. -/
theorem GetAccessToken_two_callers_counterexample :
    (Callers.run memoryCache (fun _ _ => ("", some "dial tcp: timeout")) (fun _ => none)
        (fun _ v => ({ v with Data := { AccessToken := "T", ExpiresIn := 7200 } }, none)) ⟨"app", "secret", "client_credential", "douyin_openapi_access_token_app", false⟩ ⟨"app", "secret", "client_credential", "douyin_openapi_access_token_app", false⟩
        [true, false, true, true, true, false, false, false] ⟨⟨⟨0, []⟩, false, []⟩, Pc.start, Pc.start⟩).world.posts = 2 ∧
    (Callers.run memoryCache (fun _ _ => ("", some "dial tcp: timeout")) (fun _ => none)
        (fun _ v => ({ v with Data := { AccessToken := "T", ExpiresIn := 7200 } }, none)) ⟨"app", "secret", "client_credential", "douyin_openapi_access_token_app", false⟩ ⟨"app", "secret", "client_credential", "douyin_openapi_access_token_app", false⟩
        [true, false, true, true, true, false, false, false] ⟨⟨⟨0, []⟩, false, []⟩, Pc.start, Pc.start⟩).first =
      Pc.done (Outcome.returned ("", some "dial tcp: timeout")) ∧
    (Callers.run memoryCache (fun _ _ => ("", some "dial tcp: timeout")) (fun _ => none)
        (fun _ v => ({ v with Data := { AccessToken := "T", ExpiresIn := 7200 } }, none)) ⟨"app", "secret", "client_credential", "douyin_openapi_access_token_app", false⟩ ⟨"app", "secret", "client_credential", "douyin_openapi_access_token_app", false⟩
        [true, false, true, true, true, false, false, false] ⟨⟨⟨0, []⟩, false, []⟩, Pc.start, Pc.start⟩).second =
      Pc.done (Outcome.returned ("", some "dial tcp: timeout")) ∧
    (Callers.run memoryCache (fun _ _ => ("body", none)) (fun _ => none)
        (fun _ v => ({ v with Data := { AccessToken := "T", ExpiresIn := 1000 } }, none)) ⟨"app", "secret", "client_credential", "douyin_openapi_access_token_app", false⟩ ⟨"app", "secret", "client_credential", "douyin_openapi_access_token_app", false⟩
        [true, false, true, true, true, false, false, false] ⟨⟨⟨0, []⟩, false, []⟩, Pc.start, Pc.start⟩).world.posts = 2 := by
  refine ⟨by decide, by decide, by decide, by decide⟩

/-- C18, amended. Two callers of `GetAccessToken` on the same cache key start
with no entry in the cache and the lock free; the exchange succeeds, the store
succeeds and the cache then returns the stored token.  Then, in every
interleaving of their atomic actions, at most one network exchange has been
issued; when both have returned, both have returned the token of that one
exchange (the second to obtain the lock found it in the cache); and every
interleaving is completed by twelve more actions, after which both have
returned and exactly one exchange was issued.  Whatever the cache and the
transport do, and also for two different access-token objects, the two callers
are never both in the middle of an exchange. -/
theorem GetAccessToken_two_callers {σ : Type} (C : Cache σ)
    (PostJSON : String → List (String × String) → String × Option String)
    (checkValid : String → Option String)
    (decodeRes : String → ResAccessToken → ResAccessToken × Option String)
    (dd : DefaultAccessToken) (c₀ c₁ : σ) (events₀ : List Event)
    (req : ResAccessToken)
    (hmiss : C.Get c₀ dd.GetCacheKey = none)
    (hok : GetTokenFromServer PostJSON checkValid decodeRes
      (if dd.SandBox then sandBoxTokenURL else accessTokenURL) dd.AppId dd.AppSecret =
      (req, none))
    (hset : C.Set c₀ dd.GetCacheKey (CacheValue.str req.Data.AccessToken)
      (wrapInt64 (wrapInt64 (req.Data.ExpiresIn - 1500) * 1000000000)) = (c₁, none))
    (hget : C.Get c₁ dd.GetCacheKey = some (CacheValue.str req.Data.AccessToken))
    (schedule : List Bool) :
    (Callers.run C PostJSON checkValid decodeRes dd dd schedule
        ⟨⟨c₀, false, events₀⟩, Pc.start, Pc.start⟩).world.posts ≤ (World.posts (⟨c₀, false, events₀⟩ : World σ)) + 1 ∧
    (∀ o₁ o₂,
      (Callers.run C PostJSON checkValid decodeRes dd dd schedule
        ⟨⟨c₀, false, events₀⟩, Pc.start, Pc.start⟩).first = Pc.done o₁ →
      (Callers.run C PostJSON checkValid decodeRes dd dd schedule
        ⟨⟨c₀, false, events₀⟩, Pc.start, Pc.start⟩).second = Pc.done o₂ →
      o₁ = Outcome.returned (req.Data.AccessToken, none) ∧
        o₂ = Outcome.returned (req.Data.AccessToken, none) ∧
        (Callers.run C PostJSON checkValid decodeRes dd dd schedule
        ⟨⟨c₀, false, events₀⟩, Pc.start, Pc.start⟩).world.posts = (World.posts (⟨c₀, false, events₀⟩ : World σ)) + 1) ∧
    ((Callers.run C PostJSON checkValid decodeRes dd dd
        (schedule ++ [true, true, true, true, false, false, false, false, true, true, true, true])
        ⟨⟨c₀, false, events₀⟩, Pc.start, Pc.start⟩).first = Pc.done (Outcome.returned (req.Data.AccessToken, none)) ∧
      (Callers.run C PostJSON checkValid decodeRes dd dd
        (schedule ++ [true, true, true, true, false, false, false, false, true, true, true, true])
        ⟨⟨c₀, false, events₀⟩, Pc.start, Pc.start⟩).second = Pc.done (Outcome.returned (req.Data.AccessToken, none)) ∧
      (Callers.run C PostJSON checkValid decodeRes dd dd
        (schedule ++ [true, true, true, true, false, false, false, false, true, true, true, true])
        ⟨⟨c₀, false, events₀⟩, Pc.start, Pc.start⟩).world.posts = (World.posts (⟨c₀, false, events₀⟩ : World σ)) + 1) ∧
    (∀ (C' : Cache σ) (PostJSON' : String → List (String × String) → String × Option String)
        (checkValid' : String → Option String)
        (decodeRes' : String → ResAccessToken → ResAccessToken × Option String)
        (dd₁ dd₂ : DefaultAccessToken) (w : World σ) (schedule' : List Bool),
      w.locked = false →
      ¬ ((Callers.run C' PostJSON' checkValid' decodeRes' dd₁ dd₂ schedule'
            ⟨w, Pc.start, Pc.start⟩).first = Pc.exchanging ∧
          (Callers.run C' PostJSON' checkValid' decodeRes' dd₁ dd₂ schedule'
            ⟨w, Pc.start, Pc.start⟩).second = Pc.exchanging)) := by
  have hinit : (⟨⟨c₀, false, events₀⟩, Pc.start, Pc.start⟩ : Callers σ).oneExchange c₀ c₁ req.Data.AccessToken (World.posts (⟨c₀, false, events₀⟩ : World σ)) :=
    Or.inl ⟨rfl, rfl, rfl, Or.inl rfl, Or.inl rfl⟩
  have hrun := Callers.run_oneExchange C PostJSON checkValid decodeRes dd c₀ c₁ req _
    hmiss hok hset hget schedule _ hinit
  have hfin := Callers.oneExchange_finish C PostJSON checkValid decodeRes dd c₀ c₁ req _
    hmiss hok hset hget _ hrun
  have hrunT := Callers.run_oneExchange C PostJSON checkValid decodeRes dd c₀ c₁ req _
    hmiss hok hset hget [true, true, true, true, false, false, false, false, true, true, true, true] _ hrun
  have happ : (Callers.run C PostJSON checkValid decodeRes dd dd
        (schedule ++ [true, true, true, true, false, false, false, false, true, true, true, true])
        ⟨⟨c₀, false, events₀⟩, Pc.start, Pc.start⟩) =
      Callers.run C PostJSON checkValid decodeRes dd dd [true, true, true, true, false, false, false, false, true, true, true, true] (Callers.run C PostJSON checkValid decodeRes dd dd schedule
        ⟨⟨c₀, false, events₀⟩, Pc.start, Pc.start⟩) := by
    unfold Callers.run
    rw [List.foldl_append]
  have hp := Callers.oneExchange_posts c₀ c₁ req.Data.AccessToken _ _ hrun
  have hpT := Callers.oneExchange_posts c₀ c₁ req.Data.AccessToken _ _ hrunT
  refine ⟨hp.1, fun o₁ o₂ e₁ e₂ => ?_, ?_, ?_⟩
  · have h := hp.2 o₁ o₂ e₁ e₂
    exact ⟨h.1, h.2.1, h.2.2.1⟩
  · rw [happ]
    exact ⟨hfin.1, hfin.2, (hpT.2 _ _ hfin.1 hfin.2).2.2.1⟩
  · intro C' PostJSON' checkValid' decodeRes' dd₁ dd₂ w schedule' hfree
    exact Callers.run_not_both_exchanging C' PostJSON' checkValid' decodeRes' dd₁ dd₂ schedule'
      w hfree

theorem GetAccessToken_two_callers_witness :
    (Callers.run memoryCache (fun _ _ => ("body", none)) (fun _ => none)
        (fun _ v => ({ v with Data := { AccessToken := "T", ExpiresIn := 7200 } }, none)) ⟨"app", "secret", "client_credential", "douyin_openapi_access_token_app", false⟩ ⟨"app", "secret", "client_credential", "douyin_openapi_access_token_app", false⟩
        ([true, false, false, true, true, false, true] ++ [true, true, true, true, false, false, false, false, true, true, true, true])
        ⟨⟨⟨0, []⟩, false, []⟩, Pc.start, Pc.start⟩).first = Pc.done (Outcome.returned ("T", none)) ∧
    (Callers.run memoryCache (fun _ _ => ("body", none)) (fun _ => none)
        (fun _ v => ({ v with Data := { AccessToken := "T", ExpiresIn := 7200 } }, none)) ⟨"app", "secret", "client_credential", "douyin_openapi_access_token_app", false⟩ ⟨"app", "secret", "client_credential", "douyin_openapi_access_token_app", false⟩
        ([true, false, false, true, true, false, true] ++ [true, true, true, true, false, false, false, false, true, true, true, true])
        ⟨⟨⟨0, []⟩, false, []⟩, Pc.start, Pc.start⟩).second = Pc.done (Outcome.returned ("T", none)) ∧
    (Callers.run memoryCache (fun _ _ => ("body", none)) (fun _ => none)
        (fun _ v => ({ v with Data := { AccessToken := "T", ExpiresIn := 7200 } }, none)) ⟨"app", "secret", "client_credential", "douyin_openapi_access_token_app", false⟩ ⟨"app", "secret", "client_credential", "douyin_openapi_access_token_app", false⟩
        ([true, false, false, true, true, false, true] ++ [true, true, true, true, false, false, false, false, true, true, true, true])
        ⟨⟨⟨0, []⟩, false, []⟩, Pc.start, Pc.start⟩).world.posts = 0 + 1 :=
  (GetAccessToken_two_callers memoryCache (fun _ _ => ("body", none)) (fun _ => none)
    (fun _ v => ({ v with Data := { AccessToken := "T", ExpiresIn := 7200 } }, none)) ⟨"app", "secret", "client_credential", "douyin_openapi_access_token_app", false⟩ ⟨0, []⟩ ⟨0, [("douyin_openapi_access_token_app", CacheValue.str "T", 5700000000000)]⟩ []
    { Data := { AccessToken := "T", ExpiresIn := 7200 } }
    (by decide) rfl (by decide) (by decide) [true, false, false, true, true, false, true]).2.2.1

/-! ## The candidate string of a field -/

theorem dropWhile_eq_self_of_head {α : Type} (p : α → Bool) :
    ∀ l : List α, (∀ x ∈ l.head?, p x = false) → l.dropWhile p = l
  | [], _ => rfl
  | x :: xs, h => by
    have hx : p x = false := h x (by simp)
    simp [List.dropWhile_cons, hx]

theorem head_dropWhile_not {α : Type} (p : α → Bool) (l : List α) :
    ∀ x ∈ (l.dropWhile p).head?, p x = false := by
  induction l with
  | nil => simp
  | cons y ys ih =>
    intro x hx
    rw [List.dropWhile_cons] at hx
    by_cases hy : p y = true
    · rw [if_pos hy] at hx; exact ih x hx
    · rw [if_neg hy] at hx
      simp only [List.head?_cons, Option.mem_def, Option.some.injEq] at hx
      subst hx; simpa using hy

theorem TrimSpace_idem (s : String) : TrimSpace (TrimSpace s) = TrimSpace s := by
  unfold TrimSpace
  congr 1
  show (((((s.data.dropWhile isSpace).reverse.dropWhile isSpace).reverse).dropWhile
    isSpace).reverse.dropWhile isSpace).reverse =
    ((s.data.dropWhile isSpace).reverse.dropWhile isSpace).reverse
  set a := s.data.dropWhile isSpace with ha
  set b := a.reverse.dropWhile isSpace with hb
  have hbhead : ∀ x ∈ b.head?, isSpace x = false := head_dropWhile_not _ _
  have hahead : ∀ x ∈ a.head?, isSpace x = false := head_dropWhile_not _ _
  have hsuf : b <:+ a.reverse := List.dropWhile_suffix _
  have hpre : b.reverse <+: a := by
    have := List.reverse_prefix.2 hsuf
    simpa using this
  have hrhead : ∀ x ∈ b.reverse.head?, isSpace x = false := by
    intro x hx
    obtain ⟨t, ht⟩ := hpre
    apply hahead x
    rw [← ht]
    cases hbr : b.reverse with
    | nil => rw [hbr] at hx; simp at hx
    | cons y ys => rw [hbr] at hx; simpa using hx
  rw [dropWhile_eq_self_of_head _ _ hrhead, List.reverse_reverse,
    dropWhile_eq_self_of_head _ _ hbhead]

theorem signValue_trimmed (v : JValue) : TrimSpace (signValue v) = signValue v := by
  unfold signValue
  exact TrimSpace_idem _

theorem append_singleton_ne_self {α : Type} (l : List α) (x : α) : l ++ [x] ≠ l := by
  intro h
  have := congrArg List.length h
  simp at this

theorem signStep_kept_key (acc : List String) (k : String) (v : JValue)
    (hk : isSkippedKey k = false) :
    (signStep acc (k, v) = acc ↔ (signValue v = "" ∨ signValue v = "null")) ∧
    ((signValue v ≠ "" ∧ signValue v ≠ "null") → signStep acc (k, v) = acc ++ [signValue v]) := by
  unfold signStep
  simp only [hk, Bool.false_eq_true, if_false]
  by_cases h : signValue v = "" ∨ signValue v = "null"
  · have hb : (signValue v == "" || signValue v == "null") = true := by
      rcases h with h | h <;> simp [h]
    rw [if_pos hb]
    exact ⟨⟨fun _ => h, fun _ => rfl⟩, fun hne => by rcases h with h | h <;> simp [h] at hne⟩
  · have hb : ¬ (signValue v == "" || signValue v == "null") = true := by
      intro hb
      apply h
      simpa using hb
    rw [if_neg hb]
    exact ⟨⟨fun e => absurd e (append_singleton_ne_self _ _), fun e => absurd e h⟩, fun _ => rfl⟩


/-- C21, as the claim states it, fails.  For the string value ` "x" ` (a quoted
text with a blank on either side) `GenerateSign` signs `x`, because it removes
the white space before it looks for the quotes, whereas removing the quotes
first and the white space after leaves `"x"`; for ` "null" ` the code skips the
field, whereas the stated order keeps `"null"`.  And a field named `app_id` is
skipped whatever its value is. -/
theorem signValue_order_counterexample :
    signValue (.str " \"x\" ") = "x" ∧ candidateAsSpecified (.str " \"x\" ") = "\"x\"" ∧
    signStep [] ("extra", .str " \"null\" ") = [] ∧
    candidateAsSpecified (.str " \"null\" ") = "\"null\"" ∧
    signStep [] ("app_id", .str "abc") = [] ∧ signValue (.str "abc") = "abc" := by
  decide

/-- C21, amended. The candidate string `GenerateSign` derives from a field
value is the value coerced to a string, with the surrounding white space
removed, then one pair of surrounding double quotes removed, then the
surrounding white space removed again: it is what the stated order (quotes,
then white space) gives for the coerced string without its surrounding white
space, and it is what the stated order gives for the value itself when the
coerced string has no surrounding white space.  No white space surrounds the
result.  A field whose name is not one of the six excluded names is skipped
exactly when that result is empty or the literal `null`, and otherwise the
result is appended to the candidates. -/
theorem signValue_space_quotes_space (v : JValue) :
    signValue v = candidateAsSpecified (.str (TrimSpace (sprintV v))) ∧
    (TrimSpace (sprintV v) = sprintV v → signValue v = candidateAsSpecified v) ∧
    TrimSpace (signValue v) = signValue v ∧
    (∀ (k : String) (paramsArr : List String), isSkippedKey k = false →
      (signStep paramsArr (k, v) = paramsArr ↔ (signValue v = "" ∨ signValue v = "null")) ∧
      ((signValue v ≠ "" ∧ signValue v ≠ "null") →
        signStep paramsArr (k, v) = paramsArr ++ [signValue v])) := by
  refine ⟨?_, fun h => ?_, ?_, fun k paramsArr hk => signStep_kept_key paramsArr k v hk⟩
  · unfold signValue candidateAsSpecified
    simp only [sprintV]
  · unfold signValue candidateAsSpecified
    simp only [h]
  · unfold signValue
    exact TrimSpace_idem _

theorem signValue_space_quotes_space_witness :
    signValue (.str "\"N1\"") = candidateAsSpecified (.str "\"N1\"") ∧
    signStep ["a"] ("extra", .str "\"N1\"") = ["a"] ++ [signValue (.str "\"N1\"")] :=
  ⟨(signValue_space_quotes_space (.str "\"N1\"")).2.1 (by decide),
    ((signValue_space_quotes_space (.str "\"N1\"")).2.2.2 "extra" ["a"] (by decide)).2
      (by decide)⟩

/-! ## What the signed operations send -/

theorem mapOf_subset {α : Type} : ∀ (l : List (String × α)), ∀ kv ∈ mapOf l, kv ∈ l
  | [], _, h => by simp [mapOf] at h
  | x :: rest, kv, h => by
    unfold mapOf at h
    by_cases hany : rest.any (fun kv' => kv'.1 == x.1) = true
    · rw [if_pos hany] at h
      exact List.mem_cons_of_mem _ (mapOf_subset rest kv h)
    · rw [if_neg hany] at h
      rcases List.mem_cons.1 h with h | h
      · exact h ▸ List.mem_cons_self _ _
      · exact List.mem_cons_of_mem _ (mapOf_subset rest kv h)

theorem mapOf_cons {α : Type} (x : String × α) (rest : List (String × α)) :
    mapOf (x :: rest) =
      if rest.any (fun kv' => kv'.1 == x.1) then mapOf rest else x :: mapOf rest := by
  rw [mapOf]

theorem mapOf_filter_key {α : Type} (p : String → Bool) :
    ∀ l : List (String × α),
      (mapOf l).filter (fun kv => p kv.1) = mapOf (l.filter (fun kv => p kv.1))
  | [] => rfl
  | x :: rest => by
    have ih := mapOf_filter_key p rest
    by_cases hp : p x.1 = true
    · have hany : (rest.filter (fun kv => p kv.1)).any (fun kv' => kv'.1 == x.1) =
          rest.any (fun kv' => kv'.1 == x.1) := by
        rw [List.any_filter]
        congr 1
        funext kv'
        by_cases he : kv'.1 = x.1
        · simp [he, hp]
        · simp [he]
      rw [List.filter_cons, if_pos hp, mapOf_cons, mapOf_cons, hany]
      by_cases ha : rest.any (fun kv' => kv'.1 == x.1) = true
      · rw [if_pos ha, if_pos ha, ih]
      · rw [if_neg ha, if_neg ha, List.filter_cons, if_pos hp, ih]
    · rw [List.filter_cons, if_neg hp, ← ih, mapOf_cons]
      by_cases ha : rest.any (fun kv' => kv'.1 == x.1) = true
      · rw [if_pos ha]
      · rw [if_neg ha, List.filter_cons, if_neg hp]

theorem candidates_mapOf_filter (p : String → Bool) (l : List (String × JValue))
    (h : ∀ kv ∈ l, p kv.1 = false → candidateOf kv = none) :
    (mapOf l).filterMap candidateOf =
      (mapOf (l.filter (fun kv => p kv.1))).filterMap candidateOf := by
  rw [← mapOf_filter_key]
  have hsub := mapOf_subset l
  generalize mapOf l = m at hsub
  induction m with
  | nil => rfl
  | cons x rest ih =>
    have ih' := ih (fun kv hkv => hsub kv (List.mem_cons_of_mem _ hkv))
    by_cases hp : p x.1 = true
    · rw [List.filter_cons, if_pos hp, List.filterMap_cons, List.filterMap_cons, ih']
    · rw [List.filter_cons, if_neg hp, List.filterMap_cons,
        h x (hsub x (List.mem_cons_self _ _)) (by simpa using hp)]
      exact ih'

theorem GenerateSign_congr_candidates (md5Sum : String → List Byte) (d : DouYinOpenApi)
    (members₁ members₂ : List (String × JValue))
    (h : (mapOf members₁).filterMap candidateOf = (mapOf members₂).filterMap candidateOf) :
    GenerateSign md5Sum d (some (.obj members₁)) =
      GenerateSign md5Sum d (some (.obj members₂)) := by
  unfold GenerateSign unmarshalMap
  simp only
  unfold signString
  rw [signParts_eq, signParts_eq, h]

theorem GenerateSign_congr_without_sign (md5Sum : String → List Byte) (d : DouYinOpenApi)
    (members₁ members₂ : List (String × JValue))
    (h : members₁.filter (fun kv => kv.1 != "sign") =
      members₂.filter (fun kv => kv.1 != "sign")) :
    GenerateSign md5Sum d (some (.obj members₁)) =
      GenerateSign md5Sum d (some (.obj members₂)) := by
  have hskip : ∀ l : List (String × JValue), ∀ kv ∈ l,
      (fun k : String => k != "sign") kv.1 = false → candidateOf kv = none := by
    intro l kv _ hk
    have hk' : kv.1 = "sign" := by simpa using hk
    exact candidateOf_of_skipped kv.1 kv.2 (by rw [hk']; decide)
  apply GenerateSign_congr_candidates
  rw [candidates_mapOf_filter (fun k => k != "sign") members₁ (hskip members₁),
    candidates_mapOf_filter (fun k => k != "sign") members₂ (hskip members₂), h]

theorem filter_omitString_sign (v : String) :
    (omitString "sign" v).filter (fun kv => kv.1 != "sign") = [] := by
  unfold omitString
  split <;> simp

theorem lookup_omitString_append (key k v : String) (rest : List (String × JValue)) :
    (omitString k v ++ rest).lookup key =
      if key = k ∧ v ≠ "" then some (.str v) else rest.lookup key := by
  unfold omitString
  by_cases hv : v = ""
  · simp [hv]
  · by_cases hk : key = k
    · simp [hv, hk, List.lookup]
    · have : (key == k) = false := by simpa using hk
      simp [hv, hk, List.lookup, this]

theorem lookup_omitString (key k v : String) :
    (omitString k v).lookup key = if key = k ∧ v ≠ "" then some (.str v) else none := by
  have h := lookup_omitString_append key k v []
  rwa [List.append_nil, List.lookup_nil] at h

theorem lookup_cons (key k : String) (v : JValue) (rest : List (String × JValue)) :
    ((k, v) :: rest).lookup key = if key = k then some v else rest.lookup key := by
  by_cases hk : key = k
  · simp [hk, List.lookup]
  · have : (key == k) = false := by simpa using hk
    simp [hk, List.lookup, this]

theorem lookup_omitInt_append (key k : String) (n : Int) (rest : List (String × JValue)) :
    (omitInt k n ++ rest).lookup key =
      if key = k ∧ n ≠ 0 then some (.num (float64OfInt n)) else rest.lookup key := by
  unfold omitInt
  by_cases hn : n = 0
  · simp [hn]
  · simp [hn, lookup_cons]

theorem lookup_omitInt (key k : String) (n : Int) :
    (omitInt k n).lookup key =
      if key = k ∧ n ≠ 0 then some (.num (float64OfInt n)) else none := by
  have h := lookup_omitInt_append key k n []
  rwa [List.append_nil, List.lookup_nil] at h

theorem lookup_keepString_append (key k v : String) (rest : List (String × JValue)) :
    (keepString k v ++ rest).lookup key =
      if key = k then some (.str v) else rest.lookup key := by
  unfold keepString
  simp [lookup_cons]

theorem lookup_keepString (key k v : String) :
    (keepString k v).lookup key = if key = k then some (.str v) else none := by
  unfold keepString
  simp [lookup_cons]


theorem CreateOrderParams_sign_irrelevant (md5Sum : String → List Byte) (d : DouYinOpenApi)
    (p : CreateOrderParams) (s : String) :
    GenerateSign md5Sum d (some ({ p with Sign := s } : CreateOrderParams).marshal) =
      GenerateSign md5Sum d (some p.marshal) := by
  unfold CreateOrderParams.marshal
  apply GenerateSign_congr_without_sign
  simp only [List.filter_append, filter_omitString_sign]

theorem CreateOrderParams_member_app_id (p : CreateOrderParams) :
    p.marshal.stringMember "app_id" = if p.AppId = "" then none else some p.AppId := by
  unfold CreateOrderParams.marshal JValue.stringMember
  simp only [List.append_assoc, List.singleton_append, lookup_omitString_append, lookup_omitString,
    lookup_omitInt_append, lookup_omitInt, lookup_keepString_append, lookup_keepString, lookup_cons]
  by_cases h : p.AppId = "" <;> simp [h]

theorem CreateOrderParams_member_sign (p : CreateOrderParams) :
    p.marshal.stringMember "sign" = if p.Sign = "" then none else some p.Sign := by
  unfold CreateOrderParams.marshal JValue.stringMember
  simp only [List.append_assoc, List.singleton_append, lookup_omitString_append, lookup_omitString,
    lookup_omitInt_append, lookup_omitInt, lookup_keepString_append, lookup_keepString, lookup_cons]
  by_cases h : p.Sign = "" <;> simp [h]

theorem QueryOrderParams_sign_irrelevant (md5Sum : String → List Byte) (d : DouYinOpenApi)
    (p : QueryOrderParams) (s : String) :
    GenerateSign md5Sum d (some ({ p with Sign := s } : QueryOrderParams).marshal) =
      GenerateSign md5Sum d (some p.marshal) := by
  unfold QueryOrderParams.marshal
  apply GenerateSign_congr_without_sign
  simp only [List.filter_append, filter_omitString_sign]

theorem QueryOrderParams_member_app_id (p : QueryOrderParams) :
    p.marshal.stringMember "app_id" = if p.AppId = "" then none else some p.AppId := by
  unfold QueryOrderParams.marshal JValue.stringMember
  simp only [List.append_assoc, List.singleton_append, lookup_omitString_append, lookup_omitString,
    lookup_omitInt_append, lookup_omitInt, lookup_keepString_append, lookup_keepString, lookup_cons]
  by_cases h : p.AppId = "" <;> simp [h]

theorem QueryOrderParams_member_sign (p : QueryOrderParams) :
    p.marshal.stringMember "sign" = if p.Sign = "" then none else some p.Sign := by
  unfold QueryOrderParams.marshal JValue.stringMember
  simp only [List.append_assoc, List.singleton_append, lookup_omitString_append, lookup_omitString,
    lookup_omitInt_append, lookup_omitInt, lookup_keepString_append, lookup_keepString, lookup_cons]
  by_cases h : p.Sign = "" <;> simp [h]

theorem CreateRefundParams_sign_irrelevant (md5Sum : String → List Byte) (d : DouYinOpenApi)
    (p : CreateRefundParams) (s : String) :
    GenerateSign md5Sum d (some ({ p with Sign := s } : CreateRefundParams).marshal) =
      GenerateSign md5Sum d (some p.marshal) := by
  unfold CreateRefundParams.marshal
  apply GenerateSign_congr_without_sign
  simp only [List.filter_append, filter_omitString_sign]

theorem CreateRefundParams_member_app_id (p : CreateRefundParams) :
    p.marshal.stringMember "app_id" = if p.AppId = "" then none else some p.AppId := by
  unfold CreateRefundParams.marshal JValue.stringMember
  simp only [List.append_assoc, List.singleton_append, lookup_omitString_append, lookup_omitString,
    lookup_omitInt_append, lookup_omitInt, lookup_keepString_append, lookup_keepString, lookup_cons]
  by_cases h : p.AppId = "" <;> simp [h]

theorem CreateRefundParams_member_sign (p : CreateRefundParams) :
    p.marshal.stringMember "sign" = if p.Sign = "" then none else some p.Sign := by
  unfold CreateRefundParams.marshal JValue.stringMember
  simp only [List.append_assoc, List.singleton_append, lookup_omitString_append, lookup_omitString,
    lookup_omitInt_append, lookup_omitInt, lookup_keepString_append, lookup_keepString, lookup_cons]
  by_cases h : p.Sign = "" <;> simp [h]

theorem QueryRefundParams_sign_irrelevant (md5Sum : String → List Byte) (d : DouYinOpenApi)
    (p : QueryRefundParams) (s : String) :
    GenerateSign md5Sum d (some ({ p with Sign := s } : QueryRefundParams).marshal) =
      GenerateSign md5Sum d (some p.marshal) := by
  unfold QueryRefundParams.marshal
  apply GenerateSign_congr_without_sign
  simp only [List.filter_append, filter_omitString_sign]

theorem QueryRefundParams_member_app_id (p : QueryRefundParams) :
    p.marshal.stringMember "app_id" = if p.AppId = "" then none else some p.AppId := by
  unfold QueryRefundParams.marshal JValue.stringMember
  simp only [List.append_assoc, List.singleton_append, lookup_omitString_append, lookup_omitString,
    lookup_omitInt_append, lookup_omitInt, lookup_keepString_append, lookup_keepString, lookup_cons]
  by_cases h : p.AppId = "" <;> simp [h]

theorem QueryRefundParams_member_sign (p : QueryRefundParams) :
    p.marshal.stringMember "sign" = if p.Sign = "" then none else some p.Sign := by
  unfold QueryRefundParams.marshal JValue.stringMember
  simp only [List.append_assoc, List.singleton_append, lookup_omitString_append, lookup_omitString,
    lookup_omitInt_append, lookup_omitInt, lookup_keepString_append, lookup_keepString, lookup_cons]
  by_cases h : p.Sign = "" <;> simp [h]

theorem SettleParams_sign_irrelevant (md5Sum : String → List Byte) (d : DouYinOpenApi)
    (p : DouyinOpenapi.SettleParams) (s : String) :
    GenerateSign md5Sum d (some ({ p with Sign := s } : DouyinOpenapi.SettleParams).marshal) =
      GenerateSign md5Sum d (some p.marshal) := by
  unfold SettleParams.marshal
  apply GenerateSign_congr_without_sign
  simp only [List.filter_append, filter_omitString_sign]

theorem SettleParams_member_app_id (p : DouyinOpenapi.SettleParams) :
    p.marshal.stringMember "app_id" = if p.AppId = "" then none else some p.AppId := by
  unfold SettleParams.marshal JValue.stringMember
  simp only [List.append_assoc, List.singleton_append, lookup_omitString_append, lookup_omitString,
    lookup_omitInt_append, lookup_omitInt, lookup_keepString_append, lookup_keepString, lookup_cons]
  by_cases h : p.AppId = "" <;> simp [h]

theorem SettleParams_member_sign (p : DouyinOpenapi.SettleParams) :
    p.marshal.stringMember "sign" = if p.Sign = "" then none else some p.Sign := by
  unfold SettleParams.marshal JValue.stringMember
  simp only [List.append_assoc, List.singleton_append, lookup_omitString_append, lookup_omitString,
    lookup_omitInt_append, lookup_omitInt, lookup_keepString_append, lookup_keepString, lookup_cons]
  by_cases h : p.Sign = "" <;> simp [h]

theorem QuerySettleParams_sign_irrelevant (md5Sum : String → List Byte) (d : DouYinOpenApi)
    (p : QuerySettleParams) (s : String) :
    GenerateSign md5Sum d (some ({ p with Sign := s } : QuerySettleParams).marshal) =
      GenerateSign md5Sum d (some p.marshal) := by
  unfold QuerySettleParams.marshal
  apply GenerateSign_congr_without_sign
  simp only [List.filter_append, filter_omitString_sign]

theorem QuerySettleParams_member_app_id (p : QuerySettleParams) :
    p.marshal.stringMember "app_id" = if p.AppId = "" then none else some p.AppId := by
  unfold QuerySettleParams.marshal JValue.stringMember
  simp only [List.append_assoc, List.singleton_append, lookup_omitString_append, lookup_omitString,
    lookup_omitInt_append, lookup_omitInt, lookup_keepString_append, lookup_keepString, lookup_cons]
  by_cases h : p.AppId = "" <;> simp [h]

theorem QuerySettleParams_member_sign (p : QuerySettleParams) :
    p.marshal.stringMember "sign" = if p.Sign = "" then none else some p.Sign := by
  unfold QuerySettleParams.marshal JValue.stringMember
  simp only [List.append_assoc, List.singleton_append, lookup_omitString_append, lookup_omitString,
    lookup_omitInt_append, lookup_omitInt, lookup_keepString_append, lookup_keepString, lookup_cons]
  by_cases h : p.Sign = "" <;> simp [h]

theorem UnsettleAmountParams_sign_irrelevant (md5Sum : String → List Byte) (d : DouYinOpenApi)
    (p : UnsettleAmountParams) (s : String) :
    GenerateSign md5Sum d (some ({ p with Sign := s } : UnsettleAmountParams).marshal) =
      GenerateSign md5Sum d (some p.marshal) := by
  unfold UnsettleAmountParams.marshal
  apply GenerateSign_congr_without_sign
  simp only [List.filter_append, filter_omitString_sign]

theorem UnsettleAmountParams_member_app_id (p : UnsettleAmountParams) :
    p.marshal.stringMember "app_id" = if p.AppId = "" then none else some p.AppId := by
  unfold UnsettleAmountParams.marshal JValue.stringMember
  simp only [List.append_assoc, List.singleton_append, lookup_omitString_append, lookup_omitString,
    lookup_omitInt_append, lookup_omitInt, lookup_keepString_append, lookup_keepString, lookup_cons]
  by_cases h : p.AppId = "" <;> simp [h]

theorem UnsettleAmountParams_member_sign (p : UnsettleAmountParams) :
    p.marshal.stringMember "sign" = if p.Sign = "" then none else some p.Sign := by
  unfold UnsettleAmountParams.marshal JValue.stringMember
  simp only [List.append_assoc, List.singleton_append, lookup_omitString_append, lookup_omitString,
    lookup_omitInt_append, lookup_omitInt, lookup_keepString_append, lookup_keepString, lookup_cons]
  by_cases h : p.Sign = "" <;> simp [h]

theorem CreateReturnParams_sign_irrelevant (md5Sum : String → List Byte) (d : DouYinOpenApi)
    (p : CreateReturnParams) (s : String) :
    GenerateSign md5Sum d (some ({ p with Sign := s } : CreateReturnParams).marshal) =
      GenerateSign md5Sum d (some p.marshal) := by
  unfold CreateReturnParams.marshal
  apply GenerateSign_congr_without_sign
  simp only [List.filter_append, filter_omitString_sign]

theorem CreateReturnParams_member_app_id (p : CreateReturnParams) :
    p.marshal.stringMember "app_id" = if p.AppId = "" then none else some p.AppId := by
  unfold CreateReturnParams.marshal JValue.stringMember
  simp only [List.append_assoc, List.singleton_append, lookup_omitString_append, lookup_omitString,
    lookup_omitInt_append, lookup_omitInt, lookup_keepString_append, lookup_keepString, lookup_cons]
  by_cases h : p.AppId = "" <;> simp [h]

theorem CreateReturnParams_member_sign (p : CreateReturnParams) :
    p.marshal.stringMember "sign" = if p.Sign = "" then none else some p.Sign := by
  unfold CreateReturnParams.marshal JValue.stringMember
  simp only [List.append_assoc, List.singleton_append, lookup_omitString_append, lookup_omitString,
    lookup_omitInt_append, lookup_omitInt, lookup_keepString_append, lookup_keepString, lookup_cons]
  by_cases h : p.Sign = "" <;> simp [h]

theorem QueryReturnParams_sign_irrelevant (md5Sum : String → List Byte) (d : DouYinOpenApi)
    (p : QueryReturnParams) (s : String) :
    GenerateSign md5Sum d (some ({ p with Sign := s } : QueryReturnParams).marshal) =
      GenerateSign md5Sum d (some p.marshal) := by
  unfold QueryReturnParams.marshal
  apply GenerateSign_congr_without_sign
  simp only [List.filter_append, filter_omitString_sign]

theorem QueryReturnParams_member_app_id (p : QueryReturnParams) :
    p.marshal.stringMember "app_id" = if p.AppId = "" then none else some p.AppId := by
  unfold QueryReturnParams.marshal JValue.stringMember
  simp only [List.append_assoc, List.singleton_append, lookup_omitString_append, lookup_omitString,
    lookup_omitInt_append, lookup_omitInt, lookup_keepString_append, lookup_keepString, lookup_cons]
  by_cases h : p.AppId = "" <;> simp [h]

theorem QueryReturnParams_member_sign (p : QueryReturnParams) :
    p.marshal.stringMember "sign" = if p.Sign = "" then none else some p.Sign := by
  unfold QueryReturnParams.marshal JValue.stringMember
  simp only [List.append_assoc, List.singleton_append, lookup_omitString_append, lookup_omitString,
    lookup_omitInt_append, lookup_omitInt, lookup_keepString_append, lookup_keepString, lookup_cons]
  by_cases h : p.Sign = "" <;> simp [h]

theorem QueryMerchantBalanceParams_sign_irrelevant (md5Sum : String → List Byte) (d : DouYinOpenApi)
    (p : QueryMerchantBalanceParams) (s : String) :
    GenerateSign md5Sum d (some ({ p with Sign := s } : QueryMerchantBalanceParams).marshal) =
      GenerateSign md5Sum d (some p.marshal) := by
  unfold QueryMerchantBalanceParams.marshal
  apply GenerateSign_congr_without_sign
  simp only [List.filter_append, filter_omitString_sign]

theorem QueryMerchantBalanceParams_member_app_id (p : QueryMerchantBalanceParams) :
    p.marshal.stringMember "app_id" = if p.AppId = "" then none else some p.AppId := by
  unfold QueryMerchantBalanceParams.marshal JValue.stringMember
  simp only [List.append_assoc, List.singleton_append, lookup_omitString_append, lookup_omitString,
    lookup_omitInt_append, lookup_omitInt, lookup_keepString_append, lookup_keepString, lookup_cons]
  by_cases h : p.AppId = "" <;> simp [h]

theorem QueryMerchantBalanceParams_member_sign (p : QueryMerchantBalanceParams) :
    p.marshal.stringMember "sign" = if p.Sign = "" then none else some p.Sign := by
  unfold QueryMerchantBalanceParams.marshal JValue.stringMember
  simp only [List.append_assoc, List.singleton_append, lookup_omitString_append, lookup_omitString,
    lookup_omitInt_append, lookup_omitInt, lookup_keepString_append, lookup_keepString, lookup_cons]
  by_cases h : p.Sign = "" <;> simp [h]

theorem MerchantWithdrawParams_sign_irrelevant (md5Sum : String → List Byte) (d : DouYinOpenApi)
    (p : MerchantWithdrawParams) (s : String) :
    GenerateSign md5Sum d (some ({ p with Sign := s } : MerchantWithdrawParams).marshal) =
      GenerateSign md5Sum d (some p.marshal) := by
  unfold MerchantWithdrawParams.marshal
  apply GenerateSign_congr_without_sign
  simp only [List.filter_append, filter_omitString_sign]

theorem MerchantWithdrawParams_member_app_id (p : MerchantWithdrawParams) :
    p.marshal.stringMember "app_id" = if p.AppId = "" then none else some p.AppId := by
  unfold MerchantWithdrawParams.marshal JValue.stringMember
  simp only [List.append_assoc, List.singleton_append, lookup_omitString_append, lookup_omitString,
    lookup_omitInt_append, lookup_omitInt, lookup_keepString_append, lookup_keepString, lookup_cons]
  by_cases h : p.AppId = "" <;> simp [h]

theorem MerchantWithdrawParams_member_sign (p : MerchantWithdrawParams) :
    p.marshal.stringMember "sign" = if p.Sign = "" then none else some p.Sign := by
  unfold MerchantWithdrawParams.marshal JValue.stringMember
  simp only [List.append_assoc, List.singleton_append, lookup_omitString_append, lookup_omitString,
    lookup_omitInt_append, lookup_omitInt, lookup_keepString_append, lookup_keepString, lookup_cons]
  by_cases h : p.Sign = "" <;> simp [h]

theorem QueryWithdrawOrderParams_sign_irrelevant (md5Sum : String → List Byte) (d : DouYinOpenApi)
    (p : QueryWithdrawOrderParams) (s : String) :
    GenerateSign md5Sum d (some ({ p with Sign := s } : QueryWithdrawOrderParams).marshal) =
      GenerateSign md5Sum d (some p.marshal) := by
  unfold QueryWithdrawOrderParams.marshal
  apply GenerateSign_congr_without_sign
  simp only [List.filter_append, filter_omitString_sign]

theorem QueryWithdrawOrderParams_member_app_id (p : QueryWithdrawOrderParams) :
    p.marshal.stringMember "app_id" = if p.AppId = "" then none else some p.AppId := by
  unfold QueryWithdrawOrderParams.marshal JValue.stringMember
  simp only [List.append_assoc, List.singleton_append, lookup_omitString_append, lookup_omitString,
    lookup_omitInt_append, lookup_omitInt, lookup_keepString_append, lookup_keepString, lookup_cons]
  by_cases h : p.AppId = "" <;> simp [h]

theorem QueryWithdrawOrderParams_member_sign (p : QueryWithdrawOrderParams) :
    p.marshal.stringMember "sign" = if p.Sign = "" then none else some p.Sign := by
  unfold QueryWithdrawOrderParams.marshal JValue.stringMember
  simp only [List.append_assoc, List.singleton_append, lookup_omitString_append, lookup_omitString,
    lookup_omitInt_append, lookup_omitInt, lookup_keepString_append, lookup_keepString, lookup_cons]
  by_cases h : p.Sign = "" <;> simp [h]

theorem CreateOrder_sends_signed (T : Transport)
    (decode : String → CreateOrderResponse → CreateOrderResponse × Option String)
    (md5Sum : String → List Byte) (d : DouYinOpenApi) (params : CreateOrderParams) :
    ∃ sent : CreateOrderParams,
      (CreateOrder T decode md5Sum d params).2 = [⟨createOrder, sent.marshal, []⟩] ∧
      sent.AppId = d.Config.AppId ∧
      sent.Sign = GenerateSign md5Sum d (some sent.marshal) ∧
      sent.marshal.stringMember "app_id" =
        (if d.Config.AppId = "" then none else some d.Config.AppId) ∧
      sent.marshal.stringMember "sign" =
        (if sent.Sign = "" then none else some sent.Sign) :=
  ⟨{ ({ params with AppId := d.Config.AppId } : CreateOrderParams) with Sign := GenerateSign md5Sum d (some ({ params with AppId := d.Config.AppId } : CreateOrderParams).marshal) },
    rfl, rfl, (CreateOrderParams_sign_irrelevant md5Sum d _ _).symm,
    CreateOrderParams_member_app_id _, CreateOrderParams_member_sign _⟩

theorem QueryOrder_sends_signed (T : Transport)
    (decode : String → QueryOrderResponse → QueryOrderResponse × Option String)
    (md5Sum : String → List Byte) (d : DouYinOpenApi) (outOrderNo thirdpartyId : String) :
    ∃ sent : QueryOrderParams,
      (QueryOrder T decode md5Sum d outOrderNo thirdpartyId).2 = [⟨queryOrder, sent.marshal, []⟩] ∧
      sent.AppId = d.Config.AppId ∧
      sent.Sign = GenerateSign md5Sum d (some sent.marshal) ∧
      sent.marshal.stringMember "app_id" =
        (if d.Config.AppId = "" then none else some d.Config.AppId) ∧
      sent.marshal.stringMember "sign" =
        (if sent.Sign = "" then none else some sent.Sign) :=
  ⟨{ ({ AppId := d.Config.AppId, OutOrderNo := outOrderNo, ThirdpartyId := thirdpartyId } : QueryOrderParams) with Sign := GenerateSign md5Sum d (some ({ AppId := d.Config.AppId, OutOrderNo := outOrderNo, ThirdpartyId := thirdpartyId } : QueryOrderParams).marshal) },
    rfl, rfl, (QueryOrderParams_sign_irrelevant md5Sum d _ _).symm,
    QueryOrderParams_member_app_id _, QueryOrderParams_member_sign _⟩

theorem CreateRefund_sends_signed (T : Transport)
    (decode : String → CreateRefundResponse → CreateRefundResponse × Option String)
    (md5Sum : String → List Byte) (d : DouYinOpenApi) (params : CreateRefundParams) :
    ∃ sent : CreateRefundParams,
      (CreateRefund T decode md5Sum d params).2 = [⟨createRefund, sent.marshal, []⟩] ∧
      sent.AppId = d.Config.AppId ∧
      sent.Sign = GenerateSign md5Sum d (some sent.marshal) ∧
      sent.marshal.stringMember "app_id" =
        (if d.Config.AppId = "" then none else some d.Config.AppId) ∧
      sent.marshal.stringMember "sign" =
        (if sent.Sign = "" then none else some sent.Sign) :=
  ⟨{ ({ params with AppId := d.Config.AppId } : CreateRefundParams) with Sign := GenerateSign md5Sum d (some ({ params with AppId := d.Config.AppId } : CreateRefundParams).marshal) },
    rfl, rfl, (CreateRefundParams_sign_irrelevant md5Sum d _ _).symm,
    CreateRefundParams_member_app_id _, CreateRefundParams_member_sign _⟩

theorem QueryRefund_sends_signed (T : Transport)
    (decode : String → QueryRefundParamsResponse → QueryRefundParamsResponse × Option String)
    (md5Sum : String → List Byte) (d : DouYinOpenApi) (outRefundNo thirdpartyId : String) :
    ∃ sent : QueryRefundParams,
      (QueryRefund T decode md5Sum d outRefundNo thirdpartyId).2 = [⟨queryRefund, sent.marshal, []⟩] ∧
      sent.AppId = d.Config.AppId ∧
      sent.Sign = GenerateSign md5Sum d (some sent.marshal) ∧
      sent.marshal.stringMember "app_id" =
        (if d.Config.AppId = "" then none else some d.Config.AppId) ∧
      sent.marshal.stringMember "sign" =
        (if sent.Sign = "" then none else some sent.Sign) :=
  ⟨{ ({ OutRefundNo := outRefundNo, AppId := d.Config.AppId, ThirdpartyId := thirdpartyId } : QueryRefundParams) with Sign := GenerateSign md5Sum d (some ({ OutRefundNo := outRefundNo, AppId := d.Config.AppId, ThirdpartyId := thirdpartyId } : QueryRefundParams).marshal) },
    rfl, rfl, (QueryRefundParams_sign_irrelevant md5Sum d _ _).symm,
    QueryRefundParams_member_app_id _, QueryRefundParams_member_sign _⟩

theorem Settle_sends_signed (T : Transport)
    (decode : String → SettleResponse → SettleResponse × Option String)
    (md5Sum : String → List Byte) (quote : String → String) (d : DouYinOpenApi) (settleParams : SettleParams) (settleParamsItem : Option (List SettleParamsItem)) :
    ∃ sent : DouyinOpenapi.SettleParams,
      (Settle T decode md5Sum quote d settleParams settleParamsItem).2 = [⟨settle, sent.marshal, []⟩] ∧
      sent.AppId = d.Config.AppId ∧
      sent.Sign = GenerateSign md5Sum d (some sent.marshal) ∧
      sent.marshal.stringMember "app_id" =
        (if d.Config.AppId = "" then none else some d.Config.AppId) ∧
      sent.marshal.stringMember "sign" =
        (if sent.Sign = "" then none else some sent.Sign) :=
  ⟨{ ({ ({ settleParams with AppId := d.Config.AppId } : DouyinOpenapi.SettleParams) with SettleParams := marshalSettleItems quote settleParamsItem } : DouyinOpenapi.SettleParams) with Sign := GenerateSign md5Sum d (some ({ ({ settleParams with AppId := d.Config.AppId } : DouyinOpenapi.SettleParams) with SettleParams := marshalSettleItems quote settleParamsItem } : DouyinOpenapi.SettleParams).marshal) },
    rfl, rfl, (SettleParams_sign_irrelevant md5Sum d _ _).symm,
    SettleParams_member_app_id _, SettleParams_member_sign _⟩

theorem QuerySettle_sends_signed (T : Transport)
    (decode : String → QuerySettleResponse → QuerySettleResponse × Option String)
    (md5Sum : String → List Byte) (d : DouYinOpenApi) (outSettleNo thirdpartyId : String) :
    ∃ sent : QuerySettleParams,
      (QuerySettle T decode md5Sum d outSettleNo thirdpartyId).2 = [⟨querySettle, sent.marshal, []⟩] ∧
      sent.AppId = d.Config.AppId ∧
      sent.Sign = GenerateSign md5Sum d (some sent.marshal) ∧
      sent.marshal.stringMember "app_id" =
        (if d.Config.AppId = "" then none else some d.Config.AppId) ∧
      sent.marshal.stringMember "sign" =
        (if sent.Sign = "" then none else some sent.Sign) :=
  ⟨{ ({ AppId := d.Config.AppId, OutSettleNo := outSettleNo, ThirdpartyId := thirdpartyId } : QuerySettleParams) with Sign := GenerateSign md5Sum d (some ({ AppId := d.Config.AppId, OutSettleNo := outSettleNo, ThirdpartyId := thirdpartyId } : QuerySettleParams).marshal) },
    rfl, rfl, (QuerySettleParams_sign_irrelevant md5Sum d _ _).symm,
    QuerySettleParams_member_app_id _, QuerySettleParams_member_sign _⟩

theorem UnsettleAmount_sends_signed (T : Transport)
    (decode : String → UnsettleAmountResponse → UnsettleAmountResponse × Option String)
    (md5Sum : String → List Byte) (d : DouYinOpenApi) (outOrderNo thirdpartyId outItemOrderNo : String) :
    ∃ sent : UnsettleAmountParams,
      (UnsettleAmount T decode md5Sum d outOrderNo thirdpartyId outItemOrderNo).2 = [⟨unsettleAmount, sent.marshal, []⟩] ∧
      sent.AppId = d.Config.AppId ∧
      sent.Sign = GenerateSign md5Sum d (some sent.marshal) ∧
      sent.marshal.stringMember "app_id" =
        (if d.Config.AppId = "" then none else some d.Config.AppId) ∧
      sent.marshal.stringMember "sign" =
        (if sent.Sign = "" then none else some sent.Sign) :=
  ⟨{ ({ OutOrderNo := outOrderNo, AppId := d.Config.AppId, ThirdpartyId := thirdpartyId, OutItemOrderNo := outItemOrderNo } : UnsettleAmountParams) with Sign := GenerateSign md5Sum d (some ({ OutOrderNo := outOrderNo, AppId := d.Config.AppId, ThirdpartyId := thirdpartyId, OutItemOrderNo := outItemOrderNo } : UnsettleAmountParams).marshal) },
    rfl, rfl, (UnsettleAmountParams_sign_irrelevant md5Sum d _ _).symm,
    UnsettleAmountParams_member_app_id _, UnsettleAmountParams_member_sign _⟩

theorem CreateReturn_sends_signed (T : Transport)
    (decode : String → CreateReturnResponse → CreateReturnResponse × Option String)
    (md5Sum : String → List Byte) (d : DouYinOpenApi) (params : CreateReturnParams) :
    ∃ sent : CreateReturnParams,
      (CreateReturn T decode md5Sum d params).2 = [⟨createReturn, sent.marshal, []⟩] ∧
      sent.AppId = d.Config.AppId ∧
      sent.Sign = GenerateSign md5Sum d (some sent.marshal) ∧
      sent.marshal.stringMember "app_id" =
        (if d.Config.AppId = "" then none else some d.Config.AppId) ∧
      sent.marshal.stringMember "sign" =
        (if sent.Sign = "" then none else some sent.Sign) :=
  ⟨{ ({ params with AppId := d.Config.AppId } : CreateReturnParams) with Sign := GenerateSign md5Sum d (some ({ params with AppId := d.Config.AppId } : CreateReturnParams).marshal) },
    rfl, rfl, (CreateReturnParams_sign_irrelevant md5Sum d _ _).symm,
    CreateReturnParams_member_app_id _, CreateReturnParams_member_sign _⟩

theorem QueryReturn_sends_signed (T : Transport)
    (decode : String → QueryReturnResponse → QueryReturnResponse × Option String)
    (md5Sum : String → List Byte) (d : DouYinOpenApi) (returnNo outReturnNo thirdpartyId : String) :
    ∃ sent : QueryReturnParams,
      (QueryReturn T decode md5Sum d returnNo outReturnNo thirdpartyId).2 = [⟨queryReturn, sent.marshal, []⟩] ∧
      sent.AppId = d.Config.AppId ∧
      sent.Sign = GenerateSign md5Sum d (some sent.marshal) ∧
      sent.marshal.stringMember "app_id" =
        (if d.Config.AppId = "" then none else some d.Config.AppId) ∧
      sent.marshal.stringMember "sign" =
        (if sent.Sign = "" then none else some sent.Sign) :=
  ⟨{ ({ AppId := d.Config.AppId, ReturnNo := returnNo, OutReturnNo := outReturnNo, ThirdpartyId := thirdpartyId } : QueryReturnParams) with Sign := GenerateSign md5Sum d (some ({ AppId := d.Config.AppId, ReturnNo := returnNo, OutReturnNo := outReturnNo, ThirdpartyId := thirdpartyId } : QueryReturnParams).marshal) },
    rfl, rfl, (QueryReturnParams_sign_irrelevant md5Sum d _ _).symm,
    QueryReturnParams_member_app_id _, QueryReturnParams_member_sign _⟩

theorem QueryMerchantBalance_sends_signed (T : Transport)
    (decode : String → QueryMerchantBalanceResponse → QueryMerchantBalanceResponse × Option String)
    (md5Sum : String → List Byte) (d : DouYinOpenApi) (params : QueryMerchantBalanceParams) :
    ∃ sent : QueryMerchantBalanceParams,
      (QueryMerchantBalance T decode md5Sum d params).2 = [⟨queryMerchantBalance, sent.marshal, []⟩] ∧
      sent.AppId = d.Config.AppId ∧
      sent.Sign = GenerateSign md5Sum d (some sent.marshal) ∧
      sent.marshal.stringMember "app_id" =
        (if d.Config.AppId = "" then none else some d.Config.AppId) ∧
      sent.marshal.stringMember "sign" =
        (if sent.Sign = "" then none else some sent.Sign) :=
  ⟨{ ({ params with AppId := d.Config.AppId } : QueryMerchantBalanceParams) with Sign := GenerateSign md5Sum d (some ({ params with AppId := d.Config.AppId } : QueryMerchantBalanceParams).marshal) },
    rfl, rfl, (QueryMerchantBalanceParams_sign_irrelevant md5Sum d _ _).symm,
    QueryMerchantBalanceParams_member_app_id _, QueryMerchantBalanceParams_member_sign _⟩

theorem MerchantWithdraw_sends_signed (T : Transport)
    (decode : String → MerchantWithdrawResponse → MerchantWithdrawResponse × Option String)
    (md5Sum : String → List Byte) (d : DouYinOpenApi) (params : MerchantWithdrawParams) :
    ∃ sent : MerchantWithdrawParams,
      (MerchantWithdraw T decode md5Sum d params).2 = [⟨merchantWithdraw, sent.marshal, []⟩] ∧
      sent.AppId = d.Config.AppId ∧
      sent.Sign = GenerateSign md5Sum d (some sent.marshal) ∧
      sent.marshal.stringMember "app_id" =
        (if d.Config.AppId = "" then none else some d.Config.AppId) ∧
      sent.marshal.stringMember "sign" =
        (if sent.Sign = "" then none else some sent.Sign) :=
  ⟨{ ({ params with AppId := d.Config.AppId } : MerchantWithdrawParams) with Sign := GenerateSign md5Sum d (some ({ params with AppId := d.Config.AppId } : MerchantWithdrawParams).marshal) },
    rfl, rfl, (MerchantWithdrawParams_sign_irrelevant md5Sum d _ _).symm,
    MerchantWithdrawParams_member_app_id _, MerchantWithdrawParams_member_sign _⟩

theorem QueryWithdrawOrder_sends_signed (T : Transport)
    (decode : String → QueryWithdrawOrderResponse → QueryWithdrawOrderResponse × Option String)
    (md5Sum : String → List Byte) (d : DouYinOpenApi) (params : QueryWithdrawOrderParams) :
    ∃ sent : QueryWithdrawOrderParams,
      (QueryWithdrawOrder T decode md5Sum d params).2 = [⟨queryWithdrawOrder, sent.marshal, []⟩] ∧
      sent.AppId = d.Config.AppId ∧
      sent.Sign = GenerateSign md5Sum d (some sent.marshal) ∧
      sent.marshal.stringMember "app_id" =
        (if d.Config.AppId = "" then none else some d.Config.AppId) ∧
      sent.marshal.stringMember "sign" =
        (if sent.Sign = "" then none else some sent.Sign) :=
  ⟨{ ({ params with AppId := d.Config.AppId } : QueryWithdrawOrderParams) with Sign := GenerateSign md5Sum d (some ({ params with AppId := d.Config.AppId } : QueryWithdrawOrderParams).marshal) },
    rfl, rfl, (QueryWithdrawOrderParams_sign_irrelevant md5Sum d _ _).symm,
    QueryWithdrawOrderParams_member_app_id _, QueryWithdrawOrderParams_member_sign _⟩

/-- C22. Every signed operation (`CreateOrder`, `QueryOrder`, `CreateRefund`,
`QueryRefund`, `Settle`, `QuerySettle`, `UnsettleAmount`, `CreateReturn`,
`QueryReturn`, `QueryMerchantBalance`, `MerchantWithdraw`,
`QueryWithdrawOrder`) hands to `PostJson` exactly one payload, for every
argument the caller supplies: the parameters `sent`, whose `AppId` is the
configured `AppId` and whose `Sign` is `GenerateSign` of that same payload,
the `Sign` included.  In the JSON text a string field is present exactly when
it is not empty (`omitempty`): the member `app_id` is the configured `AppId`
(there is none when that is empty), and the member `sign` is that signature. -/
theorem signed_operations_send_app_id_and_sign (T : Transport) (md5Sum : String → List Byte)
    (quote : String → String) (d : DouYinOpenApi) :
    (∀ (decode : String → CreateOrderResponse → CreateOrderResponse × Option String)
        (params : CreateOrderParams),
      ∃ sent : CreateOrderParams,
        (CreateOrder T decode md5Sum d params).2 = [⟨createOrder, sent.marshal, []⟩] ∧
        sent.AppId = d.Config.AppId ∧
        sent.Sign = GenerateSign md5Sum d (some sent.marshal) ∧
        sent.marshal.stringMember "app_id" =
          (if d.Config.AppId = "" then none else some d.Config.AppId) ∧
        sent.marshal.stringMember "sign" =
          (if sent.Sign = "" then none else some sent.Sign)) ∧
    (∀ (decode : String → QueryOrderResponse → QueryOrderResponse × Option String)
        (outOrderNo thirdpartyId : String),
      ∃ sent : QueryOrderParams,
        (QueryOrder T decode md5Sum d outOrderNo thirdpartyId).2 = [⟨queryOrder, sent.marshal, []⟩] ∧
        sent.AppId = d.Config.AppId ∧
        sent.Sign = GenerateSign md5Sum d (some sent.marshal) ∧
        sent.marshal.stringMember "app_id" =
          (if d.Config.AppId = "" then none else some d.Config.AppId) ∧
        sent.marshal.stringMember "sign" =
          (if sent.Sign = "" then none else some sent.Sign)) ∧
    (∀ (decode : String → CreateRefundResponse → CreateRefundResponse × Option String)
        (params : CreateRefundParams),
      ∃ sent : CreateRefundParams,
        (CreateRefund T decode md5Sum d params).2 = [⟨createRefund, sent.marshal, []⟩] ∧
        sent.AppId = d.Config.AppId ∧
        sent.Sign = GenerateSign md5Sum d (some sent.marshal) ∧
        sent.marshal.stringMember "app_id" =
          (if d.Config.AppId = "" then none else some d.Config.AppId) ∧
        sent.marshal.stringMember "sign" =
          (if sent.Sign = "" then none else some sent.Sign)) ∧
    (∀ (decode : String → QueryRefundParamsResponse → QueryRefundParamsResponse × Option String)
        (outRefundNo thirdpartyId : String),
      ∃ sent : QueryRefundParams,
        (QueryRefund T decode md5Sum d outRefundNo thirdpartyId).2 = [⟨queryRefund, sent.marshal, []⟩] ∧
        sent.AppId = d.Config.AppId ∧
        sent.Sign = GenerateSign md5Sum d (some sent.marshal) ∧
        sent.marshal.stringMember "app_id" =
          (if d.Config.AppId = "" then none else some d.Config.AppId) ∧
        sent.marshal.stringMember "sign" =
          (if sent.Sign = "" then none else some sent.Sign)) ∧
    (∀ (decode : String → SettleResponse → SettleResponse × Option String)
        (settleParams : SettleParams) (settleParamsItem : Option (List SettleParamsItem)),
      ∃ sent : DouyinOpenapi.SettleParams,
        (Settle T decode md5Sum quote d settleParams settleParamsItem).2 = [⟨settle, sent.marshal, []⟩] ∧
        sent.AppId = d.Config.AppId ∧
        sent.Sign = GenerateSign md5Sum d (some sent.marshal) ∧
        sent.marshal.stringMember "app_id" =
          (if d.Config.AppId = "" then none else some d.Config.AppId) ∧
        sent.marshal.stringMember "sign" =
          (if sent.Sign = "" then none else some sent.Sign)) ∧
    (∀ (decode : String → QuerySettleResponse → QuerySettleResponse × Option String)
        (outSettleNo thirdpartyId : String),
      ∃ sent : QuerySettleParams,
        (QuerySettle T decode md5Sum d outSettleNo thirdpartyId).2 = [⟨querySettle, sent.marshal, []⟩] ∧
        sent.AppId = d.Config.AppId ∧
        sent.Sign = GenerateSign md5Sum d (some sent.marshal) ∧
        sent.marshal.stringMember "app_id" =
          (if d.Config.AppId = "" then none else some d.Config.AppId) ∧
        sent.marshal.stringMember "sign" =
          (if sent.Sign = "" then none else some sent.Sign)) ∧
    (∀ (decode : String → UnsettleAmountResponse → UnsettleAmountResponse × Option String)
        (outOrderNo thirdpartyId outItemOrderNo : String),
      ∃ sent : UnsettleAmountParams,
        (UnsettleAmount T decode md5Sum d outOrderNo thirdpartyId outItemOrderNo).2 = [⟨unsettleAmount, sent.marshal, []⟩] ∧
        sent.AppId = d.Config.AppId ∧
        sent.Sign = GenerateSign md5Sum d (some sent.marshal) ∧
        sent.marshal.stringMember "app_id" =
          (if d.Config.AppId = "" then none else some d.Config.AppId) ∧
        sent.marshal.stringMember "sign" =
          (if sent.Sign = "" then none else some sent.Sign)) ∧
    (∀ (decode : String → CreateReturnResponse → CreateReturnResponse × Option String)
        (params : CreateReturnParams),
      ∃ sent : CreateReturnParams,
        (CreateReturn T decode md5Sum d params).2 = [⟨createReturn, sent.marshal, []⟩] ∧
        sent.AppId = d.Config.AppId ∧
        sent.Sign = GenerateSign md5Sum d (some sent.marshal) ∧
        sent.marshal.stringMember "app_id" =
          (if d.Config.AppId = "" then none else some d.Config.AppId) ∧
        sent.marshal.stringMember "sign" =
          (if sent.Sign = "" then none else some sent.Sign)) ∧
    (∀ (decode : String → QueryReturnResponse → QueryReturnResponse × Option String)
        (returnNo outReturnNo thirdpartyId : String),
      ∃ sent : QueryReturnParams,
        (QueryReturn T decode md5Sum d returnNo outReturnNo thirdpartyId).2 = [⟨queryReturn, sent.marshal, []⟩] ∧
        sent.AppId = d.Config.AppId ∧
        sent.Sign = GenerateSign md5Sum d (some sent.marshal) ∧
        sent.marshal.stringMember "app_id" =
          (if d.Config.AppId = "" then none else some d.Config.AppId) ∧
        sent.marshal.stringMember "sign" =
          (if sent.Sign = "" then none else some sent.Sign)) ∧
    (∀ (decode : String → QueryMerchantBalanceResponse → QueryMerchantBalanceResponse × Option String)
        (params : QueryMerchantBalanceParams),
      ∃ sent : QueryMerchantBalanceParams,
        (QueryMerchantBalance T decode md5Sum d params).2 = [⟨queryMerchantBalance, sent.marshal, []⟩] ∧
        sent.AppId = d.Config.AppId ∧
        sent.Sign = GenerateSign md5Sum d (some sent.marshal) ∧
        sent.marshal.stringMember "app_id" =
          (if d.Config.AppId = "" then none else some d.Config.AppId) ∧
        sent.marshal.stringMember "sign" =
          (if sent.Sign = "" then none else some sent.Sign)) ∧
    (∀ (decode : String → MerchantWithdrawResponse → MerchantWithdrawResponse × Option String)
        (params : MerchantWithdrawParams),
      ∃ sent : MerchantWithdrawParams,
        (MerchantWithdraw T decode md5Sum d params).2 = [⟨merchantWithdraw, sent.marshal, []⟩] ∧
        sent.AppId = d.Config.AppId ∧
        sent.Sign = GenerateSign md5Sum d (some sent.marshal) ∧
        sent.marshal.stringMember "app_id" =
          (if d.Config.AppId = "" then none else some d.Config.AppId) ∧
        sent.marshal.stringMember "sign" =
          (if sent.Sign = "" then none else some sent.Sign)) ∧
    (∀ (decode : String → QueryWithdrawOrderResponse → QueryWithdrawOrderResponse × Option String)
        (params : QueryWithdrawOrderParams),
      ∃ sent : QueryWithdrawOrderParams,
        (QueryWithdrawOrder T decode md5Sum d params).2 = [⟨queryWithdrawOrder, sent.marshal, []⟩] ∧
        sent.AppId = d.Config.AppId ∧
        sent.Sign = GenerateSign md5Sum d (some sent.marshal) ∧
        sent.marshal.stringMember "app_id" =
          (if d.Config.AppId = "" then none else some d.Config.AppId) ∧
        sent.marshal.stringMember "sign" =
          (if sent.Sign = "" then none else some sent.Sign)) :=
  ⟨fun decode params =>
      CreateOrder_sends_signed T decode md5Sum d params,
    fun decode outOrderNo thirdpartyId =>
      QueryOrder_sends_signed T decode md5Sum d outOrderNo thirdpartyId,
    fun decode params =>
      CreateRefund_sends_signed T decode md5Sum d params,
    fun decode outRefundNo thirdpartyId =>
      QueryRefund_sends_signed T decode md5Sum d outRefundNo thirdpartyId,
    fun decode settleParams settleParamsItem =>
      Settle_sends_signed T decode md5Sum quote d settleParams settleParamsItem,
    fun decode outSettleNo thirdpartyId =>
      QuerySettle_sends_signed T decode md5Sum d outSettleNo thirdpartyId,
    fun decode outOrderNo thirdpartyId outItemOrderNo =>
      UnsettleAmount_sends_signed T decode md5Sum d outOrderNo thirdpartyId outItemOrderNo,
    fun decode params =>
      CreateReturn_sends_signed T decode md5Sum d params,
    fun decode returnNo outReturnNo thirdpartyId =>
      QueryReturn_sends_signed T decode md5Sum d returnNo outReturnNo thirdpartyId,
    fun decode params =>
      QueryMerchantBalance_sends_signed T decode md5Sum d params,
    fun decode params =>
      MerchantWithdraw_sends_signed T decode md5Sum d params,
    fun decode params =>
      QueryWithdrawOrder_sends_signed T decode md5Sum d params⟩

/-! ## The signature check of HandleWebHook -/

/-- C23. With `checkSign = true`, `HandleWebHook` returns without error only if
the header equals `generateSignature body`, which is the lowercase hexadecimal
rendering of the SHA-1 digest of the configured `AppSecret` followed by the raw
body.  When the header differs it returns the signature error together with the
zero `WebHookBody`, whatever the decoders would do (nothing is decoded); when
it matches, the call proceeds as with `checkSign = false`; and with
`checkSign = false` the result is the same for every header. -/
theorem HandleWebHook_signature_gate (sha1Sum : String → List Byte)
    (checkValid : String → Option String)
    (decodeBody : String → WebHookBody → WebHookBody × Option String)
    (decodeVerify : String → VerifyWebhook → VerifyWebhook × Option String)
    (decodeAuthorize : String → EventImAuthorize → EventImAuthorize × Option String)
    (decodeCallback : String → EventImAuthorizeMessageCallback →
      EventImAuthorizeMessageCallback × Option String)
    (d : DouYinOpenApi) (xDouyinSignature body : String) :
    ((HandleWebHook sha1Sum checkValid decodeBody decodeVerify decodeAuthorize decodeCallback d
        xDouyinSignature body true).2 = none →
      xDouyinSignature = sprintfHex (sha1Sum (d.Config.AppSecret ++ body))) ∧
    (∀ c ∈ (sprintfHex (sha1Sum (d.Config.AppSecret ++ body))).data,
      c ∈ "0123456789abcdef".data) ∧
    (xDouyinSignature ≠ sprintfHex (sha1Sum (d.Config.AppSecret ++ body)) →
      ∀ (checkValid' : String → Option String)
        (decodeBody' : String → WebHookBody → WebHookBody × Option String)
        (decodeVerify' : String → VerifyWebhook → VerifyWebhook × Option String)
        (decodeAuthorize' : String → EventImAuthorize → EventImAuthorize × Option String)
        (decodeCallback' : String → EventImAuthorizeMessageCallback →
          EventImAuthorizeMessageCallback × Option String),
        HandleWebHook sha1Sum checkValid' decodeBody' decodeVerify' decodeAuthorize'
            decodeCallback' d xDouyinSignature body true =
          ({}, some ("signature error new: " ++
            sprintfHex (sha1Sum (d.Config.AppSecret ++ body)) ++ " old: " ++
            xDouyinSignature))) ∧
    (xDouyinSignature = sprintfHex (sha1Sum (d.Config.AppSecret ++ body)) →
      HandleWebHook sha1Sum checkValid decodeBody decodeVerify decodeAuthorize decodeCallback d
          xDouyinSignature body true =
        HandleWebHook sha1Sum checkValid decodeBody decodeVerify decodeAuthorize decodeCallback
          d xDouyinSignature body false) ∧
    (∀ header : String,
      HandleWebHook sha1Sum checkValid decodeBody decodeVerify decodeAuthorize decodeCallback d
          header body false =
        HandleWebHook sha1Sum checkValid decodeBody decodeVerify decodeAuthorize decodeCallback
          d xDouyinSignature body false) := by
  have hmis : xDouyinSignature ≠ sprintfHex (sha1Sum (d.Config.AppSecret ++ body)) →
      ∀ (checkValid' : String → Option String)
        (decodeBody' : String → WebHookBody → WebHookBody × Option String)
        (decodeVerify' : String → VerifyWebhook → VerifyWebhook × Option String)
        (decodeAuthorize' : String → EventImAuthorize → EventImAuthorize × Option String)
        (decodeCallback' : String → EventImAuthorizeMessageCallback →
          EventImAuthorizeMessageCallback × Option String),
        HandleWebHook sha1Sum checkValid' decodeBody' decodeVerify' decodeAuthorize'
            decodeCallback' d xDouyinSignature body true =
          ({}, some ("signature error new: " ++
            sprintfHex (sha1Sum (d.Config.AppSecret ++ body)) ++ " old: " ++
            xDouyinSignature)) := by
    intro hne checkValid' decodeBody' decodeVerify' decodeAuthorize' decodeCallback'
    have hc : (true == true &&
        generateSignature sha1Sum d body != xDouyinSignature) = true := by
      simp only [generateSignature, EncodeToString, beq_self_eq_true, Bool.true_and,
        bne_iff_ne]
      exact fun e => hne e.symm
    unfold HandleWebHook
    rw [if_pos hc]
    rfl
  refine ⟨fun hnone => ?_, sprintfHex_lower _, hmis, fun heq => ?_, fun header => ?_⟩
  · by_contra hne
    rw [hmis hne checkValid decodeBody decodeVerify decodeAuthorize decodeCallback] at hnone
    exact absurd hnone (by simp)
  · have hc : (true == true &&
        generateSignature sha1Sum d body != xDouyinSignature) = false := by
      simp [generateSignature, EncodeToString, heq]
    unfold HandleWebHook
    rw [hc]
    rfl
  · unfold HandleWebHook
    rfl

theorem HandleWebHook_signature_gate_witness :
    HandleWebHook exampleDigest (fun _ => none)
        (fun _ v => ({ v with Event := "verify_webhook", Content := "c" }, none))
        (fun _ v => ({ v with Challenge := 12345 }, none)) (fun _ v => (v, none))
        (fun _ v => (v, none)) ⟨⟨"app", "s", false, "tok", "salt"⟩, ""⟩
        "00000073" "b" true =
      ({}, some ("signature error new: " ++
        sprintfHex (exampleDigest ("s" ++ "b")) ++ " old: " ++ "00000073")) ∧
    HandleWebHook exampleDigest (fun _ => none)
        (fun _ v => ({ v with Event := "verify_webhook", Content := "c" }, none))
        (fun _ v => ({ v with Challenge := 12345 }, none)) (fun _ v => (v, none))
        (fun _ v => (v, none)) ⟨⟨"app", "s", false, "tok", "salt"⟩, ""⟩
        "0000007300000062" "b" true =
      HandleWebHook exampleDigest (fun _ => none)
        (fun _ v => ({ v with Event := "verify_webhook", Content := "c" }, none))
        (fun _ v => ({ v with Challenge := 12345 }, none)) (fun _ v => (v, none))
        (fun _ v => (v, none)) ⟨⟨"app", "s", false, "tok", "salt"⟩, ""⟩
        "0000007300000062" "b" false :=
  ⟨(HandleWebHook_signature_gate exampleDigest (fun _ => none)
      (fun _ v => ({ v with Event := "verify_webhook", Content := "c" }, none))
      (fun _ v => ({ v with Challenge := 12345 }, none)) (fun _ v => (v, none))
      (fun _ v => (v, none)) ⟨⟨"app", "s", false, "tok", "salt"⟩, ""⟩
      "00000073" "b").2.2.1 (by decide) _ _ _ _ _,
   (HandleWebHook_signature_gate exampleDigest (fun _ => none)
      (fun _ v => ({ v with Event := "verify_webhook", Content := "c" }, none))
      (fun _ v => ({ v with Challenge := 12345 }, none)) (fun _ v => (v, none))
      (fun _ v => (v, none)) ⟨⟨"app", "s", false, "tok", "salt"⟩, ""⟩
      "0000007300000062" "b").2.2.2.1 (by decide)⟩


/-! ## Integer fields in the signature -/

/-- C24, at the input where the code departs from the claim.  `CreateOrder`
with `total_amount = 1000000` signs the candidate `1e+06`, the rendering of
the `float64` the value has become after the JSON round trip, and not the
numeral `1000000`; the string it hashes begins with `1e+06`.  The value
`999999` is signed as `999999`, and `10000000000`, the upper end of the
documented range, as `1e+10`. -/
theorem GenerateSign_total_amount_exponent :
    (CreateOrder (⟨fun _ _ => ("", none), fun _ _ _ => ("", none), fun _ => none⟩ : Transport) (fun _ v => (v, none)) exampleDigest ⟨⟨"app", "secret", false, "tok", "salt"⟩, "https://developer.toutiao.com"⟩
        { OutOrderNo := "N1", TotalAmount := 1000000, Subject := "s", Body := "b", ValidTime := 300 }).2.map
      (fun r => (unmarshalMap (some r.params)).map (fun paramsMap => paramsMap.foldl signStep [])) =
      [some ["N1", "1e+06", "s", "b", "300", "map[ActualDeliveryFee:0 OriginalDeliveryFee:0]"]] ∧
    (CreateOrder (⟨fun _ _ => ("", none), fun _ _ _ => ("", none), fun _ => none⟩ : Transport) (fun _ v => (v, none)) exampleDigest ⟨⟨"app", "secret", false, "tok", "salt"⟩, "https://developer.toutiao.com"⟩
        { OutOrderNo := "N1", TotalAmount := 1000000, Subject := "s", Body := "b", ValidTime := 300 }).2.map
      (fun r => (unmarshalMap (some r.params)).map (signString ⟨⟨"app", "secret", false, "tok", "salt"⟩, "https://developer.toutiao.com"⟩)) =
      [some "1e+06&300&N1&b&map[ActualDeliveryFee:0 OriginalDeliveryFee:0]&s&salt"] ∧
    sprintInt 1000000 = "1000000" ∧
    signValue (.num (float64OfInt 999999)) = "999999" ∧
    signValue (.num (float64OfInt 10000000000)) = "1e+10" := by
  refine ⟨by decide, by decide, by decide, by decide, by decide⟩

/-- Above `2 ^ 53` the JSON round trip rounds the integer to the nearest
`float64`: `9007199254740993` is signed as `9.007199254740992e+15`, and the
largest `int64` as `9.223372036854776e+18`. -/
theorem signValue_rounds_large_integers :
    signValue (.num (float64OfInt 9007199254740993)) = "9.007199254740992e+15" ∧
    signValue (.num (float64OfInt 9223372036854775807)) = "9.223372036854776e+18" := by
  refine ⟨by decide, by decide⟩

/-! ## The settle_params of Settle -/

theorem SettleParams_member_settle_params (p : DouyinOpenapi.SettleParams) :
    p.marshal.stringMember "settle_params" =
      if p.SettleParams = "" then none else some p.SettleParams := by
  unfold SettleParams.marshal JValue.stringMember
  simp only [List.append_assoc, List.singleton_append, lookup_omitString_append, lookup_omitString,
    lookup_omitInt_append, lookup_omitInt, lookup_keepString_append, lookup_keepString, lookup_cons]
  by_cases h : p.SettleParams = "" <;> simp [h]

theorem TrimSpace_of_ends (a b : Char) (m : List Char) (ha : isSpace a = false)
    (hb : isSpace b = false) : TrimSpace ⟨a :: (m ++ [b])⟩ = ⟨a :: (m ++ [b])⟩ := by
  unfold TrimSpace
  congr 1
  show (((a :: (m ++ [b])).dropWhile isSpace).reverse.dropWhile isSpace).reverse = _
  rw [List.dropWhile_cons, ha]
  simp only [Bool.false_eq_true, if_false, List.reverse_cons, List.reverse_append,
    List.reverse_nil, List.nil_append, List.singleton_append, List.cons_append]
  rw [List.dropWhile_cons, hb]
  simp

theorem marshalSettleItems_data (quote : String → String) (items : List SettleParamsItem) :
    ∃ m : List Char, marshalSettleItems quote (some items) = ⟨'[' :: (m ++ [']'])⟩ :=
  ⟨(",".intercalate (items.map (SettleParamsItem.encode quote))).data, by
    unfold marshalSettleItems
    apply String.ext
    simp [String.data_append]⟩

theorem candidateOf_bracketed (k : String) (m : List Char) (hk : isSkippedKey k = false) :
    candidateOf (k, .str ⟨'[' :: (m ++ [']'])⟩) = some ⟨'[' :: (m ++ [']'])⟩ := by
  have hv : signValue (.str ⟨'[' :: (m ++ [']'])⟩) = ⟨'[' :: (m ++ [']'])⟩ := by
    have ht : TrimSpace ⟨'[' :: (m ++ [']'])⟩ = ⟨'[' :: (m ++ [']'])⟩ :=
      TrimSpace_of_ends _ _ _ (by decide) (by decide)
    have hp : HasPrefix ⟨'[' :: (m ++ [']'])⟩ "\"" = false := by
      unfold HasPrefix
      simp [List.isPrefixOf]
    unfold signValue
    simp only [sprintV, ht, hp, Bool.false_and, Bool.false_eq_true, if_false]
  have h1 : ((⟨'[' :: (m ++ [']'])⟩ : String) == "") = false := by
    rw [beq_eq_false_iff_ne]
    intro h
    have := congrArg String.data h
    simp at this
  have h2 : ((⟨'[' :: (m ++ [']'])⟩ : String) == "null") = false := by
    rw [beq_eq_false_iff_ne]
    intro h
    have := congrArg String.data h
    simp at this
  unfold candidateOf
  simp only [hk, hv, h1, h2, Bool.false_eq_true, if_false, Bool.or_self]

theorem mem_mapOf {α : Type} (kv : String × α) :
    ∀ l : List (String × α), kv ∈ l → (∀ kv' ∈ l, kv'.1 = kv.1 → kv' = kv) → kv ∈ mapOf l
  | [], h, _ => by simp at h
  | x :: rest, h, huniq => by
    have huniq' : ∀ kv' ∈ rest, kv'.1 = kv.1 → kv' = kv :=
      fun kv' hm => huniq kv' (List.mem_cons_of_mem _ hm)
    rw [mapOf_cons]
    by_cases ha : rest.any (fun kv' => kv'.1 == x.1) = true
    · rw [if_pos ha]
      apply mem_mapOf kv rest _ huniq'
      rcases List.mem_cons.1 h with h | h
      · obtain ⟨kv', hm, hk⟩ := List.any_eq_true.1 ha
        have hk' : kv'.1 = kv.1 := by rw [h]; simpa using hk
        exact huniq' kv' hm hk' ▸ hm
      · exact h
    · rw [if_neg ha]
      rcases List.mem_cons.1 h with h | h
      · exact h ▸ List.mem_cons_self _ _
      · exact List.mem_cons_of_mem _ (mem_mapOf kv rest h huniq')

theorem mem_omitString (kv : String × JValue) (k v : String) :
    kv ∈ omitString k v ↔ v ≠ "" ∧ kv = (k, .str v) := by
  unfold omitString
  by_cases h : v = "" <;> simp [h]

theorem SettleParams_settle_params_unique (p : DouyinOpenapi.SettleParams) :
    ∀ kv ∈ (omitString "out_settle_no" p.OutSettleNo) ++
        (omitString "out_order_no" p.OutOrderNo) ++
        (omitString "settle_desc" p.SettleDesc) ++
        (omitString "notify_url" p.NotifyUrl) ++
        (omitString "cp_extra" p.CpExtra) ++
        (omitString "app_id" p.AppId) ++
        (omitString "sign" p.Sign) ++
        (omitString "settle_params" p.SettleParams) ++
        (omitString "thirdparty_id" p.ThirdpartyId) ++
        (omitString "finish" p.Finish),
      kv.1 = "settle_params" → kv = ("settle_params", .str p.SettleParams) := by
  intro kv hmem hk
  simp only [List.mem_append, mem_omitString, or_assoc] at hmem
  rcases hmem with h | h | h | h | h | h | h | h | h | h <;> obtain ⟨_, rfl⟩ := h <;>
    first
    | rfl
    | simp at hk

theorem candidateOf_ne_null (kv : String × JValue) : candidateOf kv ≠ some "null" := by
  unfold candidateOf
  by_cases hk : isSkippedKey kv.1 = true
  · simp [hk]
  · by_cases hv : (signValue kv.2 == "" || signValue kv.2 == "null") = true
    · simp [hk, hv]
    · intro h
      simp only [hk, hv, Bool.false_eq_true, if_false, Option.some.injEq] at h
      rw [h] at hv
      simp at hv

/-- C25, as the claim states it, fails.  When `Settle` is called with an empty
slice of items that is not `nil` (`Settle(p, items...)` with `items` empty),
no item is supplied, yet `settle_params` is the string `[]` and not `null`,
and it is one of the signed candidates. -/
theorem Settle_empty_items_counterexample :
    (Settle (⟨fun _ _ => ("", none), fun _ _ _ => ("", none), fun _ => none⟩ : Transport) (fun _ v => (v, none)) exampleDigest
        (fun s => "\"" ++ s ++ "\"") ⟨⟨"app", "secret", false, "tok", "salt"⟩, "https://developer.toutiao.com"⟩
        { OutSettleNo := "S1", OutOrderNo := "N1", SettleDesc := "desc" } (some [])).2.map
      (fun r => r.params.stringMember "settle_params") = [some "[]"] ∧
    (Settle (⟨fun _ _ => ("", none), fun _ _ _ => ("", none), fun _ => none⟩ : Transport) (fun _ v => (v, none)) exampleDigest
        (fun s => "\"" ++ s ++ "\"") ⟨⟨"app", "secret", false, "tok", "salt"⟩, "https://developer.toutiao.com"⟩
        { OutSettleNo := "S1", OutOrderNo := "N1", SettleDesc := "desc" } (some [])).2.map
      (fun r => (unmarshalMap (some r.params)).map (fun paramsMap => paramsMap.foldl signStep [])) =
      [some ["S1", "N1", "desc", "[]"]] := by
  refine ⟨by decide, by decide⟩

/-- C25, amended. Every `Settle` call sends one payload, whose `settle_params`
is the JSON encoding of the variadic argument and is always present in the
payload, and whose `sign` is the digest over the candidates collected from
that payload.  When the variadic argument is a slice that is not `nil`, also
an empty one, `settle_params` is one of those candidates.  When the call has no
variadic argument (the `nil` slice), `settle_params` is the string `null`,
which is no candidate: the signature is the one of the same payload without
`settle_params`. -/
theorem Settle_settle_params_signed (T : Transport)
    (decode : String → SettleResponse → SettleResponse × Option String)
    (md5Sum : String → List Byte) (quote : String → String) (d : DouYinOpenApi)
    (settleParams : SettleParams) (settleParamsItem : Option (List SettleParamsItem)) :
    ∃ (sent : DouyinOpenapi.SettleParams) (paramsMap : List (String × JValue)),
      (Settle T decode md5Sum quote d settleParams settleParamsItem).2 =
        [⟨settle, sent.marshal, []⟩] ∧
      unmarshalMap (some sent.marshal) = some paramsMap ∧
      sent.Sign = sprintfHex (md5Sum (Join (sortStrings
        (paramsMap.foldl signStep [] ++ [d.Config.Salt])) "&")) ∧
      sent.marshal.stringMember "settle_params" =
        some (marshalSettleItems quote settleParamsItem) ∧
      (∀ items : List SettleParamsItem, settleParamsItem = some items →
        marshalSettleItems quote settleParamsItem ∈ paramsMap.foldl signStep []) ∧
      (settleParamsItem = none →
        marshalSettleItems quote settleParamsItem = "null" ∧
        "null" ∉ paramsMap.foldl signStep [] ∧
        sent.Sign = GenerateSign md5Sum d
          (some ({ sent with SettleParams := "" } : DouyinOpenapi.SettleParams).marshal)) := by
  have hne : marshalSettleItems quote settleParamsItem ≠ "" := by
    cases settleParamsItem with
    | none => simp [marshalSettleItems]
    | some items =>
      obtain ⟨m, hm⟩ := marshalSettleItems_data quote items
      rw [hm]
      intro h
      have := congrArg String.data h
      simp at this
  let base : DouyinOpenapi.SettleParams :=
    { ({ settleParams with AppId := d.Config.AppId } : DouyinOpenapi.SettleParams) with
        SettleParams := marshalSettleItems quote settleParamsItem }
  let sent : DouyinOpenapi.SettleParams :=
    { base with Sign := GenerateSign md5Sum d (some base.marshal) }
  have hsign : sent.Sign = GenerateSign md5Sum d (some sent.marshal) :=
    (SettleParams_sign_irrelevant md5Sum d base _).symm
  refine ⟨sent, mapOf
    ((omitString "out_settle_no" sent.OutSettleNo) ++
        (omitString "out_order_no" sent.OutOrderNo) ++
        (omitString "settle_desc" sent.SettleDesc) ++
        (omitString "notify_url" sent.NotifyUrl) ++
        (omitString "cp_extra" sent.CpExtra) ++
        (omitString "app_id" sent.AppId) ++
        (omitString "sign" sent.Sign) ++
        (omitString "settle_params" sent.SettleParams) ++
        (omitString "thirdparty_id" sent.ThirdpartyId) ++
        (omitString "finish" sent.Finish)), rfl, rfl, ?_, ?_, ?_, ?_⟩
  · exact hsign
  · rw [SettleParams_member_settle_params]
    exact if_neg hne
  · intro items hitems
    subst hitems
    rw [foldl_signStep, List.nil_append, List.mem_filterMap]
    obtain ⟨m, hm⟩ := marshalSettleItems_data quote items
    refine ⟨("settle_params", .str (marshalSettleItems quote (some items))), ?_, ?_⟩
    · apply mem_mapOf _ _ _ (SettleParams_settle_params_unique sent)
      exact List.mem_append_left _ (List.mem_append_left _ (List.mem_append_right _
        ((mem_omitString _ _ _).2 ⟨hne, rfl⟩)))
    · rw [hm]
      exact candidateOf_bracketed _ m (by decide)
  · intro hnone
    subst hnone
    refine ⟨rfl, ?_, ?_⟩
    · rw [foldl_signStep, List.nil_append, List.mem_filterMap]
      rintro ⟨kv, _, hkv⟩
      exact candidateOf_ne_null kv hkv
    · refine hsign.trans ?_
      unfold SettleParams.marshal
      apply GenerateSign_congr_candidates
      have hdrop : ∀ p : DouyinOpenapi.SettleParams,
          (p.SettleParams = "null" ∨ p.SettleParams = "") →
          ∀ kv ∈ (omitString "out_settle_no" p.OutSettleNo) ++
            (omitString "out_order_no" p.OutOrderNo) ++
            (omitString "settle_desc" p.SettleDesc) ++
            (omitString "notify_url" p.NotifyUrl) ++
            (omitString "cp_extra" p.CpExtra) ++
            (omitString "app_id" p.AppId) ++
            (omitString "sign" p.Sign) ++
            (omitString "settle_params" p.SettleParams) ++
            (omitString "thirdparty_id" p.ThirdpartyId) ++
            (omitString "finish" p.Finish),
            (fun k : String => k != "settle_params") kv.1 = false → candidateOf kv = none := by
        intro p hp kv hmem hk
        have hk' : kv.1 = "settle_params" := by simpa using hk
        rw [SettleParams_settle_params_unique p kv hmem hk']
        rcases hp with hp | hp <;> rw [hp] <;> decide
      rw [candidates_mapOf_filter (fun k => k != "settle_params") _ (hdrop _ (Or.inl rfl)),
        candidates_mapOf_filter (fun k => k != "settle_params") _ (hdrop _ (Or.inr rfl))]
      have hf : ∀ v : String,
          (omitString "settle_params" v).filter (fun kv => kv.1 != "settle_params") = [] := by
        intro v
        unfold omitString
        split <;> simp
      simp only [sent, base, SettleParams.marshal, List.filter_append, hf]


theorem Settle_settle_params_signed_witness :
    ∃ (sent : DouyinOpenapi.SettleParams) (paramsMap : List (String × JValue)),
      (Settle (⟨fun _ _ => ("", none), fun _ _ _ => ("", none), fun _ => none⟩ : Transport) (fun _ v => (v, none)) exampleDigest
        (fun s => "\"" ++ s ++ "\"") ⟨⟨"app", "secret", false, "tok", "salt"⟩, "https://developer.toutiao.com"⟩
        { OutSettleNo := "S1", OutOrderNo := "N1", SettleDesc := "desc" } (some [⟨"m1", 10⟩])).2 = [⟨settle, sent.marshal, []⟩] ∧
      unmarshalMap (some sent.marshal) = some paramsMap ∧
      "[\x7b\"merchant_uid\":\"m1\",\"amount\":10\x7d]" ∈ paramsMap.foldl signStep [] := by
  obtain ⟨sent, paramsMap, hlog, hmap, _, _, hsome, _⟩ :=
    Settle_settle_params_signed (⟨fun _ _ => ("", none), fun _ _ _ => ("", none), fun _ => none⟩ : Transport) (fun _ v => (v, none)) exampleDigest
      (fun s => "\"" ++ s ++ "\"") ⟨⟨"app", "secret", false, "tok", "salt"⟩, "https://developer.toutiao.com"⟩
      { OutSettleNo := "S1", OutOrderNo := "N1", SettleDesc := "desc" } (some [⟨"m1", 10⟩])
  exact ⟨sent, paramsMap, hlog, hmap, hsome _ rfl⟩

/-! ## The time-to-live handed to the cache -/

/-- C26, as the claim states it, fails.  A successful exchange whose response
carries `expires_in = 1500` hands the cache a time-to-live of zero, one that
carries no `expires_in` (the field then is `0`) a time-to-live of `-1500`
seconds, and one with `expires_in = 10000000000` a negative time-to-live,
because the product with `time.Second` overflows. -/
theorem GetAccessToken_ttl_positive_counterexample :
    ((GetAccessToken memoryCache (fun _ _ => ("body", none)) (fun _ => none)
        (fun _ v => ({ v with Data := { AccessToken := "T", ExpiresIn := 1500 } }, none))
        ⟨"app", "secret", "client_credential", "douyin_openapi_access_token_app", false⟩
        ⟨⟨0, []⟩, false, []⟩).2.events.filterMap Event.timeout) = [0] ∧
    ((GetAccessToken memoryCache (fun _ _ => ("body", none)) (fun _ => none)
        (fun _ v => ({ v with Data := { AccessToken := "T" } }, none))
        ⟨"app", "secret", "client_credential", "douyin_openapi_access_token_app", false⟩
        ⟨⟨0, []⟩, false, []⟩).2.events.filterMap Event.timeout) = [-1500 * 1000000000] ∧
    ((GetAccessToken memoryCache (fun _ _ => ("body", none)) (fun _ => none)
        (fun _ v => ({ v with Data := { AccessToken := "T", ExpiresIn := 10000000000 } }, none))
        ⟨"app", "secret", "client_credential", "douyin_openapi_access_token_app", false⟩
        ⟨⟨0, []⟩, false, []⟩).2.events.filterMap Event.timeout) = [-8446745573709551616] := by
  refine ⟨by decide, by decide, by decide⟩

/-- C26, amended. On a cache miss with the lock free, when the exchange
succeeds with `1500 < expires_in ≤ 9223373536` (so that `expires_in - 1500`
seconds fit a `time.Duration`), the one time-to-live `GetAccessToken` hands to
the cache is `(expires_in - 1500)` seconds: strictly positive, and shorter than
`expires_in` seconds.  This holds whether or not the store then succeeds. -/
theorem GetAccessToken_ttl_positive {σ : Type} (C : Cache σ)
    (PostJSON : String → List (String × String) → String × Option String)
    (checkValid : String → Option String)
    (decodeRes : String → ResAccessToken → ResAccessToken × Option String)
    (dd : DefaultAccessToken) (w : World σ) (req : ResAccessToken)
    (hmiss : C.Get w.cache dd.GetCacheKey = none) (hfree : w.locked = false)
    (hok : GetTokenFromServer PostJSON checkValid decodeRes
      (if dd.SandBox then sandBoxTokenURL else accessTokenURL)
      dd.AppId dd.AppSecret = (req, none))
    (hrange : 1500 < req.Data.ExpiresIn ∧ req.Data.ExpiresIn ≤ 9223373536) :
    (GetAccessToken C PostJSON checkValid decodeRes dd w).2.events.filterMap Event.timeout =
        w.events.filterMap Event.timeout ++ [(req.Data.ExpiresIn - 1500) * 1000000000] ∧
      0 < (req.Data.ExpiresIn - 1500) * 1000000000 ∧
      (req.Data.ExpiresIn - 1500) * 1000000000 < req.Data.ExpiresIn * 1000000000 := by
  have h1 : wrapInt64 (req.Data.ExpiresIn - 1500) = req.Data.ExpiresIn - 1500 :=
    wrapInt64_of_range _ (by omega) (by omega)
  have h2 : wrapInt64 ((req.Data.ExpiresIn - 1500) * 1000000000) =
      (req.Data.ExpiresIn - 1500) * 1000000000 :=
    wrapInt64_of_range _ (by omega) (by omega)
  refine ⟨?_, by omega, by omega⟩
  rw [GetAccessToken_exchange_ok C PostJSON checkValid decodeRes dd w req hmiss hfree hok,
    h1, h2]
  rcases hs : C.Set w.cache dd.GetCacheKey (CacheValue.str req.Data.AccessToken)
      ((req.Data.ExpiresIn - 1500) * 1000000000) with ⟨cache, _ | err⟩ <;>
    simp [List.filterMap_append, Event.timeout]

theorem GetAccessToken_ttl_positive_witness :
    (GetAccessToken memoryCache (fun _ _ => ("body", none)) (fun _ => none)
        (fun _ v => ({ v with Data := { AccessToken := "T", ExpiresIn := 7200 } }, none))
        ⟨"app", "secret", "client_credential", "douyin_openapi_access_token_app", false⟩
        ⟨⟨0, []⟩, false, []⟩).2.events.filterMap Event.timeout =
      [].filterMap Event.timeout ++ [(7200 - 1500) * 1000000000] :=
  (GetAccessToken_ttl_positive memoryCache (fun _ _ => ("body", none)) (fun _ => none)
    (fun _ v => ({ v with Data := { AccessToken := "T", ExpiresIn := 7200 } }, none))
    ⟨"app", "secret", "client_credential", "douyin_openapi_access_token_app", false⟩
    ⟨⟨0, []⟩, false, []⟩ { Data := { AccessToken := "T", ExpiresIn := 7200 } }
    (by decide) rfl (by decide) (by decide)).1

/-- C27. On a cache miss with the lock free, when the token exchange succeeds
but the cache's `Set` returns an error, `GetAccessToken` returns the empty
token together with that error, not the token it has just obtained, and the
lock is released when it returns. -/
theorem GetAccessToken_set_error {σ : Type} (C : Cache σ)
    (PostJSON : String → List (String × String) → String × Option String)
    (checkValid : String → Option String)
    (decodeRes : String → ResAccessToken → ResAccessToken × Option String)
    (dd : DefaultAccessToken) (w : World σ) (req : ResAccessToken) (cache' : σ) (err : String)
    (hmiss : C.Get w.cache dd.GetCacheKey = none) (hfree : w.locked = false)
    (hok : GetTokenFromServer PostJSON checkValid decodeRes
      (if dd.SandBox then sandBoxTokenURL else accessTokenURL)
      dd.AppId dd.AppSecret = (req, none))
    (hset : C.Set w.cache dd.GetCacheKey (CacheValue.str req.Data.AccessToken)
      (wrapInt64 (wrapInt64 (req.Data.ExpiresIn - 1500) * 1000000000)) = (cache', some err)) :
    (GetAccessToken C PostJSON checkValid decodeRes dd w).1 = Outcome.returned ("", some err) ∧
    (GetAccessToken C PostJSON checkValid decodeRes dd w).2.locked = false ∧
    (GetAccessToken C PostJSON checkValid decodeRes dd w).2.cache = cache' ∧
    (GetAccessToken C PostJSON checkValid decodeRes dd w).2.events =
      w.events ++ [Event.cacheGet dd.GetCacheKey, Event.lock, Event.cacheGet dd.GetCacheKey,
        Event.post (if dd.SandBox then sandBoxTokenURL else accessTokenURL)
          [("appid", dd.AppId), ("secret", dd.AppSecret), ("grant_type", "client_credential")],
        Event.cacheSet dd.GetCacheKey (CacheValue.str req.Data.AccessToken)
          (wrapInt64 (wrapInt64 (req.Data.ExpiresIn - 1500) * 1000000000)),
        Event.unlock] := by
  rw [GetAccessToken_exchange_ok C PostJSON checkValid decodeRes dd w req hmiss hfree hok, hset]
  exact ⟨rfl, rfl, rfl, rfl⟩

theorem GetAccessToken_set_error_witness :
    (GetAccessToken (⟨fun _ _ => none, fun c _ _ _ => (c, some "cache is down")⟩ : Cache Unit)
        (fun _ _ => ("body", none)) (fun _ => none)
        (fun _ v => ({ v with Data := { AccessToken := "T", ExpiresIn := 7200 } }, none))
        ⟨"app", "secret", "client_credential", "douyin_openapi_access_token_app", false⟩
        ⟨(), false, []⟩).1 = Outcome.returned ("", some "cache is down") ∧
    (GetAccessToken (⟨fun _ _ => none, fun c _ _ _ => (c, some "cache is down")⟩ : Cache Unit)
        (fun _ _ => ("body", none)) (fun _ => none)
        (fun _ v => ({ v with Data := { AccessToken := "T", ExpiresIn := 7200 } }, none))
        ⟨"app", "secret", "client_credential", "douyin_openapi_access_token_app", false⟩
        ⟨(), false, []⟩).2.locked = false :=
  ⟨(GetAccessToken_set_error (⟨fun _ _ => none, fun c _ _ _ => (c, some "cache is down")⟩ : Cache Unit)
      (fun _ _ => ("body", none)) (fun _ => none)
      (fun _ v => ({ v with Data := { AccessToken := "T", ExpiresIn := 7200 } }, none))
      ⟨"app", "secret", "client_credential", "douyin_openapi_access_token_app", false⟩
      ⟨(), false, []⟩ { Data := { AccessToken := "T", ExpiresIn := 7200 } } () "cache is down"
      rfl rfl (by decide) rfl).1,
   (GetAccessToken_set_error (⟨fun _ _ => none, fun c _ _ _ => (c, some "cache is down")⟩ : Cache Unit)
      (fun _ _ => ("body", none)) (fun _ => none)
      (fun _ v => ({ v with Data := { AccessToken := "T", ExpiresIn := 7200 } }, none))
      ⟨"app", "secret", "client_credential", "douyin_openapi_access_token_app", false⟩
      ⟨(), false, []⟩ { Data := { AccessToken := "T", ExpiresIn := 7200 } } () "cache is down"
      rfl rfl (by decide) rfl).2.1⟩

end DouyinOpenapi
